import Mathlib

/-!
# Aviateur receive pipeline

A shallow embedding of the receive side of Aviateur:

* `src/wifi/WFBReceiver.cpp`: session start and stop, the 802.11 frame handler and the
  RTP handler, as explicit state passing over `WFBReceiver`, every externally visible
  call being appended to a trace of `Event`s;
* `src/wifi/signal_quality.{h,cpp}`: the sliding-window signal quality estimator.

Machine integers are natural numbers or integers with explicit wrap-around where the
source can wrap.  Declarations that the translated files use but do not contain
(`RxFrame`, `RtpHeader`, `ieee80211_header`, the libusb calls, the FEC engine) are
parameters of the model, collected in `Externals` and `UsbEnv`.
-/

namespace Aviateur

/-! ## Data model of the receiver -/

/-- Log levels of the GUI log sink. -/
inductive LogLevel where
  | Info
  | Debug
  | Warn
  | Error
  deriving DecidableEq, Repr

/-- The FEC aggregator object; the model records the constructor arguments
(`keyPath.c_str()`, `epoch`, `video_channel_id_f`) an instance was built with. -/
structure Aggregator where
  keyPath : String
  epoch : Nat
  channel_id : Nat
  deriving DecidableEq, Repr

/-- Externally visible calls made by the receiver, in program order. -/
inductive Event where
  | UpdateCount
  | PutLog (level : LogLevel) (msg : String)
  | PutLogFmt (level : LogLevel) (fmt : String) (args : List Nat)
  | NotifyRtpStream (pt : Nat) (ssrc : Nat)
  | NotifyWifiStop
  | sendto (fd : Nat) (bytes : List Nat) (len : Nat) (addr : String) (port : Nat)
  | process_packet (agg : Aggregator) (buf : List Nat) (size : Nat) (wlan_idx : Nat)
      (antenna : List Nat) (rssi : List Int)
  | libusb_init
  | libusb_open_device_with_vid_pid (vid : Nat) (pid : Nat)
  | libusb_detach_kernel_driver (dev : Nat)
  | libusb_claim_interface (dev : Nat)
  | libusb_release_interface (dev : Option Nat)
  | libusb_close (dev : Option Nat)
  | libusb_exit (ctx : Option Nat)
  | thread_spawn (tid : Nat) (channel : Nat) (channelWidthMode : Int)
  | logger_info (msg : String)
  deriving DecidableEq, Repr

/-- The driver device object; only its cooperative stop flag is used by the receiver. -/
structure RtlDevice where
  should_stop : Bool
  deriving DecidableEq, Repr

/-- The fields of the `GuiInterface` singleton that the receiver reads or writes. -/
structure GuiInterface where
  wifiFrameCount_ : Nat
  wfbFrameCount_ : Nat
  rtpPktCount_ : Nat
  playerCodec : String
  playerPort : Nat
  logCallbacks : Nat
  deriving DecidableEq, Repr

/-- The receiver singleton together with the file-level statics `sendFd` and `playing`,
the function-local static `video_aggregator` of `handle80211Frame` (`none` until the
declaration has been passed for the first time), and the trace of calls made so far. -/
structure WFBReceiver where
  gui : GuiInterface
  keyPath : String
  usbThread : Option Nat
  ctx : Option Nat
  devHandle : Option Nat
  rtlDevice : Option RtlDevice
  playing : Bool
  sendFd : Nat
  video_aggregator : Option Aggregator
  trace : List Event
  deriving DecidableEq, Repr

/-- Modelled from the spec: the per-frame physical metadata of a captured frame, "signal
strength per antenna, signal-to-noise ratio per antenna, antenna index"; the declaration
of the driver type `Packet` that carries it is not among the translated sources. -/
structure RxAtrib where
  rssi : List Int
  snr : List Int
  antenna : List Nat
  deriving DecidableEq, Repr

/-- A captured frame as delivered by the driver: the bytes `Packet::Data` and the
metadata of the frame. -/
structure Packet where
  Data : List Nat
  RxAtrib : RxAtrib := { rssi := [], snr := [], antenna := [] }
  deriving DecidableEq, Repr

/-- The arguments of one invocation of the aggregator callback: the memory at `payload`
and the `uint16_t packet_size`. -/
structure Datagram where
  payload : List Nat
  packet_size : Nat
  deriving DecidableEq, Repr

/-- Declarations used by `WFBReceiver.cpp` whose definitions are in headers that are not
part of the translated sources (`RxFrame.h`, `Rtp.h`, the 802.11 header type), and the
byte order of the host. -/
structure Externals where
  /-- `RxFrame::IsValidWfbFrame` as a function of the frame bytes. -/
  IsValidWfbFrame : List Nat → Bool
  /-- `RxFrame::MatchesChannelID` as a function of the frame bytes and the four bytes
  the argument points to. -/
  MatchesChannelID : List Nat → List Nat → Bool
  /-- `sizeof(ieee80211_header)`. -/
  sizeof_ieee80211_header : Nat
  /-- Offset from the start of the datagram of the byte `RtpHeader::getPayloadData`
  points to. -/
  payloadOffset : List Nat → Nat
  /-- The bit-field `RtpHeader::pt` as a function of the datagram bytes. -/
  pt : List Nat → Nat
  /-- Byte offset of the field `RtpHeader::ssrc`. -/
  ssrcOffset : Nat
  /-- Whether the host is little-endian. -/
  littleEndian : Bool

/-! ## Byte order helpers -/

/-- The value of a 32-bit word whose memory bytes, lowest address first, are `b0 b1 b2 b3`,
on a host of the given byte order. -/
def word32 (littleEndian : Bool) (b0 b1 b2 b3 : Nat) : Nat :=
  if littleEndian then b0 + 256 * b1 + 65536 * b2 + 16777216 * b3
  else b3 + 256 * b2 + 65536 * b1 + 16777216 * b0

/-- The memory bytes, lowest address first, of a 32-bit word on a host of the given byte
order. -/
def bytes32 (littleEndian : Bool) (x : Nat) : List Nat :=
  if littleEndian then [x % 256, x / 256 % 256, x / 65536 % 256, x / 16777216 % 256]
  else [x / 16777216 % 256, x / 65536 % 256, x / 256 % 256, x % 256]

/-- Byte swap of a 32-bit word. -/
def bswap32 (x : Nat) : Nat :=
  x % 256 * 16777216 + x / 256 % 256 * 65536 + x / 65536 % 256 * 256 + x / 16777216 % 256

/-- The conversion `ntohl`: network (big-endian) to host order. -/
def ntohl (littleEndian : Bool) (x : Nat) : Nat :=
  if littleEndian then bswap32 x else x

/-- The conversion `htobe32`: host to big-endian order. -/
def htobe32 (littleEndian : Bool) (x : Nat) : Nat :=
  if littleEndian then bswap32 x else x

/-- Read of the `uint8_t` at index `i` of a buffer. -/
def byteAt (buf : List Nat) (i : Nat) : Nat :=
  buf.getD i 0 % 256

/-- Read of a `uint32_t` field at byte offset `off` of a buffer, in host order. -/
def load32 (littleEndian : Bool) (buf : List Nat) (off : Nat) : Nat :=
  word32 littleEndian (byteAt buf off) (byteAt buf (off + 1)) (byteAt buf (off + 2))
    (byteAt buf (off + 3))

/-- The big-endian value of the four bytes at offset `off`. -/
def be32 (buf : List Nat) (off : Nat) : Nat :=
  16777216 * byteAt buf off + 65536 * byteAt buf (off + 1) + 256 * byteAt buf (off + 2)
    + byteAt buf (off + 3)

/-! ## Parsing of the device identity in `Start` -/

/-- State of the `std::istringstream` over the device identity. -/
structure IStream where
  rest : List Char
  fail : Bool
  deriving DecidableEq, Repr

/-- Whitespace in the classic locale. -/
def isspace (c : Char) : Bool :=
  c.toNat = 32 || (9 ≤ c.toNat && c.toNat ≤ 13)

/-- Skipping of leading whitespace by the stream sentry. -/
def skipws : List Char → List Char
  | [] => []
  | c :: cs => if isspace c then skipws cs else c :: cs

/-- Value of a hexadecimal digit. -/
def hexDigitVal (c : Char) : Option Nat :=
  if 48 ≤ c.toNat ∧ c.toNat ≤ 57 then some (c.toNat - 48)
  else if 97 ≤ c.toNat ∧ c.toNat ≤ 102 then some (c.toNat - 87)
  else if 65 ≤ c.toNat ∧ c.toNat ≤ 70 then some (c.toNat - 55)
  else none

/-- Accumulation of the maximal run of hexadecimal digits: the value so far, the number
of digits consumed so far, and the remaining input. -/
def hexRun : List Char → Nat → Nat → Nat × Nat × List Char
  | [], acc, n => (acc, n, [])
  | c :: cs, acc, n =>
    match hexDigitVal c with
    | some d => hexRun cs (16 * acc + d) (n + 1)
    | none => (acc, n, c :: cs)

/-- The extraction `iss >> std::hex >> v` for an `unsigned int`, `old` being the value
the variable held before: a failed stream or an input exhausted by the sentry leaves the
variable untouched; otherwise an optional sign, one optional leading zero with an optional
`x`, and a run of hexadecimal digits are consumed, no digit at all stores 0 and sets the
fail bit, a value above `UINT_MAX` stores `UINT_MAX` and sets the fail bit. -/
def extractHex (st : IStream) (old : Nat) : Nat × IStream :=
  if st.fail then (old, st)
  else
    match skipws st.rest with
    | [] => (old, { rest := [], fail := true })
    | c :: cs =>
      let neg : Bool := c.toNat = 45
      let s1 : List Char := if c.toNat = 45 ∨ c.toNat = 43 then cs else c :: cs
      let zx : Bool × List Char :=
        match s1 with
        | z :: t =>
          if z.toNat = 48 then
            match t with
            | x :: u => if x.toNat = 120 ∨ x.toNat = 88 then (false, u) else (true, t)
            | [] => (true, [])
          else (false, s1)
        | [] => (false, [])
      let r := hexRun zx.2 0 0
      if r.2.1 = 0 ∧ zx.1 = false then (0, { rest := r.2.2, fail := true })
      else if 4294967295 < r.1 then (4294967295, { rest := r.2.2, fail := true })
      else ((if neg then (4294967296 - r.1) % 4294967296 else r.1), { rest := r.2.2, fail := false })

/-- The extraction `iss >> c` for a `char`. -/
def extractChar (st : IStream) : IStream :=
  if st.fail then st
  else
    match skipws st.rest with
    | [] => { rest := [], fail := true }
    | _ :: cs => { rest := cs, fail := false }

/-- The statement `iss >> std::hex >> wifiDeviceVid >> c >> wifiDevicePid`; `uvid` and
`upid` are the indeterminate values of the two uninitialised locals. -/
def parseVidPid (vidPid : String) (uvid upid : Nat) : Nat × Nat :=
  let a := extractHex { rest := vidPid.toList, fail := false } uvid
  let b := extractChar a.2
  let c := extractHex b upid
  (a.1, c.1)

/-! ## Session start and stop -/

/-- Results of the libusb calls made by `Start`, the identifier of the thread it creates,
and the indeterminate initial values of its two uninitialised locals. -/
structure UsbEnv where
  init_rc : Int
  ctx : Nat
  open_device : Nat → Nat → Option Nat
  kernel_driver_active : Bool
  detach_rc : Int
  claim_rc : Int
  tid : Nat
  uninit_vid : Nat
  uninit_pid : Nat

/-- Append calls to the trace. -/
def emit (s : WFBReceiver) (es : List Event) : WFBReceiver :=
  { s with trace := s.trace ++ es }

/-- The method `WFBReceiver::Start`, up to and including the creation of the worker
thread; the body of the worker is `workerCreateDevice`, `handle80211Frame` for each
delivered frame, and `workerTeardown`. -/
def Start (env : UsbEnv) (s : WFBReceiver) (vidPid : String) (channel : Nat)
    (channelWidthMode : Int) (kPath : String) : Bool × WFBReceiver :=
  let s1 : WFBReceiver :=
    { emit s [Event.UpdateCount] with
      gui := { s.gui with wifiFrameCount_ := 0, wfbFrameCount_ := 0, rtpPktCount_ := 0 }
      keyPath := kPath }
  if s1.usbThread.isSome then (false, s1)
  else
    let ids := parseVidPid vidPid env.uninit_vid env.uninit_pid
    let s2 : WFBReceiver :=
      { emit s1 [Event.libusb_init] with
        gui := { s1.gui with logCallbacks := s1.gui.logCallbacks + 1 } }
    if env.init_rc < 0 then
      (false, emit s2 [Event.PutLog LogLevel.Error "Failed to initialize libusb"])
    else
      let s3 : WFBReceiver :=
        { emit s2 [Event.libusb_open_device_with_vid_pid ids.1 ids.2] with
          ctx := some env.ctx
          devHandle := env.open_device ids.1 ids.2 }
      match env.open_device ids.1 ids.2 with
      | none =>
        (false, emit s3 [Event.PutLogFmt LogLevel.Error
          "Cannot find device \x7b:04x\x7d:\x7b:04x\x7d" [ids.1, ids.2],
          Event.libusb_exit (some env.ctx)])
      | some h =>
        let s4 : WFBReceiver :=
          if env.kernel_driver_active then emit s3 [Event.libusb_detach_kernel_driver h]
          else s3
        let s5 : WFBReceiver := emit s4 [Event.libusb_claim_interface h]
        if env.claim_rc < 0 then
          (false, emit s5 [Event.PutLog LogLevel.Error "Failed to claim interface"])
        else
          (true, { emit s5 [Event.thread_spawn env.tid channel channelWidthMode] with
                   usbThread := some env.tid })

/-- The method `WFBReceiver::Stop`. -/
def Stop (s : WFBReceiver) : Bool × WFBReceiver :=
  (true,
    { emit s [Event.NotifyWifiStop] with
      playing := false
      rtlDevice := s.rtlDevice.map (fun d => { d with should_stop := true }) })

/-- First statement of the worker: `rtlDevice = wifi_driver.CreateRtlDevice(devHandle)`,
`dev` being the device object the driver returns. -/
def workerCreateDevice (s : WFBReceiver) (dev : RtlDevice) : WFBReceiver :=
  { s with rtlDevice := some dev }

/-- How the worker left `try { ... }`. -/
inductive LoopExit where
  | returned
  | runtime_error (what : String)
  | other
  deriving DecidableEq, Repr

/-- The worker from the `catch` clauses to its end; `release_rc` is the result of
`libusb_release_interface`. -/
def workerTeardown (s : WFBReceiver) (how : LoopExit) (release_rc : Int) : WFBReceiver :=
  let s1 : WFBReceiver :=
    match how with
    | LoopExit.runtime_error what => emit s [Event.PutLog LogLevel.Error what]
    | _ => s
  let s2 : WFBReceiver := emit s1 [Event.libusb_release_interface s1.devHandle]
  let s3 : WFBReceiver :=
    if release_rc < 0 then emit s2 [Event.PutLog LogLevel.Error "Failed to release interface"]
    else s2
  let s4 : WFBReceiver :=
    emit s3 [Event.logger_info "USB thread stopped", Event.libusb_close s3.devHandle,
      Event.libusb_exit s3.ctx]
  let s5 : WFBReceiver := { s4 with devHandle := none, ctx := none }
  { (Stop s5).2 with usbThread := none }

/-! ## RTP handler -/

/-- The expression `GET_H264_NAL_UNIT_TYPE(buffer_ptr)`, that is `buffer_ptr[0] & 0x1F`. -/
def GET_H264_NAL_UNIT_TYPE (buffer_ptr : List Nat) : Nat :=
  byteAt buffer_ptr 0 &&& 0x1F

/-- The function `isH264`. -/
def isH264 (data : List Nat) : Bool :=
  let h264NalType := GET_H264_NAL_UNIT_TYPE data
  h264NalType == 24 || h264NalType == 28

/-- The method `WFBReceiver::handleRtp`; `none` stands for the dereference of a null
`rtlDevice`. -/
def handleRtp (ext : Externals) (s : WFBReceiver) (d : Datagram) : Option WFBReceiver :=
  let s1 : WFBReceiver :=
    { emit s [Event.UpdateCount] with
      gui := { s.gui with rtpPktCount_ := s.gui.rtpPktCount_ + 1 } }
  match s1.rtlDevice with
  | none => none
  | some dev =>
    if dev.should_stop then some s1
    else if d.packet_size < 12 then some s1
    else
      let s2 : WFBReceiver :=
        if !s1.playing then
          let s3 : WFBReceiver := { s1 with playing := true }
          let s4 : WFBReceiver :=
            if s3.gui.playerCodec = "AUTO" then
              let codec : String :=
                if isH264 (d.payload.drop (ext.payloadOffset d.payload)) then "H264"
                else "H265"
              { emit s3 [Event.PutLog LogLevel.Debug ("Check codec " ++ codec)] with
                gui := { s3.gui with playerCodec := codec } }
            else s3
          emit s4 [Event.NotifyRtpStream (ext.pt d.payload)
            (ntohl ext.littleEndian (load32 ext.littleEndian d.payload ext.ssrcOffset))]
        else s1
      some (emit s2 [Event.sendto s2.sendFd (d.payload.take d.packet_size) d.packet_size
        "127.0.0.1" s2.gui.playerPort])

/-- The value of `playerCodec` after the `if (!playing)` block of `handleRtp` has run for
datagram `d`, `codec` being its value before. -/
def detectCodec (ext : Externals) (codec : String) (d : Datagram) : String :=
  if codec = "AUTO" then
    (if isH264 (d.payload.drop (ext.payloadOffset d.payload)) then "H264" else "H265")
  else codec

/-- Successive `handleRtp` calls, one for each datagram, in order. -/
def handleRtpAll (ext : Externals) (s : WFBReceiver) : List Datagram → Option WFBReceiver
  | [] => some s
  | d :: ds =>
    match handleRtp ext s d with
    | none => none
    | some s1 => handleRtpAll ext s1 ds

/-- A call made on the receiver while a session runs: the aggregator callback, or `Stop`
from the controlling thread. -/
inductive SessionCall where
  | handleRtp (d : Datagram)
  | Stop
  deriving DecidableEq, Repr

/-- Effect of one call. -/
def SessionCall.run (ext : Externals) (s : WFBReceiver) : SessionCall → Option WFBReceiver
  | SessionCall.handleRtp d => Aviateur.handleRtp ext s d
  | SessionCall.Stop => some (Aviateur.Stop s).2

/-- Effect of a sequence of calls, in order. -/
def runCalls (ext : Externals) (s : WFBReceiver) : List SessionCall → Option WFBReceiver
  | [] => some s
  | c :: cs =>
    match c.run ext s with
    | none => none
    | some s1 => runCalls ext s1 cs

/-- The calls appended to the trace between state `s` and a later state `t`. -/
def newEvents (s t : WFBReceiver) : List Event :=
  t.trace.drop s.trace.length

/-! ## 802.11 frame handler -/

/-- The static `link_id`. -/
def link_id : Nat := 7669206

/-- The static `video_radio_port`. -/
def video_radio_port : Nat := 0

/-- The static `epoch`. -/
def epoch : Nat := 0

/-- The static `video_channel_id_f = (link_id << 8) + video_radio_port` in `uint32_t`. -/
def video_channel_id_f : Nat :=
  ((link_id * 256) % 4294967296 + video_radio_port) % 4294967296

/-- The static `video_channel_id_be = htobe32(video_channel_id_f)`. -/
def video_channel_id_be (littleEndian : Bool) : Nat :=
  htobe32 littleEndian video_channel_id_f

/-- The four bytes `video_channel_id_be8` points to. -/
def video_channel_id_be8 (littleEndian : Bool) : List Nat :=
  bytes32 littleEndian (video_channel_id_be littleEndian)

/-- The `size_t` expression `packet.Data.size() - sizeof(ieee80211_header) - 4`. -/
def payloadSize (ext : Externals) (packet : Packet) : Nat :=
  Int.toNat (((packet.Data.length : Int) - (ext.sizeof_ieee80211_header : Int) - 4)
    % 18446744073709551616)

/-- The method `WFBReceiver::handle80211Frame`; `recovered` lists the datagrams the FEC
engine hands to its callback, in order, during the `process_packet` call of this frame
(unused when the frame is not forwarded). -/
def handle80211Frame (ext : Externals) (s : WFBReceiver) (packet : Packet)
    (recovered : List Datagram) : Option WFBReceiver :=
  let s1 : WFBReceiver :=
    { emit s [Event.UpdateCount] with
      gui := { s.gui with wifiFrameCount_ := s.gui.wifiFrameCount_ + 1 } }
  if !ext.IsValidWfbFrame packet.Data then some s1
  else
    let s2 : WFBReceiver :=
      { emit s1 [Event.UpdateCount] with
        gui := { s1.gui with wfbFrameCount_ := s1.gui.wfbFrameCount_ + 1 } }
    let agg : Aggregator :=
      match s2.video_aggregator with
      | some a => a
      | none => { keyPath := s2.keyPath, epoch := epoch, channel_id := video_channel_id_f }
    let s3 : WFBReceiver := { s2 with video_aggregator := some agg }
    if ext.MatchesChannelID packet.Data (video_channel_id_be8 ext.littleEndian) then
      handleRtpAll ext
        (emit s3 [Event.process_packet agg (packet.Data.drop ext.sizeof_ieee80211_header)
          (payloadSize ext packet) 0 [1, 1, 1, 1] [1, 1, 1, 1]])
        recovered
    else some s3

/-! ## Trace observations and reference instances -/

/-- Whether a call is a relay send. -/
def Event.isSend : Event → Bool
  | Event.sendto _ _ _ _ _ => true
  | _ => false

/-- Whether a call is a stream-started notification. -/
def Event.isNotify : Event → Bool
  | Event.NotifyRtpStream _ _ => true
  | _ => false

/-- Whether a call is a `process_packet` call on the aggregator. -/
def Event.isProcessPacket : Event → Bool
  | Event.process_packet _ _ _ _ _ _ => true
  | _ => false

/-- Whether a call creates a worker thread. -/
def Event.isSpawn : Event → Bool
  | Event.thread_spawn _ _ _ => true
  | _ => false

/-- Whether `handleRtp` gets past its two early returns for this datagram in state `s`. -/
def accepted (s : WFBReceiver) (d : Datagram) : Bool :=
  match s.rtlDevice with
  | some dev => !dev.should_stop && decide (12 ≤ d.packet_size)
  | none => false

/-- A receiver right after construction, before any session: codec selection `AUTO`. -/
def freshReceiver : WFBReceiver :=
  { gui := { wifiFrameCount_ := 0, wfbFrameCount_ := 0, rtpPktCount_ := 0,
             playerCodec := "AUTO", playerPort := 52356, logCallbacks := 0 }
    keyPath := ""
    usbThread := none
    ctx := none
    devHandle := none
    rtlDevice := none
    playing := false
    sendFd := 3
    video_aggregator := none
    trace := [] }

/-- An instance of the external declarations with the layouts of RFC 3550 and of the
WFB-ng data frame: a 24-byte 802.11 header, the channel identity at bytes 12 to 15 of
the frame, a 12-byte fixed RTP header followed by four bytes for each CSRC, the payload
type in the low seven bits of byte 1, the SSRC at byte 8. -/
def rfcExternals : Externals :=
  { IsValidWfbFrame := fun data => decide (28 ≤ data.length) && data.getD 10 0 == 0x57
    MatchesChannelID := fun data ch =>
      data.getD 12 0 == ch.getD 0 0 && data.getD 13 0 == ch.getD 1 0
        && data.getD 14 0 == ch.getD 2 0 && data.getD 15 0 == ch.getD 3 0
    sizeof_ieee80211_header := 24
    payloadOffset := fun p => 12 + 4 * (p.getD 0 0 % 16)
    pt := fun p => p.getD 1 0 % 128
    ssrcOffset := 8
    littleEndian := true }

/-! ## Signal quality estimator (`signal_quality.h`, `signal_quality.cpp`) -/

/-- Floating-point arithmetic is modelled over the rationals: the result of an operation
on `float` (respectively `double`) is the exact result passed through `f32` (respectively
`f64`).  Comparisons, `std::min`, `std::max` and the conversion of small integers are
exact. -/
structure Rounding where
  f32 : ℚ → ℚ
  f64 : ℚ → ℚ

/-- An arithmetic without rounding, for the statements that hold whatever the rounding. -/
def Rounding.exact : Rounding :=
  { f32 := fun x => x, f64 := fun x => x }

/-- An entry of `m_rssis`; the timestamp is a tick count of the steady clock. -/
structure RssiEntry where
  timestamp : Int
  ant1 : Nat
  ant2 : Nat
  deriving DecidableEq, Repr

/-- An entry of `m_snrs`. -/
structure SnrEntry where
  timestamp : Int
  ant1 : Int
  ant2 : Int
  deriving DecidableEq, Repr

/-- An entry of `m_fec_data`. -/
structure FecEntry where
  timestamp : Int
  all : Nat
  recovered : Nat
  lost : Nat
  deriving DecidableEq, Repr

/-- The data members of `SignalQualityCalculator`. -/
structure SignalQualityCalculator where
  m_rssis : List RssiEntry
  m_snrs : List SnrEntry
  m_fec_data : List FecEntry
  m_idr_code : String
  deriving DecidableEq, Repr

/-- The result type `SignalQualityCalculator::SignalQuality`. -/
structure SignalQuality where
  lost_last_second : Int
  recovered_last_second : Int
  total_last_second : Int
  quality : Int
  snr : ℚ
  idr_code : String

/-- A default-constructed estimator. -/
def SignalQualityCalculator.new : SignalQualityCalculator :=
  { m_rssis := [], m_snrs := [], m_fec_data := [], m_idr_code := "aaaa" }

/-- The member `kAveragingWindow`, one second, in nanosecond ticks of the steady clock. -/
def kAveragingWindow : Int := 1000000000

/-- Conversion of an unsigned value to `int` (32-bit two's complement). -/
def toInt32 (n : Nat) : Int :=
  if n % 4294967296 < 2147483648 then ((n % 4294967296 : Nat) : Int)
  else ((n % 4294967296 : Nat) : Int) - 4294967296

/-- Conversion of an integer to `int8_t`. -/
def toInt8 (x : Int) : Int :=
  (x + 128) % 256 - 128

/-- Conversion of a `float` to `int`: truncation toward zero. -/
def truncToInt (q : ℚ) : Int :=
  if 0 ≤ q then ⌊q⌋ else ⌈q⌉

/-- The function `map_range`, in `double`. -/
def map_range (r : Rounding) (value inputMin inputMax outputMin outputMax : ℚ) : ℚ :=
  r.f64 (outputMin
    + r.f64 (r.f64 (r.f64 (value - inputMin) * r.f64 (outputMax - outputMin))
        / r.f64 (inputMax - inputMin)))

/-- The method `cleanup_old_rssi_data`, `now` being the clock reading: erase-remove of
the entries with `timestamp < cutoff`. -/
def cleanup_old_rssi_data (s : SignalQualityCalculator) (now : Int) :
    SignalQualityCalculator :=
  let cutoff := now - kAveragingWindow
  { s with m_rssis := s.m_rssis.filter (fun entry => !decide (entry.timestamp < cutoff)) }

/-- The method `cleanup_old_snr_data`. -/
def cleanup_old_snr_data (s : SignalQualityCalculator) (now : Int) :
    SignalQualityCalculator :=
  let cutoff := now - kAveragingWindow
  { s with m_snrs := s.m_snrs.filter (fun entry => !decide (entry.timestamp < cutoff)) }

/-- The method `cleanup_old_fec_data`. -/
def cleanup_old_fec_data (s : SignalQualityCalculator) (now : Int) :
    SignalQualityCalculator :=
  let cutoff := now - kAveragingWindow
  { s with m_fec_data := s.m_fec_data.filter (fun entry => !decide (entry.timestamp < cutoff)) }

/-- The method `add_rssi`. -/
def add_rssi (s : SignalQualityCalculator) (now : Int) (ant1 ant2 : Nat) :
    SignalQualityCalculator :=
  { s with m_rssis := s.m_rssis ++ [{ timestamp := now, ant1 := ant1 % 256, ant2 := ant2 % 256 }] }

/-- The method `add_snr`. -/
def add_snr (s : SignalQualityCalculator) (now : Int) (ant1 ant2 : Int) :
    SignalQualityCalculator :=
  { s with m_snrs := s.m_snrs ++ [{ timestamp := now, ant1 := toInt8 ant1, ant2 := toInt8 ant2 }] }

/-- The constant `characters` of `generate_random_string`. -/
def characters : List Char := "abcdefghijklmnopqrstuvwxyz".toList

/-- The function `generate_random_string`; `draws i` is the value `distrib(gen)` yields in
iteration `i`. -/
def generate_random_string (draws : Nat → Nat) (length : Nat) : String :=
  String.mk ((List.range length).map (fun i => characters.getD (draws i) 'a'))

/-- The method `add_fec_data`. -/
def add_fec_data (s : SignalQualityCalculator) (now : Int) (draws : Nat → Nat)
    (p_all p_recovered p_lost : Nat) : SignalQualityCalculator :=
  let entry : FecEntry :=
    { timestamp := now, all := p_all % 4294967296, recovered := p_recovered % 4294967296,
      lost := p_lost % 4294967296 }
  let s1 : SignalQualityCalculator :=
    if 0 < entry.lost then { s with m_idr_code := generate_random_string draws 4 } else s
  { s1 with m_fec_data := s1.m_fec_data ++ [entry] }

/-- The part of `get_avg` after its clean-up call, on the pairs `(ant1, ant2)` of the
entries of `array`. -/
def avgOfPairs (r : Rounding) (array : List (ℚ × ℚ)) : ℚ :=
  let count : Int := toInt32 array.length
  let sums : ℚ × ℚ :=
    if 0 < count then
      let acc := array.foldl (fun (a : ℚ × ℚ) entry => (r.f32 (a.1 + entry.1), r.f32 (a.2 + entry.2)))
        ((0 : ℚ), (0 : ℚ))
      (r.f32 (acc.1 / r.f32 (count : ℚ)), r.f32 (acc.2 / r.f32 (count : ℚ)))
    else ((0 : ℚ), (0 : ℚ))
  max sums.1 sums.2

/-- Which member the argument `array` of `get_avg` refers to. -/
inductive AvgOf where
  | m_rssis
  | m_snrs
  deriving DecidableEq, Repr

/-- The method template `get_avg`, for its two instances: it first runs
`cleanup_old_rssi_data` (with its own clock reading `now`), whatever `array` is, and
`array` being a reference sees the result of that clean-up. -/
def get_avg (r : Rounding) (s : SignalQualityCalculator) (array : AvgOf) (now : Int) :
    ℚ × SignalQualityCalculator :=
  let s1 := cleanup_old_rssi_data s now
  let pairs : List (ℚ × ℚ) :=
    match array with
    | AvgOf.m_rssis => s1.m_rssis.map (fun entry => ((entry.ant1 : ℚ), (entry.ant2 : ℚ)))
    | AvgOf.m_snrs => s1.m_snrs.map (fun entry => ((entry.ant1 : ℚ), (entry.ant2 : ℚ)))
  (avgOfPairs r pairs, s1)

/-- The method `get_accumulated_fec_data`: `(p_recovered, p_lost, p_all)` in `uint32_t`. -/
def get_accumulated_fec_data (s : SignalQualityCalculator) : Nat × Nat × Nat :=
  let acc := s.m_fec_data.foldl
    (fun (a : Nat × Nat × Nat) data =>
      ((a.1 + data.recovered) % 4294967296, (a.2.1 + data.lost) % 4294967296,
        (a.2.2 + data.all) % 4294967296))
    (0, 0, 0)
  (acc.1, acc.2.1, acc.2.2)

/-- The five readings of the steady clock during one `calculate_signal_quality` call, in
program order: the three clean-ups, then the clean-up inside each `get_avg`. -/
structure QueryClock where
  rssi : Int
  snr : Int
  fec : Int
  avg_rssi : Int
  avg_snr : Int
  deriving DecidableEq, Repr

/-- A query during which the clock reads `q` every time. -/
def QueryClock.at (q : Int) : QueryClock :=
  { rssi := q, snr := q, fec := q, avg_rssi := q, avg_snr := q }

/-- The method `calculate_signal_quality`. -/
def calculate_signal_quality (r : Rounding) (s : SignalQualityCalculator) (clk : QueryClock) :
    SignalQuality × SignalQualityCalculator :=
  let s1 := cleanup_old_rssi_data s clk.rssi
  let s2 := cleanup_old_snr_data s1 clk.snr
  let s3 := cleanup_old_fec_data s2 clk.fec
  let a1 := get_avg r s3 AvgOf.m_rssis clk.avg_rssi
  let a2 := get_avg r a1.2 AvgOf.m_snrs clk.avg_snr
  let avg_snr : ℚ := a2.1
  let avg_rssi0 : ℚ := r.f32 (map_range r a1.1 0 80 (-1024) 1024)
  let avg_rssi : ℚ := max (-1024) (min 1024 avg_rssi0)
  let fec := get_accumulated_fec_data a2.2
  let quality : ℚ := max (-1024) (min 1024 avg_rssi)
  ({ lost_last_second := toInt32 fec.2.1
     recovered_last_second := toInt32 fec.1
     total_last_second := toInt32 fec.2.2
     quality := truncToInt quality
     snr := avg_snr
     idr_code := a2.2.m_idr_code }, a2.2)

/-- A call of one of the three add operations, with the clock reading at the call. -/
inductive AddOp where
  | add_rssi (now : Int) (ant1 ant2 : Nat)
  | add_snr (now : Int) (ant1 ant2 : Int)
  | add_fec_data (now : Int) (draws : Nat → Nat) (p_all p_recovered p_lost : Nat)

/-- Effect of one add operation. -/
def AddOp.apply (s : SignalQualityCalculator) : AddOp → SignalQualityCalculator
  | AddOp.add_rssi now a b => Aviateur.add_rssi s now a b
  | AddOp.add_snr now a b => Aviateur.add_snr s now a b
  | AddOp.add_fec_data now draws a b c => Aviateur.add_fec_data s now draws a b c

/-- Effect of a sequence of add operations, in order. -/
def applyOps (s : SignalQualityCalculator) (ops : List AddOp) : SignalQualityCalculator :=
  ops.foldl AddOp.apply s

/-- Membership in the window as the specification words it: an entry stamped `t` is in
the window of a query at time `q` when `t >= q - 1s`. -/
def inWindow (q t : Int) : Bool :=
  decide (q - kAveragingWindow ≤ t)

/-- The estimator with each rolling set restricted to the window of a query at `q`, the
entries kept in their order. -/
def windowed (s : SignalQualityCalculator) (q : Int) : SignalQualityCalculator :=
  { s with
    m_rssis := s.m_rssis.filter (fun e => inWindow q e.timestamp)
    m_snrs := s.m_snrs.filter (fun e => inWindow q e.timestamp)
    m_fec_data := s.m_fec_data.filter (fun e => inWindow q e.timestamp) }

/-- Results of the USB calls when the device is present and can be claimed. -/
def usbPresent : UsbEnv :=
  { init_rc := 0, ctx := 1, open_device := fun _ _ => some 2, kernel_driver_active := false,
    detach_rc := 0, claim_rc := 0, tid := 7, uninit_vid := 0, uninit_pid := 0 }

/-- A receiver with a session running: `Start` has succeeded on a fresh receiver. -/
def runningReceiver : WFBReceiver :=
  (Start usbPresent freshReceiver "0bda:8812" 173 0 "gs.key").2

/-- The larger of the two arithmetic means of a non-empty window, as the specification
words it: the mean of the antenna-1 samples and the mean of the antenna-2 samples, each
the sum of the samples divided by their number. -/
def specMaxOfMeans (window : List RssiEntry) : ℚ :=
  max (((window.map (fun e => (e.ant1 : ℚ))).sum) / (window.length : ℚ))
    (((window.map (fun e => (e.ant2 : ℚ))).sum) / (window.length : ℚ))

/-- The quality as the specification words it: `-1024 + 2048 * m / 80`, clamped to
`[-1024, 1024]`, truncated to an integer. -/
def specQuality (m : ℚ) : Int :=
  truncToInt (max (-1024) (min 1024 (-1024 + 2048 * m / 80)))

/-! ## Definitions for the session life cycle and the estimator claims -/

/-- Modelled from the spec: `RxFrame::IsValidWfbFrame`, whose definition (`RxFrame.h`) is
not among the translated sources.  "A frame shorter than header+trailer length is silently
dropped.  Validates the frame matches the expected broadcast-link frame format
(magic/version fields); non-matching frames are dropped": a frame is valid when it holds
at least the link-layer header and the 4-byte trailer and passes the format check
`formatOk`. -/
def specIsValidWfbFrame (sizeof_ieee80211_header : Nat) (formatOk : List Nat → Bool)
    (data : List Nat) : Bool :=
  decide (sizeof_ieee80211_header + 4 ≤ data.length) && formatOk data

/-- The external declarations `ext` with the frame validation modelled from the spec. -/
def specExternals (ext : Externals) (formatOk : List Nat → Bool) : Externals :=
  { ext with IsValidWfbFrame := specIsValidWfbFrame ext.sizeof_ieee80211_header formatOk }

/-- The receiver state apart from the trace of calls. -/
def WFBReceiver.untraced (s : WFBReceiver) : WFBReceiver :=
  { s with trace := [] }

/-- The `process_packet` calls among a list of calls. -/
def processPacketCalls (es : List Event) : List Event :=
  es.filter Event.isProcessPacket

/-- Whether a call reports an error to the log sink. -/
def Event.isErrorLog : Event → Bool
  | Event.PutLog LogLevel.Error _ => true
  | Event.PutLogFmt LogLevel.Error _ _ => true
  | _ => false

/-- A valid WFB frame of the video channel for `rfcExternals`: 30 bytes, channel identity
`75 05 d6 00`, with per-antenna metadata. -/
def videoFrame : Packet :=
  { Data := [8, 1, 0, 0, 255, 255, 255, 255, 255, 255, 87, 66, 117, 5, 214, 0,
             87, 66, 117, 5, 214, 0, 0, 0, 9, 8, 7, 6, 5, 4]
    RxAtrib := { rssi := [-40, -42, 0, 0], snr := [30, 28, 0, 0], antenna := [0, 1, 0, 0] } }

/-- An RTP datagram whose first payload byte has unit type 28. -/
def datagramH264 : Datagram :=
  { payload := [128, 96, 0, 1, 0, 0, 0, 0, 18, 52, 86, 120, 124, 5], packet_size := 14 }

/-- The receive loop of the worker: the frame callback, `handle80211Frame` followed by
`UpdateCount`, for each delivered frame, in order, each frame paired with the datagrams
the FEC engine recovers during its `process_packet` call. -/
def frameLoop (ext : Externals) (s : WFBReceiver) :
    List (Packet × List Datagram) → Option WFBReceiver
  | [] => some s
  | f :: fs =>
    match handle80211Frame ext s f.1 f.2 with
    | none => none
    | some s1 => frameLoop ext (emit s1 [Event.UpdateCount]) fs

/-- One complete session on receiver `s`: `Start` with key path `kPath`, the worker
creates its device, runs the receive loop over `frames` and tears down; `none` when
`Start` fails. -/
def runSession (ext : Externals) (env : UsbEnv) (s : WFBReceiver) (kPath : String)
    (frames : List (Packet × List Datagram)) : Option WFBReceiver :=
  let started := Start env s "0bda:8812" 173 0 kPath
  if started.1 then
    match frameLoop ext (workerCreateDevice started.2 { should_stop := false }) frames with
    | none => none
    | some s1 => some (workerTeardown s1 LoopExit.returned 0)
  else none

/-- Whether an add operation is an `add_fec_data` call that reports loss. -/
def AddOp.isLoss : AddOp → Bool
  | AddOp.add_fec_data _ _ _ _ p_lost => decide (0 < p_lost % 4294967296)
  | _ => false

/-- The arguments `(total, recovered, lost)` of the `add_fec_data` calls of a sequence
whose entries lie in the window of a query at `q`. -/
def fecCallsInWindow (q : Int) : List AddOp → List (Nat × Nat × Nat)
  | [] => []
  | AddOp.add_fec_data now _ a b c :: ops =>
    if inWindow q now then (a, b, c) :: fecCallsInWindow q ops else fecCallsInWindow q ops
  | AddOp.add_rssi _ _ _ :: ops => fecCallsInWindow q ops
  | AddOp.add_snr _ _ _ :: ops => fecCallsInWindow q ops

/-- The larger of the two arithmetic means of the SNR samples of a window, as the
specification words it. -/
def specMaxOfMeansSnr (window : List SnrEntry) : ℚ :=
  max (((window.map (fun e => (e.ant1 : ℚ))).sum) / (window.length : ℚ))
    (((window.map (fun e => (e.ant2 : ℚ))).sum) / (window.length : ℚ))

/-- Results of the USB calls when no device with the given identity is attached. -/
def usbAbsent : UsbEnv :=
  { usbPresent with open_device := fun _ _ => none }

/-- Results of the USB calls when the device is present and claiming its interface
fails. -/
def usbBusy : UsbEnv :=
  { usbPresent with claim_rc := -6 }

/-- The aggregator that `handle80211Frame` uses in state `s`: the static instance if it
has been constructed, otherwise the one constructed now from the current `keyPath`. -/
def aggregatorInUse (s : WFBReceiver) : Aggregator :=
  match s.video_aggregator with
  | some a => a
  | none => { keyPath := s.keyPath, epoch := epoch, channel_id := video_channel_id_f }

/-! ## Definitions for the worker, the counters and the device identity -/

/-- A step of the receiver between two `Start` calls: the worker creates its device, a
frame is delivered to the frame callback, `handle80211Frame` followed by `UpdateCount`
(with the datagrams recovered during its `process_packet` call), `Stop` is called, or the
worker tears down. -/
inductive WorkerCall where
  | createDevice (dev : RtlDevice)
  | frame (packet : Packet) (recovered : List Datagram)
  | stop
  | teardown (how : LoopExit) (release_rc : Int)
  deriving DecidableEq, Repr

/-- Effect of one step. -/
def WorkerCall.run (ext : Externals) (s : WFBReceiver) : WorkerCall → Option WFBReceiver
  | WorkerCall.createDevice dev => some (workerCreateDevice s dev)
  | WorkerCall.frame packet recovered =>
    (handle80211Frame ext s packet recovered).map (fun s1 => emit s1 [Event.UpdateCount])
  | WorkerCall.stop => some (Aviateur.Stop s).2
  | WorkerCall.teardown how release_rc => some (workerTeardown s how release_rc)

/-- The digit loop of the stream inserter for an unsigned value in base 16, lowercase:
the least significant digit is produced first and the digits are stored from the back;
the loop ends when the quotient is zero. -/
def hexDigitsLoop : Nat → Nat → List Char → List Char
  | 0, _, acc => acc
  | fuel + 1, n, acc =>
    if n / 16 = 0 then Nat.digitChar (n % 16) :: acc
    else hexDigitsLoop fuel (n / 16) (Nat.digitChar (n % 16) :: acc)

/-- The characters of `ss << std::hex << v` for a `uint16_t` value, without padding. -/
def toHex (v : Nat) : List Char :=
  hexDigitsLoop 4 (v % 65536) []

/-- The effect of `std::setw(w)` and `std::setfill(c)` on the next insertion: fill
characters in front, up to width `w`. -/
def padLeft (w : Nat) (c : Char) (l : List Char) : List Char :=
  List.replicate (w - l.length) c ++ l

/-- The string built by lines 44 to 47 of `GetDongleList` for a device descriptor with
the given `idVendor` and `idProduct`. -/
def dongleEntry (idVendor idProduct : Nat) : String :=
  String.mk (padLeft 4 '0' (toHex idVendor) ++ [':'] ++ padLeft 4 '0' (toHex idProduct))

/-- The fields of `libusb_device_descriptor` that `GetDongleList` reads. -/
structure DeviceDescriptor where
  bDeviceClass : Nat
  idVendor : Nat
  idProduct : Nat
  deriving DecidableEq, Repr

/-- The constant `LIBUSB_CLASS_PER_INTERFACE`. -/
def LIBUSB_CLASS_PER_INTERFACE : Nat := 0

/-- The list `GetDongleList` has built when its loop over the devices ends, before it is
sorted: `none` stands for a device whose descriptor cannot be read. -/
def dongleEntries : List (Option DeviceDescriptor) → List String
  | [] => []
  | none :: devs => dongleEntries devs
  | some desc :: devs =>
    if desc.bDeviceClass = LIBUSB_CLASS_PER_INTERFACE then
      dongleEntry desc.idVendor desc.idProduct :: dongleEntries devs
    else dongleEntries devs

/-- An RTP datagram of exactly 12 bytes (the fixed header, no CSRC, no payload); the
memory behind it holds the byte `stale`. -/
def datagram12 (stale : Nat) : Datagram :=
  { payload := [128, 96, 0, 1, 0, 0, 0, 0, 18, 52, 86, 120, stale], packet_size := 12 }

/-! ## Binary floating point and definitions for the estimator in floating point -/

/-- Rounding of a rational to the nearest integer, a tie going to the even one. -/
def roundHalfEven (y : ℚ) : Int :=
  if y - (⌊y⌋ : ℚ) < 1 / 2 then ⌊y⌋
  else if 1 / 2 < y - (⌊y⌋ : ℚ) then ⌊y⌋ + 1
  else if ⌊y⌋ % 2 = 0 then ⌊y⌋ else ⌊y⌋ + 1

/-- Rounding of a rational to the nearest binary floating-point number with a significand
of `p` bits, ties to even (the rounding of the arithmetic operations and conversions of
`float`, `p = 24`, and `double`, `p = 53`): with `2^e <= |x| < 2^(e+1)` the spacing of
the numbers around `x` is `2^(e-(p-1))`.  The exponent range is not bounded: the values
of the estimator, of magnitude between `2^-31` and `2^40` when not zero, are far from
overflow and from the subnormal numbers of both formats. -/
def roundBinary (p : Nat) (x : ℚ) : ℚ :=
  if x = 0 then 0
  else
    let e : Int := Int.log 2 |x|
    let ulp : ℚ := (2 : ℚ) ^ (e - ((p : Int) - 1))
    (roundHalfEven (x / ulp) : ℚ) * ulp

/-- The arithmetic of the program: `float` is binary32 and `double` is binary64, each
operation rounded to nearest, ties to even. -/
def Rounding.ieee : Rounding :=
  { f32 := roundBinary 24, f64 := roundBinary 53 }

/-- The larger of the two means of a non-empty window of RSSI samples, each mean rounded
to `float`: the exact mean of the antenna-1 samples and the exact mean of the antenna-2
samples, each rounded to the nearest `float`. -/
def specRoundedMaxOfMeans (window : List RssiEntry) : ℚ :=
  max (Rounding.ieee.f32 (((window.map (fun e => (e.ant1 : ℚ))).sum) / (window.length : ℚ)))
    (Rounding.ieee.f32 (((window.map (fun e => (e.ant2 : ℚ))).sum) / (window.length : ℚ)))

/-- The quality for the rounded mean `m`: `2048 * m / 80` rounded to `double`, `-1024`
added and the sum rounded to `double`, the result rounded to `float`, clamped to
`[-1024, 1024]` and truncated to an integer. -/
def specRoundedQuality (m : ℚ) : Int :=
  truncToInt (max (-1024) (min 1024
    (Rounding.ieee.f32 (Rounding.ieee.f64 (-1024 + Rounding.ieee.f64 (2048 * m / 80))))))

/-- The larger of the two means of a non-empty window of SNR samples, each mean rounded
to `float`. -/
def specRoundedMaxOfMeansSnr (window : List SnrEntry) : ℚ :=
  max (Rounding.ieee.f32 (((window.map (fun e => (e.ant1 : ℚ))).sum) / (window.length : ℚ)))
    (Rounding.ieee.f32 (((window.map (fun e => (e.ant2 : ℚ))).sum) / (window.length : ℚ)))

/-- A burst of RSSI samples: 2033 calls `add_rssi(68, 0)` followed by 16 calls
`add_rssi(69, 0)`, all at clock reading 0. -/
def rssiBurst : List AddOp :=
  List.replicate 2033 (AddOp.add_rssi 0 68 0) ++ List.replicate 16 (AddOp.add_rssi 0 69 0)

/-- The entries that the calls of `rssiBurst` append to `m_rssis`. -/
def burstEntries : List RssiEntry :=
  List.replicate 2033 { timestamp := 0, ant1 := 68, ant2 := 0 }
    ++ List.replicate 16 { timestamp := 0, ant1 := 69, ant2 := 0 }

/-- An estimator holding one RSSI entry `(40, 50)` and one SNR entry `(20, 25)`, both
stamped 0. -/
def boundaryEstimator : SignalQualityCalculator :=
  add_snr (add_rssi SignalQualityCalculator.new 0 40 50) 0 20 25

/-- The readings of a clock that ticks once during a query: the three clean-ups read one
second, the clean-ups inside the two `get_avg` calls read one second and one tick. -/
def tickingClock : QueryClock :=
  { rssi := 1000000000, snr := 1000000000, fec := 1000000000, avg_rssi := 1000000001,
    avg_snr := 1000000001 }

/-! ## Definitions for the codec decision of a session -/

end Aviateur

namespace Aviateur

/-! ## Lemmas on the RTP handler -/

theorem byteAt_drop (buf : List Nat) (n : Nat) : byteAt (buf.drop n) 0 = byteAt buf n := by
  simp [byteAt, List.getD_eq_getElem?_getD, List.getElem?_drop]

theorem nal_type_eq (buf : List Nat) (n : Nat) :
    GET_H264_NAL_UNIT_TYPE (buf.drop n) = buf.getD n 0 % 32 := by
  have h : ∀ x : Nat, x &&& 0x1F = x % 32 := fun x => Nat.and_pow_two_sub_one_eq_mod x 5
  rw [GET_H264_NAL_UNIT_TYPE, h, byteAt_drop, byteAt]
  omega

theorem isH264_iff (buf : List Nat) (n : Nat) :
    isH264 (buf.drop n) = true ↔ buf.getD n 0 % 32 = 24 ∨ buf.getD n 0 % 32 = 28 := by
  simp [isH264, nal_type_eq]

theorem ntohl_load32 (le : Bool) (buf : List Nat) (off : Nat) :
    ntohl le (load32 le buf off) = be32 buf off := by
  have h0 : byteAt buf off < 256 := Nat.mod_lt _ (by decide)
  have h1 : byteAt buf (off + 1) < 256 := Nat.mod_lt _ (by decide)
  have h2 : byteAt buf (off + 2) < 256 := Nat.mod_lt _ (by decide)
  have h3 : byteAt buf (off + 3) < 256 := Nat.mod_lt _ (by decide)
  cases le
  · simp only [ntohl, load32, word32, be32]
    simp
    omega
  · simp only [ntohl, load32, word32, be32, bswap32]
    simp
    omega

theorem newEvents_append (s t : WFBReceiver) (es : List Event) (h : t.trace = s.trace ++ es) :
    newEvents s t = es := by
  simp [newEvents, h]

/-- A datagram that is not accepted only bumps the RTP packet counter. -/
theorem handleRtp_not_accepted (ext : Externals) (s : WFBReceiver) (dev : RtlDevice)
    (d : Datagram) (hdev : s.rtlDevice = some dev) (hrej : accepted s d = false) :
    ∃ s1, handleRtp ext s d = some s1 ∧ s1.trace = s.trace ++ [Event.UpdateCount]
      ∧ s1.playing = s.playing ∧ s1.rtlDevice = s.rtlDevice
      ∧ s1.gui.playerCodec = s.gui.playerCodec := by
  simp only [accepted, hdev, Bool.and_eq_false_iff, Bool.not_eq_false_eq_eq_true,
    decide_eq_false_iff_not, not_le] at hrej
  unfold handleRtp
  simp only [emit, hdev]
  rcases hrej with h | h
  · simp [h]
  · simp [h]

/-- An accepted datagram while the stream is already playing is counted and relayed. -/
theorem handleRtp_playing (ext : Externals) (s : WFBReceiver) (d : Datagram)
    (hacc : accepted s d = true) (hplay : s.playing = true) :
    ∃ s1, handleRtp ext s d = some s1
      ∧ s1.trace = s.trace ++ [Event.UpdateCount, Event.sendto s.sendFd
          (d.payload.take d.packet_size) d.packet_size "127.0.0.1" s.gui.playerPort]
      ∧ s1.playing = s.playing ∧ s1.rtlDevice = s.rtlDevice
      ∧ s1.gui.playerCodec = s.gui.playerCodec := by
  unfold accepted at hacc
  cases hdev : s.rtlDevice with
  | none => simp [hdev] at hacc
  | some dev =>
    simp only [hdev, Bool.and_eq_true, Bool.not_eq_true_eq_eq_false, decide_eq_true_eq] at hacc
    unfold handleRtp
    simp [emit, hdev, hacc.1, Nat.not_lt.mpr hacc.2, hplay]

/-- The first accepted datagram: the stream starts playing, the codec is detected when
it is `AUTO`, the notification is sent, and the datagram is relayed. -/
theorem handleRtp_first (ext : Externals) (s : WFBReceiver) (d : Datagram)
    (hacc : accepted s d = true) (hplay : s.playing = false) :
    ∃ s1 es, handleRtp ext s d = some s1 ∧ s1.trace = s.trace ++ es
      ∧ s1.playing = true ∧ s1.rtlDevice = s.rtlDevice
      ∧ s1.gui.playerCodec = detectCodec ext s.gui.playerCodec d
      ∧ es.filter Event.isNotify =
          [Event.NotifyRtpStream (ext.pt d.payload) (be32 d.payload ext.ssrcOffset)]
      ∧ es.filter Event.isSend =
          [Event.sendto s.sendFd (d.payload.take d.packet_size) d.packet_size "127.0.0.1"
            s.gui.playerPort] := by
  unfold accepted at hacc
  cases hdev : s.rtlDevice with
  | none => simp [hdev] at hacc
  | some dev =>
    simp only [hdev, Bool.and_eq_true, Bool.not_eq_true_eq_eq_false, decide_eq_true_eq] at hacc
    have key : ∃ s1, handleRtp ext s d = some s1 := by
      unfold handleRtp
      simp [emit, hdev, hacc.1, Nat.not_lt.mpr hacc.2]
    obtain ⟨s1, h1⟩ := key
    have h2 := h1
    unfold handleRtp at h2
    by_cases hauto : s.gui.playerCodec = "AUTO"
    · refine ⟨s1, [Event.UpdateCount, Event.PutLog LogLevel.Debug
        ("Check codec " ++ detectCodec ext s.gui.playerCodec d),
        Event.NotifyRtpStream (ext.pt d.payload) (be32 d.payload ext.ssrcOffset),
        Event.sendto s.sendFd (d.payload.take d.packet_size) d.packet_size "127.0.0.1"
          s.gui.playerPort], h1, ?_⟩
      simp [emit, hdev, hacc.1, Nat.not_lt.mpr hacc.2, hplay, hauto] at h2
      subst h2
      simp [hdev, hauto, detectCodec, Event.isNotify, Event.isSend, ntohl_load32]
    · refine ⟨s1, [Event.UpdateCount,
        Event.NotifyRtpStream (ext.pt d.payload) (be32 d.payload ext.ssrcOffset),
        Event.sendto s.sendFd (d.payload.take d.packet_size) d.packet_size "127.0.0.1"
          s.gui.playerPort], h1, ?_⟩
      simp [emit, hdev, hacc.1, Nat.not_lt.mpr hacc.2, hplay, hauto] at h2
      subst h2
      simp [hdev, hauto, detectCodec, Event.isNotify, Event.isSend, ntohl_load32]

/-! ## Claims on the RTP handler -/

/-- C2: for a datagram with `packet_size < 12`, `handleRtp` returns having made exactly one
call, `UpdateCount`: no relay send, no stream-started notification; the codec decision
`playerCodec` and the `playing` flag are as before the call. -/
theorem handleRtp_short_datagram (ext : Externals) (s : WFBReceiver) (dev : RtlDevice)
    (d : Datagram) (hdev : s.rtlDevice = some dev) (hshort : d.packet_size < 12) :
    ∃ s1, handleRtp ext s d = some s1
      ∧ newEvents s s1 = [Event.UpdateCount]
      ∧ (newEvents s s1).filter Event.isSend = []
      ∧ (newEvents s s1).filter Event.isNotify = []
      ∧ s1.gui.playerCodec = s.gui.playerCodec
      ∧ s1.playing = s.playing := by
  have hrej : accepted s d = false := by
    simp [accepted, hdev, Nat.not_le.mpr hshort]
  obtain ⟨s1, h1, ht, hp, -, hc⟩ := handleRtp_not_accepted ext s dev d hdev hrej
  have hn := newEvents_append s s1 _ ht
  refine ⟨s1, h1, hn, ?_, ?_, hc, hp⟩
  · simp [hn, Event.isSend]
  · simp [hn, Event.isNotify]

/-- Witness for C2: a 10-byte datagram on a fresh receiver whose device is running. -/
theorem handleRtp_short_datagram_witness :
    ∃ s1, handleRtp rfcExternals (workerCreateDevice freshReceiver { should_stop := false })
        { payload := [128, 96, 0, 1, 0, 0, 0, 0, 0, 7], packet_size := 10 } = some s1
      ∧ newEvents (workerCreateDevice freshReceiver { should_stop := false }) s1
          = [Event.UpdateCount]
      ∧ (newEvents (workerCreateDevice freshReceiver { should_stop := false }) s1).filter
          Event.isSend = []
      ∧ (newEvents (workerCreateDevice freshReceiver { should_stop := false }) s1).filter
          Event.isNotify = []
      ∧ s1.gui.playerCodec
          = (workerCreateDevice freshReceiver { should_stop := false }).gui.playerCodec
      ∧ s1.playing = (workerCreateDevice freshReceiver { should_stop := false }).playing :=
  handleRtp_short_datagram rfcExternals _ { should_stop := false } _ rfl (by decide)

/-- C3: when the first accepted datagram of a session (`packet_size >= 12`, device not
stopping, `playing` still false) arrives while `playerCodec` is `AUTO`, `handleRtp`
returns with `playerCodec` equal to `H264` if and only if the low five bits of the byte
`getPayloadData` points to are 24 or 28, and equal to `H265` for every other value. -/
theorem handleRtp_codec_detection (ext : Externals) (s : WFBReceiver) (dev : RtlDevice)
    (d : Datagram) (hdev : s.rtlDevice = some dev) (hrun : dev.should_stop = false)
    (hlen : 12 ≤ d.packet_size) (hfirst : s.playing = false)
    (hauto : s.gui.playerCodec = "AUTO") :
    ∃ s1, handleRtp ext s d = some s1
      ∧ (s1.gui.playerCodec = "H264" ↔
          (d.payload.getD (ext.payloadOffset d.payload) 0 % 32 = 24
            ∨ d.payload.getD (ext.payloadOffset d.payload) 0 % 32 = 28))
      ∧ (s1.gui.playerCodec = "H265" ↔
          ¬ (d.payload.getD (ext.payloadOffset d.payload) 0 % 32 = 24
            ∨ d.payload.getD (ext.payloadOffset d.payload) 0 % 32 = 28)) := by
  have hacc : accepted s d = true := by simp [accepted, hdev, hrun, hlen]
  obtain ⟨s1, es, h1, -, -, -, hc, -, -⟩ := handleRtp_first ext s d hacc hfirst
  refine ⟨s1, h1, ?_, ?_⟩
  · rw [hc, detectCodec, if_pos hauto, ← isH264_iff]
    by_cases h : isH264 (d.payload.drop (ext.payloadOffset d.payload)) = true
    · simp [h]
    · simp only [h, if_false, iff_false]
      decide
  · rw [hc, detectCodec, if_pos hauto, ← isH264_iff]
    by_cases h : isH264 (d.payload.drop (ext.payloadOffset d.payload)) = true
    · simp only [h, if_true, not_true_eq_false, iff_false]
      decide
    · simp [h]

/-- Witness for C3: a 14-byte datagram whose first payload byte is `0x7c` (unit type 28). -/
theorem handleRtp_codec_detection_witness :
    ∃ s1, handleRtp rfcExternals (workerCreateDevice freshReceiver { should_stop := false })
        { payload := [128, 96, 0, 1, 0, 0, 0, 0, 18, 52, 86, 120, 124, 5],
          packet_size := 14 } = some s1
      ∧ (s1.gui.playerCodec = "H264" ↔ (124 % 32 = 24 ∨ 124 % 32 = 28))
      ∧ (s1.gui.playerCodec = "H265" ↔ ¬ (124 % 32 = 24 ∨ 124 % 32 = 28)) :=
  handleRtp_codec_detection rfcExternals
    (workerCreateDevice freshReceiver { should_stop := false }) { should_stop := false }
    { payload := [128, 96, 0, 1, 0, 0, 0, 0, 18, 52, 86, 120, 124, 5], packet_size := 14 }
    rfl rfl (by decide) rfl rfl

/-- C6: for every accepted datagram (`packet_size >= 12`, device not stopping), whether
the stream is already playing or not, `handleRtp` returns having issued exactly one
`sendto`: on `sendFd`, with the first `packet_size` bytes at `payload` unmodified and
length `packet_size`, addressed to 127.0.0.1 at `playerPort`. -/
theorem handleRtp_relays_verbatim (ext : Externals) (s : WFBReceiver) (dev : RtlDevice)
    (d : Datagram) (hdev : s.rtlDevice = some dev) (hrun : dev.should_stop = false)
    (hlen : 12 ≤ d.packet_size) :
    ∃ s1, handleRtp ext s d = some s1
      ∧ (newEvents s s1).filter Event.isSend =
          [Event.sendto s.sendFd (d.payload.take d.packet_size) d.packet_size "127.0.0.1"
            s.gui.playerPort] := by
  have hacc : accepted s d = true := by simp [accepted, hdev, hrun, hlen]
  cases hplay : s.playing with
  | false =>
    obtain ⟨s1, es, h1, ht, -, -, -, -, hs⟩ := handleRtp_first ext s d hacc hplay
    exact ⟨s1, h1, by rw [newEvents_append s s1 es ht]; exact hs⟩
  | true =>
    obtain ⟨s1, h1, ht, -⟩ := handleRtp_playing ext s d hacc hplay
    exact ⟨s1, h1, by rw [newEvents_append s s1 _ ht]; simp [Event.isSend]⟩

/-- Witness for C6: a 14-byte datagram on a fresh receiver whose device is running. -/
theorem handleRtp_relays_verbatim_witness :
    ∃ s1, handleRtp rfcExternals (workerCreateDevice freshReceiver { should_stop := false })
        { payload := [128, 96, 0, 1, 0, 0, 0, 0, 18, 52, 86, 120, 124, 5],
          packet_size := 14 } = some s1
      ∧ (newEvents (workerCreateDevice freshReceiver { should_stop := false }) s1).filter
          Event.isSend =
          [Event.sendto 3 [128, 96, 0, 1, 0, 0, 0, 0, 18, 52, 86, 120, 124, 5] 14 "127.0.0.1"
            52356] :=
  handleRtp_relays_verbatim rfcExternals
    (workerCreateDevice freshReceiver { should_stop := false }) { should_stop := false }
    { payload := [128, 96, 0, 1, 0, 0, 0, 0, 18, 52, 86, 120, 124, 5], packet_size := 14 }
    rfl rfl (by decide)

/-! ## Sequences of calls within a session -/

/-- While the stream is playing, or the device is stopping, any call returns, keeps that
condition, and leaves the codec decision alone. -/
theorem sessionCall_sticky (ext : Externals) (s : WFBReceiver) (dev : RtlDevice)
    (c : SessionCall) (hdev : s.rtlDevice = some dev)
    (hinv : s.playing = true ∨ dev.should_stop = true) :
    ∃ s1 dev1, c.run ext s = some s1 ∧ s1.rtlDevice = some dev1
      ∧ (s1.playing = true ∨ dev1.should_stop = true)
      ∧ s1.gui.playerCodec = s.gui.playerCodec := by
  cases c with
  | Stop =>
    refine ⟨_, { dev with should_stop := true }, rfl, ?_, Or.inr rfl, rfl⟩
    simp [Stop, emit, hdev]
  | handleRtp d =>
    cases hacc : accepted s d with
    | false =>
      obtain ⟨s1, h1, -, hp, hd, hc⟩ := handleRtp_not_accepted ext s dev d hdev hacc
      exact ⟨s1, dev, h1, hd.trans hdev, by rw [hp]; exact hinv, hc⟩
    | true =>
      have hrun : dev.should_stop = false := by
        simp only [accepted, hdev, Bool.and_eq_true, Bool.not_eq_true_eq_eq_false] at hacc
        exact hacc.1
      have hplay : s.playing = true := by
        rcases hinv with h | h
        · exact h
        · rw [hrun] at h
          exact absurd h (by decide)
      obtain ⟨s1, h1, -, hp, hd, hc⟩ := handleRtp_playing ext s d hacc hplay
      exact ⟨s1, dev, h1, hd.trans hdev, Or.inl (hp.trans hplay), hc⟩

theorem runCalls_sticky (ext : Externals) (calls : List SessionCall) :
    ∀ (s : WFBReceiver) (dev : RtlDevice), s.rtlDevice = some dev →
      (s.playing = true ∨ dev.should_stop = true) →
      ∃ s2, runCalls ext s calls = some s2 ∧ s2.gui.playerCodec = s.gui.playerCodec := by
  induction calls with
  | nil => intro s dev _ _; exact ⟨s, rfl, rfl⟩
  | cons c cs ih =>
    intro s dev hdev hinv
    obtain ⟨s1, dev1, h1, hdev1, hinv1, hc1⟩ := sessionCall_sticky ext s dev c hdev hinv
    obtain ⟨s2, h2, hc2⟩ := ih s1 dev1 hdev1 hinv1
    exact ⟨s2, by simp [runCalls, h1, h2], hc2.trans hc1⟩

/-- C4: once the first accepted datagram `d0` of a session has been handled (which sets
the codec decision), every later sequence of calls in that session, `handleRtp` with any
datagram (any length, any unit-type byte) and also `Stop`, returns and leaves
`playerCodec` as that first call left it. -/
theorem codec_decision_sticky (ext : Externals) (s : WFBReceiver) (dev : RtlDevice)
    (d0 : Datagram) (calls : List SessionCall) (hdev : s.rtlDevice = some dev)
    (hrun : dev.should_stop = false) (hlen : 12 ≤ d0.packet_size)
    (hfirst : s.playing = false) :
    ∃ s1, handleRtp ext s d0 = some s1
      ∧ s1.gui.playerCodec = detectCodec ext s.gui.playerCodec d0
      ∧ ∃ s2, runCalls ext s1 calls = some s2 ∧ s2.gui.playerCodec = s1.gui.playerCodec := by
  have hacc : accepted s d0 = true := by simp [accepted, hdev, hrun, hlen]
  obtain ⟨s1, es, h1, -, hp1, hd1, hc, -, -⟩ := handleRtp_first ext s d0 hacc hfirst
  exact ⟨s1, h1, hc, runCalls_sticky ext calls s1 dev (hd1.trans hdev) (Or.inl hp1)⟩

/-- Witness for C4: after a first datagram of unit type 28, a datagram of unit type 1, a
`Stop` and a short datagram leave the decision at `H264`. -/
theorem codec_decision_sticky_witness :
    ∃ s1, handleRtp rfcExternals (workerCreateDevice freshReceiver { should_stop := false })
        { payload := [128, 96, 0, 1, 0, 0, 0, 0, 18, 52, 86, 120, 124, 5],
          packet_size := 14 } = some s1
      ∧ s1.gui.playerCodec = "H264"
      ∧ ∃ s2, runCalls rfcExternals s1
          [SessionCall.handleRtp
            { payload := [128, 96, 0, 2, 0, 0, 0, 0, 18, 52, 86, 120, 65, 5], packet_size := 14 },
           SessionCall.Stop,
           SessionCall.handleRtp { payload := [1, 2, 3], packet_size := 3 }] = some s2
        ∧ s2.gui.playerCodec = s1.gui.playerCodec :=
  codec_decision_sticky rfcExternals
    (workerCreateDevice freshReceiver { should_stop := false }) { should_stop := false }
    { payload := [128, 96, 0, 1, 0, 0, 0, 0, 18, 52, 86, 120, 124, 5], packet_size := 14 }
    _ rfl rfl (by decide) rfl

/-- While the stream is playing, a run of `handleRtp` calls emits no notification. -/
theorem handleRtpAll_playing (ext : Externals) (ds : List Datagram) :
    ∀ (s : WFBReceiver) (dev : RtlDevice), s.rtlDevice = some dev → s.playing = true →
      ∃ s1 es, handleRtpAll ext s ds = some s1 ∧ s1.trace = s.trace ++ es
        ∧ es.filter Event.isNotify = [] := by
  induction ds with
  | nil => intro s dev _ _; exact ⟨s, [], rfl, by simp, rfl⟩
  | cons d ds ih =>
    intro s dev hdev hplay
    cases hacc : accepted s d with
    | false =>
      obtain ⟨s1, h1, ht1, hp1, hd1, -⟩ := handleRtp_not_accepted ext s dev d hdev hacc
      obtain ⟨s2, es, h2, ht, hn⟩ := ih s1 dev (hd1.trans hdev) (hp1.trans hplay)
      refine ⟨s2, Event.UpdateCount :: es, ?_, ?_, ?_⟩
      · simp [handleRtpAll, h1, h2]
      · simp [ht, ht1]
      · simpa [Event.isNotify] using hn
    | true =>
      obtain ⟨s1, h1, ht1, hp1, hd1, -⟩ := handleRtp_playing ext s d hacc hplay
      obtain ⟨s2, es, h2, ht, hn⟩ := ih s1 dev (hd1.trans hdev) (hp1.trans hplay)
      refine ⟨s2, Event.UpdateCount :: Event.sendto s.sendFd (d.payload.take d.packet_size)
        d.packet_size "127.0.0.1" s.gui.playerPort :: es, ?_, ?_, ?_⟩
      · simp [handleRtpAll, h1, h2]
      · simp [ht, ht1]
      · simpa [Event.isNotify] using hn

theorem accepted_congr (s t : WFBReceiver) (h : t.rtlDevice = s.rtlDevice) :
    accepted t = accepted s := by
  funext d
  simp [accepted, h]

/-- The notifications of a run of `handleRtp` calls that starts with `playing` false. -/
theorem handleRtpAll_notifications (ext : Externals) (ds : List Datagram) :
    ∀ (s : WFBReceiver) (dev : RtlDevice), s.rtlDevice = some dev → s.playing = false →
      ∃ s1 es, handleRtpAll ext s ds = some s1 ∧ s1.trace = s.trace ++ es
        ∧ es.filter Event.isNotify =
          (match ds.find? (accepted s) with
            | some d => [Event.NotifyRtpStream (ext.pt d.payload) (be32 d.payload ext.ssrcOffset)]
            | none => [])
        ∧ (ds.find? (accepted s) = none → s1.playing = false ∧ s1.rtlDevice = s.rtlDevice) := by
  induction ds with
  | nil => intro s dev _ hplay; exact ⟨s, [], rfl, by simp, rfl, fun _ => ⟨hplay, rfl⟩⟩
  | cons d ds ih =>
    intro s dev hdev hplay
    cases hacc : accepted s d with
    | false =>
      obtain ⟨s1, h1, ht1, hp1, hd1, -⟩ := handleRtp_not_accepted ext s dev d hdev hacc
      obtain ⟨s2, es, h2, ht, hn, hk⟩ := ih s1 dev (hd1.trans hdev) (hp1.trans hplay)
      rw [accepted_congr s s1 hd1] at hn hk
      refine ⟨s2, Event.UpdateCount :: es, ?_, ?_, ?_, ?_⟩
      · simp [handleRtpAll, h1, h2]
      · simp [ht, ht1]
      · simpa [Event.isNotify, List.find?, hacc] using hn
      · intro hnone
        simp only [List.find?, hacc] at hnone
        exact ⟨(hk hnone).1, (hk hnone).2.trans hd1⟩
    | true =>
      obtain ⟨s1, es1, h1, ht1, hp1, hd1, -, hn1, -⟩ := handleRtp_first ext s d hacc hplay
      obtain ⟨s2, es, h2, ht, hn⟩ := handleRtpAll_playing ext ds s1 dev (hd1.trans hdev) hp1
      refine ⟨s2, es1 ++ es, ?_, ?_, ?_, ?_⟩
      · simp [handleRtpAll, h1, h2]
      · simp [ht, ht1]
      · simp [List.find?, hacc, hn1, hn]
      · intro hnone
        simp [List.find?, hacc] at hnone

/-- C5: within one session (`playing` false at its start, no `Stop` in between), for
every sequence `ds` of datagrams delivered to `handleRtp` the run returns, and the
stream-started notifications it emits are exactly one if some datagram of `ds` is
accepted and none otherwise; the one notification carries the payload-type field of the
first accepted datagram and the big-endian value of its SSRC bytes (the field converted
from network to host order), and it is emitted by the call that handles that datagram:
the calls before it emit none. -/
theorem stream_started_once (ext : Externals) (s : WFBReceiver) (dev : RtlDevice)
    (ds : List Datagram) (hdev : s.rtlDevice = some dev) (hfirst : s.playing = false) :
    (∃ s1, handleRtpAll ext s ds = some s1
      ∧ (newEvents s s1).filter Event.isNotify =
          (match ds.find? (accepted s) with
            | some d => [Event.NotifyRtpStream (ext.pt d.payload) (be32 d.payload ext.ssrcOffset)]
            | none => []))
    ∧ (∀ (pre post : List Datagram) (d0 : Datagram), ds = pre ++ d0 :: post →
        (∀ x ∈ pre, accepted s x = false) → accepted s d0 = true →
        ∃ sa sb, handleRtpAll ext s pre = some sa ∧ handleRtp ext sa d0 = some sb
          ∧ (newEvents s sa).filter Event.isNotify = []
          ∧ (newEvents sa sb).filter Event.isNotify =
              [Event.NotifyRtpStream (ext.pt d0.payload) (be32 d0.payload ext.ssrcOffset)]) := by
  constructor
  · obtain ⟨s1, es, h1, ht, hn, -⟩ := handleRtpAll_notifications ext ds s dev hdev hfirst
    exact ⟨s1, h1, by rw [newEvents_append s s1 es ht]; exact hn⟩
  · intro pre post d0 _ hpre hd0
    have hnone : pre.find? (accepted s) = none := by
      rw [List.find?_eq_none]
      intro x hx
      simp [hpre x hx]
    obtain ⟨sa, es, ha, hta, hna, hka⟩ := handleRtpAll_notifications ext pre s dev hdev hfirst
    rw [hnone] at hna
    obtain ⟨hpa, hda⟩ := hka hnone
    have hacc : accepted sa d0 = true := by rw [accepted_congr s sa hda]; exact hd0
    obtain ⟨sb, esb, hb, htb, -, -, -, hnb, -⟩ := handleRtp_first ext sa d0 hacc hpa
    refine ⟨sa, sb, ha, hb, ?_, ?_⟩
    · rw [newEvents_append s sa es hta]; exact hna
    · rw [newEvents_append sa sb esb htb]; exact hnb

/-- Witness for C5: a short datagram, then two accepted ones; the single notification
carries payload type 96 and SSRC `0x12345678` of the first accepted datagram. -/
theorem stream_started_once_witness :
    ∃ s1, handleRtpAll rfcExternals (workerCreateDevice freshReceiver { should_stop := false })
        [{ payload := [1, 2, 3], packet_size := 3 },
         { payload := [128, 96, 0, 1, 0, 0, 0, 0, 18, 52, 86, 120, 124, 5], packet_size := 14 },
         { payload := [128, 97, 0, 2, 0, 0, 0, 0, 1, 2, 3, 4, 65, 5], packet_size := 14 }]
        = some s1
      ∧ (newEvents (workerCreateDevice freshReceiver { should_stop := false }) s1).filter
          Event.isNotify = [Event.NotifyRtpStream 96 305419896] :=
  (stream_started_once rfcExternals (workerCreateDevice freshReceiver { should_stop := false })
    { should_stop := false }
    [{ payload := [1, 2, 3], packet_size := 3 },
     { payload := [128, 96, 0, 1, 0, 0, 0, 0, 18, 52, 86, 120, 124, 5], packet_size := 14 },
     { payload := [128, 97, 0, 2, 0, 0, 0, 0, 1, 2, 3, 4, 65, 5], packet_size := 14 }]
    rfl rfl).1

/-! ## The frame handler -/

/-- A call of `handleRtp` that returns adds no `process_packet` call to the trace. -/
theorem handleRtp_no_process_packet (ext : Externals) (s s1 : WFBReceiver) (d : Datagram)
    (h : handleRtp ext s d = some s1) :
    ∃ es, s1.trace = s.trace ++ es ∧ es.filter Event.isProcessPacket = [] := by
  cases hdev : s.rtlDevice with
  | none =>
    unfold handleRtp at h
    simp [emit, hdev] at h
  | some dev =>
    cases hacc : accepted s d with
    | false =>
      obtain ⟨s2, h2, ht, -⟩ := handleRtp_not_accepted ext s dev d hdev hacc
      rw [h] at h2
      cases h2
      exact ⟨_, ht, by simp [Event.isProcessPacket]⟩
    | true =>
      cases hplay : s.playing with
      | true =>
        obtain ⟨s2, h2, ht, -⟩ := handleRtp_playing ext s d hacc hplay
        rw [h] at h2
        cases h2
        exact ⟨_, ht, by simp [Event.isProcessPacket]⟩
      | false =>
        unfold accepted at hacc
        simp only [hdev, Bool.and_eq_true, Bool.not_eq_true_eq_eq_false,
          decide_eq_true_eq] at hacc
        unfold handleRtp at h
        by_cases hauto : s.gui.playerCodec = "AUTO"
        · simp [emit, hdev, hacc.1, Nat.not_lt.mpr hacc.2, hplay, hauto] at h
          subst h
          exact ⟨[Event.UpdateCount, Event.PutLog LogLevel.Debug
            ("Check codec " ++ detectCodec ext "AUTO" d),
            Event.NotifyRtpStream (ext.pt d.payload)
              (ntohl ext.littleEndian (load32 ext.littleEndian d.payload ext.ssrcOffset)),
            Event.sendto s.sendFd (d.payload.take d.packet_size) d.packet_size "127.0.0.1"
              s.gui.playerPort], by simp [detectCodec], by simp [Event.isProcessPacket]⟩
        · simp [emit, hdev, hacc.1, Nat.not_lt.mpr hacc.2, hplay, hauto] at h
          subst h
          exact ⟨[Event.UpdateCount,
            Event.NotifyRtpStream (ext.pt d.payload)
              (ntohl ext.littleEndian (load32 ext.littleEndian d.payload ext.ssrcOffset)),
            Event.sendto s.sendFd (d.payload.take d.packet_size) d.packet_size "127.0.0.1"
              s.gui.playerPort], by simp, by simp [Event.isProcessPacket]⟩

theorem handleRtpAll_no_process_packet (ext : Externals) (ds : List Datagram) :
    ∀ (s s1 : WFBReceiver), handleRtpAll ext s ds = some s1 →
      ∃ es, s1.trace = s.trace ++ es ∧ es.filter Event.isProcessPacket = [] := by
  induction ds with
  | nil =>
    intro s s1 h
    simp only [handleRtpAll, Option.some.injEq] at h
    subst h
    exact ⟨[], by simp, rfl⟩
  | cons d ds ih =>
    intro s s1 h
    cases hd : handleRtp ext s d with
    | none => simp [handleRtpAll, hd] at h
    | some s2 =>
      simp only [handleRtpAll, hd] at h
      obtain ⟨e1, ht1, hn1⟩ := handleRtp_no_process_packet ext s s2 d hd
      obtain ⟨e2, ht2, hn2⟩ := ih s2 s1 h
      exact ⟨e1 ++ e2, by simp [ht2, ht1], by simp [hn1, hn2]⟩

/-- C1: a captured frame whose embedded channel identity does not match
(`MatchesChannelID` false on the four bytes `video_channel_id_be8`) makes
`handle80211Frame` return without any `process_packet` call; and whenever a call of
`handle80211Frame` makes a `process_packet` call, the frame passed the WFB format
validation and matched the channel identity. -/
theorem handle80211Frame_channel_filter (ext : Externals) (s : WFBReceiver) (packet : Packet)
    (recovered : List Datagram) :
    (ext.MatchesChannelID packet.Data (video_channel_id_be8 ext.littleEndian) = false →
      ∃ s1, handle80211Frame ext s packet recovered = some s1
        ∧ (newEvents s s1).filter Event.isProcessPacket = [])
    ∧ (∀ s1, handle80211Frame ext s packet recovered = some s1 →
        (newEvents s s1).filter Event.isProcessPacket ≠ [] →
        ext.IsValidWfbFrame packet.Data = true
          ∧ ext.MatchesChannelID packet.Data (video_channel_id_be8 ext.littleEndian) = true) := by
  constructor
  · intro hm
    by_cases hv : ext.IsValidWfbFrame packet.Data = true
    · exact ⟨_, by simp only [handle80211Frame, hv, hm]; rfl,
        by simp [newEvents, emit, Event.isProcessPacket]⟩
    · exact ⟨_, by simp only [handle80211Frame, hv]; rfl,
        by simp [newEvents, emit, Event.isProcessPacket]⟩
  · intro s1 h hne
    by_cases hv : ext.IsValidWfbFrame packet.Data = true
    · refine ⟨hv, ?_⟩
      by_contra hm
      simp only [handle80211Frame, hv, hm] at h
      simp at h
      subst h
      simp [newEvents, emit, Event.isProcessPacket] at hne
    · simp only [handle80211Frame, hv] at h
      simp at h
      subst h
      simp [newEvents, emit, Event.isProcessPacket] at hne

/-- Witness for C1: a valid frame carrying channel identity `75 05 d6 01` is not
forwarded. -/
theorem handle80211Frame_channel_filter_witness :
    ∃ s1, handle80211Frame rfcExternals freshReceiver
        { Data := [8, 1, 0, 0, 255, 255, 255, 255, 255, 255, 87, 66, 117, 5, 214, 1,
                   87, 66, 117, 5, 214, 1, 0, 0, 9, 9, 9, 9, 9, 9] } [] = some s1
      ∧ (newEvents freshReceiver s1).filter Event.isProcessPacket = [] :=
  (handle80211Frame_channel_filter rfcExternals freshReceiver
    { Data := [8, 1, 0, 0, 255, 255, 255, 255, 255, 255, 87, 66, 117, 5, 214, 1,
               87, 66, 117, 5, 214, 1, 0, 0, 9, 9, 9, 9, 9, 9] } []).1 (by decide)

/-! ## Session start -/

/-- C10: in every state in which a worker handle exists (`usbThread` set), `Start`
returns false for all arguments and all outcomes of the USB calls, creates no thread, and
leaves `usbThread`, `devHandle` and `rtlDevice` unchanged; the same holds when `Stop` has
been called first and the worker has not yet finished its teardown. -/
theorem Start_rejected_while_worker_exists (env : UsbEnv) (s : WFBReceiver) (tid : Nat)
    (vidPid : String) (channel : Nat) (channelWidthMode : Int) (kPath : String)
    (hthread : s.usbThread = some tid) :
    ((Start env s vidPid channel channelWidthMode kPath).1 = false
      ∧ (Start env s vidPid channel channelWidthMode kPath).2.usbThread = s.usbThread
      ∧ (Start env s vidPid channel channelWidthMode kPath).2.devHandle = s.devHandle
      ∧ (Start env s vidPid channel channelWidthMode kPath).2.rtlDevice = s.rtlDevice
      ∧ (newEvents s (Start env s vidPid channel channelWidthMode kPath).2).filter
          Event.isSpawn = [])
    ∧ ((Start env (Stop s).2 vidPid channel channelWidthMode kPath).1 = false
      ∧ (Start env (Stop s).2 vidPid channel channelWidthMode kPath).2.usbThread = s.usbThread
      ∧ (Start env (Stop s).2 vidPid channel channelWidthMode kPath).2.devHandle = s.devHandle
      ∧ (Start env (Stop s).2 vidPid channel channelWidthMode kPath).2.rtlDevice
          = (Stop s).2.rtlDevice
      ∧ (newEvents s (Start env (Stop s).2 vidPid channel channelWidthMode kPath).2).filter
          Event.isSpawn = []) := by
  constructor
  · simp [Start, emit, hthread, newEvents, Event.isSpawn]
  · simp [Start, Stop, emit, hthread, newEvents, Event.isSpawn]

/-- Witness for C10: a second `Start` while the session of `runningReceiver` is active. -/
theorem Start_rejected_while_worker_exists_witness :
    ((Start usbPresent runningReceiver "0bda:8812" 36 1 "other.key").1 = false
      ∧ (Start usbPresent runningReceiver "0bda:8812" 36 1 "other.key").2.usbThread
          = runningReceiver.usbThread
      ∧ (Start usbPresent runningReceiver "0bda:8812" 36 1 "other.key").2.devHandle
          = runningReceiver.devHandle
      ∧ (Start usbPresent runningReceiver "0bda:8812" 36 1 "other.key").2.rtlDevice
          = runningReceiver.rtlDevice
      ∧ (newEvents runningReceiver
          (Start usbPresent runningReceiver "0bda:8812" 36 1 "other.key").2).filter
          Event.isSpawn = [])
    ∧ ((Start usbPresent (Stop runningReceiver).2 "0bda:8812" 36 1 "other.key").1 = false
      ∧ (Start usbPresent (Stop runningReceiver).2 "0bda:8812" 36 1 "other.key").2.usbThread
          = runningReceiver.usbThread
      ∧ (Start usbPresent (Stop runningReceiver).2 "0bda:8812" 36 1 "other.key").2.devHandle
          = runningReceiver.devHandle
      ∧ (Start usbPresent (Stop runningReceiver).2 "0bda:8812" 36 1 "other.key").2.rtlDevice
          = (Stop runningReceiver).2.rtlDevice
      ∧ (newEvents runningReceiver
          (Start usbPresent (Stop runningReceiver).2 "0bda:8812" 36 1 "other.key").2).filter
          Event.isSpawn = []) :=
  Start_rejected_while_worker_exists usbPresent runningReceiver 7 "0bda:8812" 36 1 "other.key"
    (by decide)

/-! ## The signal quality estimator -/

theorem truncToInt_bounds (x : ℚ) (hlo : -1024 ≤ x) (hhi : x ≤ 1024) :
    -1024 ≤ truncToInt x ∧ truncToInt x ≤ 1024 := by
  unfold truncToInt
  split
  · rename_i h
    constructor
    · have : (0 : Int) ≤ ⌊x⌋ := Int.floor_nonneg.mpr h
      omega
    · have h1 : ((⌊x⌋ : Int) : ℚ) ≤ x := Int.floor_le x
      have h2 : ((⌊x⌋ : Int) : ℚ) ≤ ((1024 : Int) : ℚ) := by
        push_cast
        exact h1.trans hhi
      exact_mod_cast h2
  · rename_i h
    have hneg : x ≤ 0 := le_of_lt (not_le.mp h)
    constructor
    · have h1 : x ≤ ((⌈x⌉ : Int) : ℚ) := Int.le_ceil x
      have h2 : (((-1024 : Int)) : ℚ) ≤ ((⌈x⌉ : Int) : ℚ) := by
        push_cast
        exact hlo.trans h1
      exact_mod_cast h2
    · have : ⌈x⌉ ≤ (0 : Int) := Int.ceil_le.mpr (by simpa using hneg)
      omega

theorem clamp_bounds (x : ℚ) : -1024 ≤ max (-1024 : ℚ) (min 1024 x)
    ∧ max (-1024 : ℚ) (min 1024 x) ≤ 1024 :=
  ⟨le_max_left _ _, max_le (by norm_num) (min_le_left _ _)⟩

/-- The quality reported for any estimator state lies in `[-1024, 1024]`. -/
theorem quality_bounds_any_state (r : Rounding) (s : SignalQualityCalculator)
    (clk : QueryClock) :
    -1024 ≤ (calculate_signal_quality r s clk).1.quality
      ∧ (calculate_signal_quality r s clk).1.quality ≤ 1024 := by
  simp only [calculate_signal_quality]
  exact truncToInt_bounds _ (clamp_bounds _).1 (clamp_bounds _).2

/-- C7: for every sequence of `add_rssi`, `add_snr` and `add_fec_data` calls, with any
arguments and clock readings, applied to any estimator state (a new estimator included),
and whatever the rounding of the floating-point operations, the quality returned by
`calculate_signal_quality` satisfies `-1024 <= quality <= 1024`. -/
theorem quality_within_bounds (r : Rounding) (s : SignalQualityCalculator)
    (ops : List AddOp) (clk : QueryClock) :
    -1024 ≤ (calculate_signal_quality r (applyOps s ops) clk).1.quality
      ∧ (calculate_signal_quality r (applyOps s ops) clk).1.quality ≤ 1024
      ∧ -1024 ≤ (calculate_signal_quality r (applyOps SignalQualityCalculator.new ops)
          clk).1.quality
      ∧ (calculate_signal_quality r (applyOps SignalQualityCalculator.new ops)
          clk).1.quality ≤ 1024 :=
  ⟨(quality_bounds_any_state r _ clk).1, (quality_bounds_any_state r _ clk).2,
    (quality_bounds_any_state r _ clk).1, (quality_bounds_any_state r _ clk).2⟩

/-! ### The window -/

theorem not_decide_lt (t c : Int) : (!decide (t < c)) = decide (c ≤ t) := by
  by_cases h : c ≤ t
  · simp [h, not_lt.mpr h]
  · simp [h, not_le.mp h]

theorem filter_window_rssi (q : Int) (l : List RssiEntry) :
    l.filter (fun entry => !decide (entry.timestamp < q - kAveragingWindow))
      = l.filter (fun e => inWindow q e.timestamp) := by
  congr 1
  funext e
  exact not_decide_lt _ _

theorem filter_window_snr (q : Int) (l : List SnrEntry) :
    l.filter (fun entry => !decide (entry.timestamp < q - kAveragingWindow))
      = l.filter (fun e => inWindow q e.timestamp) := by
  congr 1
  funext e
  exact not_decide_lt _ _

theorem filter_window_fec (q : Int) (l : List FecEntry) :
    l.filter (fun entry => !decide (entry.timestamp < q - kAveragingWindow))
      = l.filter (fun e => inWindow q e.timestamp) := by
  congr 1
  funext e
  exact not_decide_lt _ _

/-- The state after a query at `q`: each rolling set restricted to the window. -/
theorem calculate_state (r : Rounding) (s : SignalQualityCalculator) (q : Int) :
    (calculate_signal_quality r s (QueryClock.at q)).2 = windowed s q := by
  simp only [calculate_signal_quality, get_avg, cleanup_old_rssi_data, cleanup_old_snr_data,
    cleanup_old_fec_data, QueryClock.at, windowed, filter_window_rssi, filter_window_snr,
    filter_window_fec]
  simp only [List.filter_filter, Bool.and_self]

/-- The snapshot of a query at `q` in terms of the windowed rolling sets. -/
theorem calculate_snapshot (r : Rounding) (s : SignalQualityCalculator) (q : Int) :
    (calculate_signal_quality r s (QueryClock.at q)).1.quality
        = truncToInt (max (-1024) (min 1024 (max (-1024) (min 1024
            (r.f32 (map_range r
              (avgOfPairs r ((windowed s q).m_rssis.map
                (fun entry => ((entry.ant1 : ℚ), (entry.ant2 : ℚ))))) 0 80 (-1024) 1024))))))
      ∧ (calculate_signal_quality r s (QueryClock.at q)).1.snr
        = avgOfPairs r ((windowed s q).m_snrs.map
            (fun entry => ((entry.ant1 : ℚ), (entry.ant2 : ℚ))))
      ∧ (calculate_signal_quality r s (QueryClock.at q)).1.recovered_last_second
        = toInt32 (get_accumulated_fec_data (windowed s q)).1
      ∧ (calculate_signal_quality r s (QueryClock.at q)).1.lost_last_second
        = toInt32 (get_accumulated_fec_data (windowed s q)).2.1
      ∧ (calculate_signal_quality r s (QueryClock.at q)).1.total_last_second
        = toInt32 (get_accumulated_fec_data (windowed s q)).2.2 := by
  simp only [calculate_signal_quality, get_avg, cleanup_old_rssi_data, cleanup_old_snr_data,
    cleanup_old_fec_data, QueryClock.at, windowed, filter_window_rssi, filter_window_snr,
    filter_window_fec, get_accumulated_fec_data]
  simp only [List.filter_filter, Bool.and_self, and_self]

/-! ### Rounding to a binary floating-point format -/

theorem toInt32_small (n : Nat) (h : n < 2147483648) : toInt32 n = (n : Int) := by
  have h1 : n % 4294967296 = n := Nat.mod_eq_of_lt (by omega)
  simp [toInt32, h1, h]

theorem clamp_clamp (x : ℚ) :
    max (-1024 : ℚ) (min 1024 (max (-1024) (min 1024 x))) = max (-1024) (min 1024 x) := by
  rw [min_eq_right (clamp_bounds x).2, max_eq_right (clamp_bounds x).1]

theorem int_log_two_eq (x : ℚ) (e : Int) (hpos : 0 < x) (h1 : (2 : ℚ) ^ e ≤ x)
    (h2 : x < (2 : ℚ) ^ (e + 1)) : Int.log 2 x = e := by
  have ha : e ≤ Int.log 2 x :=
    (Int.zpow_le_iff_le_log (by norm_num) hpos).mp (by exact_mod_cast h1)
  have hb : Int.log 2 x < e + 1 :=
    (Int.lt_zpow_iff_log_lt (by norm_num) hpos).mp (by exact_mod_cast h2)
  omega

theorem roundHalfEven_intCast (n : Int) : roundHalfEven (n : ℚ) = n := by
  simp [roundHalfEven]

theorem roundBinary_of_scaled_int (p : Nat) (x : ℚ) (n : Int)
    (h : x / (2 : ℚ) ^ (Int.log 2 |x| - ((p : Int) - 1)) = (n : ℚ)) :
    roundBinary p x = x := by
  unfold roundBinary
  split
  · rename_i h0; exact h0.symm
  · simp only []
    rw [h, roundHalfEven_intCast, ← h]
    have hpos : (2 : ℚ) ^ (Int.log 2 |x| - ((p : Int) - 1)) ≠ 0 := by positivity
    field_simp

theorem roundBinary_dyadic (p : Nat) (hp : 1 ≤ p) (m k : Int) (hm : |m| ≤ 2 ^ p) :
    roundBinary p ((m : ℚ) * (2 : ℚ) ^ k) = (m : ℚ) * (2 : ℚ) ^ k := by
  by_cases hm0 : m = 0
  · subst hm0; simp [roundBinary]
  have h2k : (0 : ℚ) < (2 : ℚ) ^ k := by positivity
  have hmq : (0 : ℚ) < |(m : ℚ)| := abs_pos.mpr (by exact_mod_cast hm0)
  have habs : |(m : ℚ) * (2 : ℚ) ^ k| = |(m : ℚ)| * (2 : ℚ) ^ k := by
    rw [abs_mul, abs_of_pos h2k]
  have hxpos : (0 : ℚ) < |(m : ℚ) * (2 : ℚ) ^ k| := by rw [habs]; positivity
  have hlo : ((2 : ℕ) : ℚ) ^ (Int.log 2 |(m : ℚ) * (2 : ℚ) ^ k|) ≤ |(m : ℚ) * (2 : ℚ) ^ k| :=
    Int.zpow_log_le_self (by norm_num) hxpos
  have hmq2 : |(m : ℚ)| ≤ (2 : ℚ) ^ (p : Int) := by
    have : ((|m| : Int) : ℚ) ≤ (((2 : Int) ^ p : Int) : ℚ) := by exact_mod_cast hm
    simpa using this
  have hup : |(m : ℚ) * (2 : ℚ) ^ k| ≤ (2 : ℚ) ^ ((p : Int) + k) := by
    rw [habs, zpow_add₀ (by norm_num : (2 : ℚ) ≠ 0)]
    exact mul_le_mul_of_nonneg_right hmq2 h2k.le
  have he : Int.log 2 |(m : ℚ) * (2 : ℚ) ^ k| ≤ (p : Int) + k := by
    have h3 : (2 : ℚ) ^ (Int.log 2 |(m : ℚ) * (2 : ℚ) ^ k|) ≤ (2 : ℚ) ^ ((p : Int) + k) := by
      have := hlo.trans hup
      simpa using this
    exact (zpow_le_zpow_iff_right₀ (by norm_num : (1 : ℚ) < 2)).mp h3
  set e := Int.log 2 |(m : ℚ) * (2 : ℚ) ^ k| with hedef
  rcases lt_or_eq_of_le he with hlt | heq
  · obtain ⟨j, hj⟩ : ∃ j : ℕ, k - (e - ((p : Int) - 1)) = (j : Int) :=
      ⟨(k - (e - ((p : Int) - 1))).toNat, by omega⟩
    refine roundBinary_of_scaled_int p _ (m * 2 ^ j) ?_
    rw [← hedef, mul_div_assoc, ← zpow_sub₀ (by norm_num : (2 : ℚ) ≠ 0), hj]
    push_cast
    rw [zpow_natCast]
  · have hge : (2 : ℚ) ^ (p : Int) ≤ |(m : ℚ)| := by
      have h4 : (2 : ℚ) ^ ((p : Int) + k) ≤ |(m : ℚ)| * (2 : ℚ) ^ k := by
        rw [← habs, ← heq]
        simpa using hlo
      rw [zpow_add₀ (by norm_num : (2 : ℚ) ≠ 0)] at h4
      exact le_of_mul_le_mul_right h4 h2k
    have hmabs : |(m : ℚ)| = (2 : ℚ) ^ (p : Int) := le_antisymm hmq2 hge
    obtain ⟨p1, hp1⟩ : ∃ p1 : ℕ, p = p1 + 1 := ⟨p - 1, by omega⟩
    have hscaled : (2 : ℚ) ^ (p : Int) / (2 : ℚ) ^ (e - ((p : Int) - 1)) * (2 : ℚ) ^ k
        = (2 : ℚ) ^ p1 := by
      rw [← zpow_sub₀ (by norm_num : (2 : ℚ) ≠ 0), ← zpow_add₀ (by norm_num : (2 : ℚ) ≠ 0)]
      have : (p : Int) - (e - ((p : Int) - 1)) + k = (p1 : Int) := by
        rw [heq, hp1]; push_cast; ring
      rw [this, zpow_natCast]
    rcases abs_choice (m : ℚ) with hc | hc
    · refine roundBinary_of_scaled_int p _ (2 ^ p1) ?_
      rw [← hedef, mul_div_right_comm, ← hc, hmabs, hscaled]
      push_cast
      rfl
    · refine roundBinary_of_scaled_int p _ (-(2 ^ p1)) ?_
      have hm1 : (m : ℚ) = -((2 : ℚ) ^ (p : Int)) := by
        rw [← hmabs, hc]; ring
      rw [← hedef, mul_div_right_comm, hm1, neg_div, neg_mul, hscaled]
      push_cast
      rfl

theorem roundBinary_intCast (p : Nat) (hp : 1 ≤ p) (z : Int) (hz : |z| ≤ 2 ^ p) :
    roundBinary p (z : ℚ) = z := by
  have := roundBinary_dyadic p hp z 0 hz
  simpa using this

theorem roundHalfEven_abs_le (y : ℚ) (N : Int) (h : |y| < (N : ℚ)) :
    |roundHalfEven y| ≤ N := by
  have h1 : (-(N : ℚ)) < y := (abs_lt.mp h).1
  have h2 : y < (N : ℚ) := (abs_lt.mp h).2
  have hlo : -N ≤ ⌊y⌋ := Int.le_floor.mpr (by push_cast; exact h1.le)
  have hhi : ⌊y⌋ < N := Int.floor_lt.mpr h2
  rw [abs_le]
  unfold roundHalfEven
  split_ifs <;> constructor <;> omega

/-- The result of a rounding is a number of the format: an integer significand of at most
`p` bits times a power of two. -/
theorem roundBinary_repr (p : Nat) (x : ℚ) :
    ∃ n k : Int, |n| ≤ 2 ^ p ∧ roundBinary p x = (n : ℚ) * (2 : ℚ) ^ k := by
  by_cases hx : x = 0
  · exact ⟨0, 0, by positivity, by simp [roundBinary, hx]⟩
  refine ⟨roundHalfEven (x / (2 : ℚ) ^ (Int.log 2 |x| - ((p : Int) - 1))),
    Int.log 2 |x| - ((p : Int) - 1), ?_, by simp [roundBinary, hx]⟩
  apply roundHalfEven_abs_le
  have hxpos : (0 : ℚ) < |x| := abs_pos.mpr hx
  have hlt : |x| < ((2 : ℕ) : ℚ) ^ (Int.log 2 |x| + 1) := Int.lt_zpow_succ_log_self (by norm_num) _
  have hu : (0 : ℚ) < (2 : ℚ) ^ (Int.log 2 |x| - ((p : Int) - 1)) := by positivity
  rw [abs_div, abs_of_pos hu, div_lt_iff₀ hu]
  have : (((2 : Int) ^ p : Int) : ℚ) * (2 : ℚ) ^ (Int.log 2 |x| - ((p : Int) - 1))
      = (2 : ℚ) ^ (Int.log 2 |x| + 1) := by
    push_cast
    rw [← zpow_natCast, ← zpow_add₀ (by norm_num : (2 : ℚ) ≠ 0)]
    congr 1
    ring
  rw [this]
  simpa using hlt

/-! ### The averages in binary32 -/

theorem ieee_f32_int (z : Int) (hz : |z| ≤ 16777216) : Rounding.ieee.f32 (z : ℚ) = z :=
  roundBinary_intCast 24 (by norm_num) z (by norm_num; exact hz)

theorem ieee_f64_int (z : Int) (hz : |z| ≤ 9007199254740992) : Rounding.ieee.f64 (z : ℚ) = z :=
  roundBinary_intCast 53 (by norm_num) z (by norm_num; exact hz)

/-- A `float` sum of integers stays exact as long as every running sum is at most `2^24`
in magnitude. -/
theorem foldl_f32_exact (r : Rounding) (hr : ∀ z : Int, |z| ≤ 16777216 → r.f32 (z : ℚ) = z)
    (B : Nat) (l : List (ℚ × ℚ)) :
    (∀ e ∈ l, ∃ z1 z2 : Int, e = ((z1 : ℚ), (z2 : ℚ)) ∧ |z1| ≤ B ∧ |z2| ≤ B) →
    ∀ a1 a2 : Int, |a1| + B * l.length ≤ 16777216 → |a2| + B * l.length ≤ 16777216 →
      l.foldl (fun (a : ℚ × ℚ) entry => (r.f32 (a.1 + entry.1), r.f32 (a.2 + entry.2)))
          ((a1 : ℚ), (a2 : ℚ))
        = ((a1 : ℚ) + (l.map Prod.fst).sum, (a2 : ℚ) + (l.map Prod.snd).sum) := by
  induction l with
  | nil => intro _ a1 a2 _ _; simp
  | cons x xs ih =>
    intro hl a1 a2 h1 h2
    obtain ⟨z1, z2, hx, hz1, hz2⟩ := hl x (List.mem_cons_self _ _)
    have hlen : ((x :: xs).length : Int) = (xs.length : Int) + 1 := by simp
    rw [hlen] at h1 h2
    have e1 : r.f32 ((a1 : ℚ) + (z1 : ℚ)) = ((a1 + z1 : Int) : ℚ) := by
      rw [← Int.cast_add]
      apply hr
      have := abs_add a1 z1
      nlinarith [abs_nonneg a1, abs_nonneg z1]
    have e2 : r.f32 ((a2 : ℚ) + (z2 : ℚ)) = ((a2 + z2 : Int) : ℚ) := by
      rw [← Int.cast_add]
      apply hr
      have := abs_add a2 z2
      nlinarith [abs_nonneg a2, abs_nonneg z2]
    have ih1 := ih (fun e he => hl e (List.mem_cons_of_mem _ he)) (a1 + z1) (a2 + z2)
      (by have := abs_add a1 z1; nlinarith [abs_nonneg a1, abs_nonneg z1])
      (by have := abs_add a2 z2; nlinarith [abs_nonneg a2, abs_nonneg z2])
    simp only [List.foldl_cons, hx, e1, e2, ih1, List.map_cons, List.sum_cons]
    push_cast
    ext <;> simp [add_assoc]

/-- The part of `get_avg` after its clean-up, for integer samples of magnitude at most `B`
in a non-empty array small enough for the `float` sums to be exact: the larger of the two
means, each rounded once. -/
theorem avgOfPairs_small (r : Rounding) (hr : ∀ z : Int, |z| ≤ 16777216 → r.f32 (z : ℚ) = z)
    (B : Nat) (hB : 1 ≤ B) (l : List (ℚ × ℚ))
    (hl : ∀ e ∈ l, ∃ z1 z2 : Int, e = ((z1 : ℚ), (z2 : ℚ)) ∧ |z1| ≤ B ∧ |z2| ≤ B)
    (hne : l ≠ []) (hsize : B * l.length ≤ 16777216) :
    avgOfPairs r l
      = max (r.f32 ((l.map Prod.fst).sum / (l.length : ℚ)))
          (r.f32 ((l.map Prod.snd).sum / (l.length : ℚ))) := by
  have hpos : 0 < l.length := List.length_pos.mpr hne
  have hlen : l.length ≤ 16777216 := by nlinarith
  have hsmall : l.length < 2147483648 := by omega
  have hcount : (0 : Int) < (l.length : Int) := by exact_mod_cast hpos
  have hfold := foldl_f32_exact r hr B l hl 0 0
    (by simp only [abs_zero, zero_add]; exact_mod_cast hsize)
    (by simp only [abs_zero, zero_add]; exact_mod_cast hsize)
  have hcnt : r.f32 (l.length : ℚ) = (l.length : ℚ) := by
    have := hr (l.length : Int) (by rw [abs_of_nonneg (by positivity)]; exact_mod_cast hlen)
    simpa using this
  simp only [Int.cast_zero, zero_add] at hfold
  simp only [avgOfPairs, toInt32_small _ hsmall, hcount, if_true, hfold, Int.cast_natCast, hcnt]

/-! ### A query whose clock readings differ -/

/-- The rolling sets after a query, each filtered with the cut-offs of the readings of its
own clean-ups. -/
theorem calculate_state_clk (r : Rounding) (s : SignalQualityCalculator) (clk : QueryClock) :
    (calculate_signal_quality r s clk).2
      = { s with
          m_rssis := s.m_rssis.filter (fun e => inWindow clk.rssi e.timestamp
            && inWindow clk.avg_rssi e.timestamp && inWindow clk.avg_snr e.timestamp)
          m_snrs := s.m_snrs.filter (fun e => inWindow clk.snr e.timestamp)
          m_fec_data := s.m_fec_data.filter (fun e => inWindow clk.fec e.timestamp) } := by
  simp only [calculate_signal_quality, get_avg, cleanup_old_rssi_data, cleanup_old_snr_data,
    cleanup_old_fec_data, filter_window_rssi, filter_window_snr, filter_window_fec]
  simp only [List.filter_filter]
  congr 1
  apply List.filter_congr
  intro e _
  cases inWindow clk.rssi e.timestamp <;> cases inWindow clk.avg_rssi e.timestamp <;>
    cases inWindow clk.avg_snr e.timestamp <;> rfl

/-- The snapshot of a query in terms of the entries that pass the readings of the
clean-ups that precede each aggregate. -/
theorem calculate_snapshot_clk (r : Rounding) (s : SignalQualityCalculator) (clk : QueryClock) :
    (calculate_signal_quality r s clk).1.quality
        = truncToInt (max (-1024) (min 1024 (max (-1024) (min 1024
            (r.f32 (map_range r
              (avgOfPairs r ((s.m_rssis.filter (fun e => inWindow clk.rssi e.timestamp
                  && inWindow clk.avg_rssi e.timestamp)).map
                (fun entry => ((entry.ant1 : ℚ), (entry.ant2 : ℚ))))) 0 80 (-1024) 1024))))))
      ∧ (calculate_signal_quality r s clk).1.snr
        = avgOfPairs r ((s.m_snrs.filter (fun e => inWindow clk.snr e.timestamp)).map
            (fun entry => ((entry.ant1 : ℚ), (entry.ant2 : ℚ))))
      ∧ (calculate_signal_quality r s clk).1.recovered_last_second
        = toInt32 (get_accumulated_fec_data (windowed s clk.fec)).1
      ∧ (calculate_signal_quality r s clk).1.lost_last_second
        = toInt32 (get_accumulated_fec_data (windowed s clk.fec)).2.1
      ∧ (calculate_signal_quality r s clk).1.total_last_second
        = toInt32 (get_accumulated_fec_data (windowed s clk.fec)).2.2 := by
  have hf : ∀ l : List RssiEntry,
      (l.filter (fun e => inWindow clk.rssi e.timestamp)).filter
          (fun e => inWindow clk.avg_rssi e.timestamp)
        = l.filter (fun e => inWindow clk.rssi e.timestamp
            && inWindow clk.avg_rssi e.timestamp) := by
    intro l
    rw [List.filter_filter]
    apply List.filter_congr
    intro e _
    exact Bool.and_comm _ _
  simp only [calculate_signal_quality, get_avg, cleanup_old_rssi_data, cleanup_old_snr_data,
    cleanup_old_fec_data, windowed, filter_window_rssi, filter_window_snr,
    filter_window_fec, get_accumulated_fec_data, hf, and_self]

/-! ### Evaluation of a rounding -/

theorem roundHalfEven_of_lt (y : ℚ) (f : Int) (h1 : (f : ℚ) ≤ y) (h2 : y < (f : ℚ) + 1 / 2) :
    roundHalfEven y = f := by
  have hf : ⌊y⌋ = f := Int.floor_eq_iff.mpr ⟨h1, by linarith⟩
  unfold roundHalfEven
  rw [hf, if_pos (by linarith)]

theorem roundHalfEven_of_gt (y : ℚ) (f : Int) (h1 : (f : ℚ) + 1 / 2 < y) (h2 : y < (f : ℚ) + 1) :
    roundHalfEven y = f + 1 := by
  have hf : ⌊y⌋ = f := Int.floor_eq_iff.mpr ⟨by linarith, h2⟩
  unfold roundHalfEven
  rw [hf, if_neg (by linarith), if_pos (by linarith)]

theorem roundBinary_of_bounds (p : Nat) (x : ℚ) (e n : Int) (hx : 0 < |x|)
    (h1 : (2 : ℚ) ^ e ≤ |x|) (h2 : |x| < (2 : ℚ) ^ (e + 1))
    (hn : roundHalfEven (x / (2 : ℚ) ^ (e - ((p : Int) - 1))) = n) :
    roundBinary p x = (n : ℚ) * (2 : ℚ) ^ (e - ((p : Int) - 1)) := by
  have hx0 : x ≠ 0 := abs_pos.mp hx
  have he : Int.log 2 |x| = e := int_log_two_eq _ e hx h1 h2
  simp only [roundBinary, hx0, if_false, he, hn]

/-- The `float` nearest to `139348 / 2049` is `68.0078125`. -/
theorem ieee_f32_burst_mean : Rounding.ieee.f32 (139348 / 2049) = 8705 / 128 := by
  have h := roundBinary_of_bounds 24 (139348 / 2049) 6 (8913919 + 1)
    (by norm_num) (by rw [abs_of_pos (by norm_num)]; norm_num)
    (by rw [abs_of_pos (by norm_num)]; norm_num)
    (roundHalfEven_of_gt _ 8913919 (by norm_num) (by norm_num))
  simp only [Rounding.ieee]
  rw [h]
  norm_num

/-- The `float` nearest to `1 / 3` is `11184811 / 2^25`. -/
theorem ieee_f32_third : Rounding.ieee.f32 (1 / 3) = 11184811 / 33554432 := by
  have h := roundBinary_of_bounds 24 (1 / 3) (-2) (11184810 + 1)
    (by norm_num) (by rw [abs_of_pos (by norm_num)]; norm_num)
    (by rw [abs_of_pos (by norm_num)]; norm_num)
    (roundHalfEven_of_gt _ 11184810 (by norm_num) (by norm_num))
  simp only [Rounding.ieee]
  rw [h]
  norm_num

/-! ### The rescaling in binary64 -/

/-- For a mean `m` that is a `float`, the difference `m - 0`, the difference
`1024 - (-1024)` and the product `m * 2048` of `map_range` are exact in `double`; the
division and the addition are rounded. -/
theorem map_range_ieee (m : ℚ) (hm : ∃ n k : Int, |n| ≤ 2 ^ 24 ∧ m = (n : ℚ) * (2 : ℚ) ^ k) :
    map_range Rounding.ieee m 0 80 (-1024) 1024
      = Rounding.ieee.f64 (-1024 + Rounding.ieee.f64 (2048 * m / 80)) := by
  obtain ⟨n, k, hn, rfl⟩ := hm
  have hn53 : |n| ≤ 2 ^ 53 := hn.trans (by norm_num)
  have e1 : Rounding.ieee.f64 ((n : ℚ) * (2 : ℚ) ^ k) = (n : ℚ) * (2 : ℚ) ^ k :=
    roundBinary_dyadic 53 (by norm_num) n k hn53
  have e2 : Rounding.ieee.f64 2048 = 2048 := by
    simpa using ieee_f64_int 2048 (by norm_num)
  have e3 : Rounding.ieee.f64 ((n : ℚ) * (2 : ℚ) ^ k * 2048) = (n : ℚ) * (2 : ℚ) ^ k * 2048 := by
    have h := roundBinary_dyadic 53 (by norm_num) n (k + 11) hn53
    have hk : (2 : ℚ) ^ (k + 11) = (2 : ℚ) ^ k * 2048 := by
      rw [zpow_add₀ (by norm_num : (2 : ℚ) ≠ 0)]
      norm_num
    rw [hk, ← mul_assoc] at h
    exact h
  have e4 : Rounding.ieee.f64 80 = 80 := by
    simpa using ieee_f64_int 80 (by norm_num)
  have s1 : (1024 : ℚ) - (-1024) = 2048 := by norm_num
  simp only [map_range, sub_zero, s1, e1, e2, e3, e4]
  rw [mul_comm ((n : ℚ) * (2 : ℚ) ^ k) 2048]

theorem specRoundedMaxOfMeans_repr (w : List RssiEntry) :
    ∃ n k : Int, |n| ≤ 2 ^ 24 ∧ specRoundedMaxOfMeans w = (n : ℚ) * (2 : ℚ) ^ k := by
  unfold specRoundedMaxOfMeans
  rcases max_choice
    (Rounding.ieee.f32 (((w.map (fun e => (e.ant1 : ℚ))).sum) / (w.length : ℚ)))
    (Rounding.ieee.f32 (((w.map (fun e => (e.ant2 : ℚ))).sum) / (w.length : ℚ))) with h | h
  · rw [h]; exact roundBinary_repr 24 _
  · rw [h]; exact roundBinary_repr 24 _

theorem avgOfPairs_rssi (w : List RssiEntry) (hrange : ∀ e ∈ w, e.ant1 < 256 ∧ e.ant2 < 256)
    (hne : w ≠ []) (hsize : w.length ≤ 65793) :
    avgOfPairs Rounding.ieee (w.map (fun entry => ((entry.ant1 : ℚ), (entry.ant2 : ℚ))))
      = specRoundedMaxOfMeans w := by
  have h := avgOfPairs_small Rounding.ieee ieee_f32_int 255 (by norm_num)
    (w.map (fun entry => ((entry.ant1 : ℚ), (entry.ant2 : ℚ))))
    (by
      intro e he
      obtain ⟨x, hx, rfl⟩ := List.mem_map.mp he
      refine ⟨(x.ant1 : Int), (x.ant2 : Int), by simp, ?_, ?_⟩
      · have := (hrange x hx).1
        rw [abs_of_nonneg (by positivity)]
        exact_mod_cast (by omega : x.ant1 ≤ 255)
      · have := (hrange x hx).2
        rw [abs_of_nonneg (by positivity)]
        exact_mod_cast (by omega : x.ant2 ≤ 255))
    (by simpa using hne)
    (by rw [List.length_map]; omega)
  rw [h]
  simp only [specRoundedMaxOfMeans, List.map_map, List.length_map]
  rfl

theorem avgOfPairs_snr (w : List SnrEntry)
    (hrange : ∀ e ∈ w, -128 ≤ e.ant1 ∧ e.ant1 ≤ 127 ∧ -128 ≤ e.ant2 ∧ e.ant2 ≤ 127)
    (hne : w ≠ []) (hsize : w.length ≤ 131072) :
    avgOfPairs Rounding.ieee (w.map (fun entry => ((entry.ant1 : ℚ), (entry.ant2 : ℚ))))
      = specRoundedMaxOfMeansSnr w := by
  have h := avgOfPairs_small Rounding.ieee ieee_f32_int 128 (by norm_num)
    (w.map (fun entry => ((entry.ant1 : ℚ), (entry.ant2 : ℚ))))
    (by
      intro e he
      obtain ⟨x, hx, rfl⟩ := List.mem_map.mp he
      obtain ⟨h1, h2, h3, h4⟩ := hrange x hx
      refine ⟨x.ant1, x.ant2, rfl, ?_, ?_⟩
      · rw [abs_le]; constructor <;> push_cast <;> omega
      · rw [abs_le]; constructor <;> push_cast <;> omega)
    (by simpa using hne)
    (by rw [List.length_map]; omega)
  rw [h]
  simp only [specRoundedMaxOfMeansSnr, List.map_map, List.length_map]
  rfl

/-! ### The quality and the signal-to-noise average in floating point -/

/-- The quality of a query over a non-empty window of at most 65793 RSSI samples. -/
theorem quality_rounded (s : SignalQualityCalculator) (clk : QueryClock)
    (hrange : ∀ e ∈ s.m_rssis, e.ant1 < 256 ∧ e.ant2 < 256)
    (hne : s.m_rssis.filter (fun e => inWindow clk.rssi e.timestamp
        && inWindow clk.avg_rssi e.timestamp) ≠ [])
    (hsize : (s.m_rssis.filter (fun e => inWindow clk.rssi e.timestamp
        && inWindow clk.avg_rssi e.timestamp)).length ≤ 65793) :
    (calculate_signal_quality Rounding.ieee s clk).1.quality
      = specRoundedQuality (specRoundedMaxOfMeans (s.m_rssis.filter
          (fun e => inWindow clk.rssi e.timestamp && inWindow clk.avg_rssi e.timestamp))) := by
  rw [(calculate_snapshot_clk Rounding.ieee s clk).1,
    avgOfPairs_rssi _ (fun e he => hrange e (List.mem_of_mem_filter he)) hne hsize,
    clamp_clamp, map_range_ieee _ (specRoundedMaxOfMeans_repr _)]
  rfl

/-- The signal-to-noise average of a query over a non-empty window of at most 131072 SNR
samples. -/
theorem snr_rounded (s : SignalQualityCalculator) (clk : QueryClock)
    (hrange : ∀ e ∈ s.m_snrs, -128 ≤ e.ant1 ∧ e.ant1 ≤ 127 ∧ -128 ≤ e.ant2 ∧ e.ant2 ≤ 127)
    (hne : s.m_snrs.filter (fun e => inWindow clk.snr e.timestamp) ≠ [])
    (hsize : (s.m_snrs.filter (fun e => inWindow clk.snr e.timestamp)).length ≤ 131072) :
    (calculate_signal_quality Rounding.ieee s clk).1.snr
      = specRoundedMaxOfMeansSnr (s.m_snrs.filter (fun e => inWindow clk.snr e.timestamp)) := by
  rw [(calculate_snapshot_clk Rounding.ieee s clk).2.1,
    avgOfPairs_snr _ (fun e he => hrange e (List.mem_of_mem_filter he)) hne hsize]

theorem applyOps_append (s : SignalQualityCalculator) (ops1 ops2 : List AddOp) :
    applyOps s (ops1 ++ ops2) = applyOps (applyOps s ops1) ops2 := by
  simp [applyOps, List.foldl_append]

theorem applyOps_replicate_rssi (t : Int) (a b : Nat) (n : Nat) :
    ∀ s : SignalQualityCalculator,
      applyOps s (List.replicate n (AddOp.add_rssi t a b))
        = { s with m_rssis := s.m_rssis
              ++ List.replicate n { timestamp := t, ant1 := a % 256, ant2 := b % 256 } } := by
  induction n with
  | zero => intro s; simp [applyOps]
  | succ n ih =>
    intro s
    have h := ih (add_rssi s t a b)
    simp only [applyOps, List.replicate_succ, List.foldl_cons, AddOp.apply] at h ⊢
    rw [h]
    simp [add_rssi]

theorem rssiBurst_state :
    applyOps SignalQualityCalculator.new rssiBurst
      = { SignalQualityCalculator.new with m_rssis := burstEntries } := by
  rw [rssiBurst, applyOps_append, applyOps_replicate_rssi, applyOps_replicate_rssi]
  rfl

theorem burstEntries_mem (e : RssiEntry) (he : e ∈ burstEntries) :
    e = { timestamp := 0, ant1 := 68, ant2 := 0 }
      ∨ e = { timestamp := 0, ant1 := 69, ant2 := 0 } := by
  rcases List.mem_append.mp he with h | h
  · exact Or.inl (List.eq_of_mem_replicate h)
  · exact Or.inr (List.eq_of_mem_replicate h)

theorem burstEntries_filter (p : RssiEntry → Bool)
    (h1 : p { timestamp := 0, ant1 := 68, ant2 := 0 } = true)
    (h2 : p { timestamp := 0, ant1 := 69, ant2 := 0 } = true) :
    burstEntries.filter p = burstEntries := by
  apply List.filter_eq_self.mpr
  intro e he
  rcases burstEntries_mem e he with h | h <;> rw [h] <;> assumption

theorem burstEntries_length : burstEntries.length = 2049 := by
  simp only [burstEntries, List.length_append, List.length_replicate]

theorem burstEntries_sum (f : RssiEntry → ℚ) :
    (burstEntries.map f).sum
      = 2033 * f { timestamp := 0, ant1 := 68, ant2 := 0 }
        + 16 * f { timestamp := 0, ant1 := 69, ant2 := 0 } := by
  simp only [burstEntries, List.map_append, List.map_replicate, List.sum_append,
    List.sum_replicate, nsmul_eq_mul]
  norm_num

theorem specRoundedQuality_burst : specRoundedQuality (8705 / 128) = 717 := by
  have e1 : Rounding.ieee.f64 1741 = 1741 := by simpa using ieee_f64_int 1741 (by norm_num)
  have e2 : Rounding.ieee.f64 717 = 717 := by simpa using ieee_f64_int 717 (by norm_num)
  have e3 : Rounding.ieee.f32 717 = 717 := by simpa using ieee_f32_int 717 (by norm_num)
  have a1 : (2048 : ℚ) * (8705 / 128) / 80 = 1741 := by norm_num
  have a2 : (-1024 : ℚ) + 1741 = 717 := by norm_num
  have a3 : max (-1024 : ℚ) (min 1024 717) = ((717 : Int) : ℚ) := by norm_num
  rw [specRoundedQuality, a1, e1, a2, e2, e3, a3, truncToInt,
    if_pos (by norm_num), Int.floor_intCast]

/-- Counterexample to C8: after 2033 calls `add_rssi(68, 0)` and 16 calls `add_rssi(69, 0)`
a query whose window holds all 2049 samples returns quality 717: the mean
`139348 / 2049 = 68.00780...` of the antenna-1 samples is rounded to the `float`
`68.0078125`, which rescales to exactly 717; the claimed value, `-1024 + 2048 * m / 80`
for the exact mean, is `716.9999...`, truncated to 716. -/
theorem quality_exact_formula_counterexample :
    (applyOps SignalQualityCalculator.new rssiBurst).m_rssis.filter
        (fun e => inWindow 0 e.timestamp) = burstEntries
    ∧ burstEntries.length = 2049
    ∧ (calculate_signal_quality Rounding.ieee (applyOps SignalQualityCalculator.new rssiBurst)
        (QueryClock.at 0)).1.quality = 717
    ∧ specQuality (specMaxOfMeans burstEntries) = 716 := by
  have hz : Rounding.ieee.f32 0 = 0 := by simpa using ieee_f32_int 0 (by norm_num)
  have c : (((2049 : ℕ)) : ℚ) = 2049 := by norm_num
  have hs1 : (burstEntries.map (fun e => (e.ant1 : ℚ))).sum = 139348 := by
    rw [burstEntries_sum]; norm_num
  have hs2 : (burstEntries.map (fun e => (e.ant2 : ℚ))).sum = 0 := by
    rw [burstEntries_sum]; norm_num
  have hst : (applyOps SignalQualityCalculator.new rssiBurst).m_rssis = burstEntries := by
    rw [rssiBurst_state]
  have hwin : (applyOps SignalQualityCalculator.new rssiBurst).m_rssis.filter
      (fun e => inWindow (QueryClock.at 0).rssi e.timestamp
        && inWindow (QueryClock.at 0).avg_rssi e.timestamp) = burstEntries := by
    rw [hst]
    exact burstEntries_filter _ rfl rfl
  refine ⟨?_, burstEntries_length, ?_, ?_⟩
  · rw [hst]
    exact burstEntries_filter _ rfl rfl
  · have hq := quality_rounded (applyOps SignalQualityCalculator.new rssiBurst) (QueryClock.at 0)
      (by
        rw [hst]
        intro e he
        rcases burstEntries_mem e he with h | h <;> rw [h] <;> decide)
      (by
        rw [hwin]
        intro h
        have := congrArg List.length h
        rw [burstEntries_length] at this
        exact absurd this (by decide))
      (by
        rw [hwin, burstEntries_length]
        decide)
    rw [hq, hwin, specRoundedMaxOfMeans, hs1, hs2, burstEntries_length, c, zero_div, hz,
      ieee_f32_burst_mean]
    have hm : max ((8705 : ℚ) / 128) 0 = 8705 / 128 := by norm_num
    rw [hm, specRoundedQuality_burst]
  · rw [specMaxOfMeans, hs1, hs2, burstEntries_length, c, specQuality, truncToInt]
    have hv : max (-1024 : ℚ) (min 1024 (-1024 + 2048 * max ((139348 : ℚ) / 2049) (0 / 2049) / 80))
        = 117530624 / 163920 := by norm_num
    rw [hv, if_pos (by norm_num)]
    exact Int.floor_eq_iff.mpr ⟨by norm_num, by norm_num⟩

/-- C8 as amended: when the RSSI window of a query (the entries that pass the readings of
the two RSSI clean-ups that precede the average) holds between 1 and 65793 samples, the
quality returned by `calculate_signal_quality` is the value of `-1024 + 2048 * m / 80`
computed in floating point, clamped to `[-1024, 1024]` and truncated to an integer: `m` is
the larger of the mean of the antenna-1 samples and the mean of the antenna-2 samples
(not the mean of per-sample maxima), each mean rounded to `float`; the quotient
`2048 * m / 80` and the sum with `-1024` are each rounded to `double`, the result to
`float`.  And `add_rssi(40, 50)` on a new estimator followed by a query that retains the
sample yields quality 256. -/
theorem quality_is_rounded_rescaled_max_of_means (s : SignalQualityCalculator)
    (clk : QueryClock)
    (hrange : ∀ e ∈ s.m_rssis, e.ant1 < 256 ∧ e.ant2 < 256)
    (hne : s.m_rssis.filter (fun e => inWindow clk.rssi e.timestamp
        && inWindow clk.avg_rssi e.timestamp) ≠ [])
    (hsize : (s.m_rssis.filter (fun e => inWindow clk.rssi e.timestamp
        && inWindow clk.avg_rssi e.timestamp)).length ≤ 65793) :
    (calculate_signal_quality Rounding.ieee s clk).1.quality
        = specRoundedQuality (specRoundedMaxOfMeans (s.m_rssis.filter
            (fun e => inWindow clk.rssi e.timestamp && inWindow clk.avg_rssi e.timestamp)))
      ∧ ∀ (t : Int) (clk1 : QueryClock), clk1.rssi - kAveragingWindow ≤ t →
          clk1.avg_rssi - kAveragingWindow ≤ t →
          (calculate_signal_quality Rounding.ieee
            (add_rssi SignalQualityCalculator.new t 40 50) clk1).1.quality = 256 := by
  refine ⟨quality_rounded s clk hrange hne hsize, ?_⟩
  intro t clk1 h1 h2
  have h1a : clk1.rssi ≤ t + kAveragingWindow := by omega
  have h2a : clk1.avg_rssi ≤ t + kAveragingWindow := by omega
  have hw : (add_rssi SignalQualityCalculator.new t 40 50).m_rssis.filter
      (fun e => inWindow clk1.rssi e.timestamp && inWindow clk1.avg_rssi e.timestamp)
      = [{ timestamp := t, ant1 := 40, ant2 := 50 }] := by
    simp [add_rssi, SignalQualityCalculator.new, inWindow, h1a, h2a]
  rw [quality_rounded _ clk1 (by simp [add_rssi, SignalQualityCalculator.new])
    (by rw [hw]; simp) (by rw [hw]; simp), hw]
  have e40 : Rounding.ieee.f32 40 = 40 := by simpa using ieee_f32_int 40 (by norm_num)
  have e50 : Rounding.ieee.f32 50 = 50 := by simpa using ieee_f32_int 50 (by norm_num)
  have e1280 : Rounding.ieee.f64 1280 = 1280 := by simpa using ieee_f64_int 1280 (by norm_num)
  have e256 : Rounding.ieee.f64 256 = 256 := by simpa using ieee_f64_int 256 (by norm_num)
  have f256 : Rounding.ieee.f32 256 = 256 := by simpa using ieee_f32_int 256 (by norm_num)
  have hm : specRoundedMaxOfMeans [{ timestamp := t, ant1 := 40, ant2 := 50 }] = 50 := by
    simp only [specRoundedMaxOfMeans, List.map_cons, List.map_nil, List.sum_cons, List.sum_nil,
      List.length_cons, List.length_nil]
    norm_num
    rw [e40, e50]
    norm_num
  have a1 : (2048 : ℚ) * 50 / 80 = 1280 := by norm_num
  have a2 : (-1024 : ℚ) + 1280 = 256 := by norm_num
  have a3 : max (-1024 : ℚ) (min 1024 256) = ((256 : Int) : ℚ) := by norm_num
  rw [hm, specRoundedQuality, a1, e1280, a2, e256, f256, a3, truncToInt,
    if_pos (by norm_num), Int.floor_intCast]

/-- Witness for C8 as amended: two samples in the window with means 40 and 40 (the mean of the
per-sample maxima would be 80), one sample older than a second outside it; the clock ticks
between the clean-ups. -/
theorem quality_is_rounded_rescaled_max_of_means_witness :
    (calculate_signal_quality Rounding.ieee
        (add_rssi (add_rssi (add_rssi SignalQualityCalculator.new 0 90 10) 2000000000 80 0)
          2000000007 0 80)
        { rssi := 2500000000, snr := 2500000001, fec := 2500000002, avg_rssi := 2500000003,
          avg_snr := 2500000004 }).1.quality
      = specRoundedQuality (specRoundedMaxOfMeans
          [{ timestamp := 2000000000, ant1 := 80, ant2 := 0 },
           { timestamp := 2000000007, ant1 := 0, ant2 := 80 }]) :=
  (quality_is_rounded_rescaled_max_of_means
    (add_rssi (add_rssi (add_rssi SignalQualityCalculator.new 0 90 10) 2000000000 80 0)
      2000000007 0 80)
    { rssi := 2500000000, snr := 2500000001, fec := 2500000002, avg_rssi := 2500000003,
      avg_snr := 2500000004 } (by decide) (by decide) (by decide)).1

/-! ### Purge of the rolling sets -/

theorem mem_window {α : Type} (ts : α → Int) (q : Int) (l : List α) (e : α) :
    e ∈ l.filter (fun x => inWindow q (ts x)) ↔ e ∈ l ∧ q - kAveragingWindow ≤ ts e := by
  simp [List.mem_filter, inWindow]

/-- Counterexample to C9: both entries are stamped 0, exactly one second before the
readings of the three clean-ups, and pass them; the clock ticks before the clean-up inside
`get_avg`, which removes the RSSI entry, so that the quality is that of an empty window,
while the SNR entry with the same stamp is retained and averaged.  No query time `q` gives
these rolling sets. -/
theorem purge_single_query_time_counterexample :
    (calculate_signal_quality Rounding.ieee boundaryEstimator tickingClock).2.m_rssis = []
    ∧ (calculate_signal_quality Rounding.ieee boundaryEstimator tickingClock).2.m_snrs
        = [{ timestamp := 0, ant1 := 20, ant2 := 25 }]
    ∧ (calculate_signal_quality Rounding.ieee boundaryEstimator tickingClock).1.quality = -1024
    ∧ (calculate_signal_quality Rounding.ieee boundaryEstimator tickingClock).1.snr = 25
    ∧ ¬ ∃ q : Int,
        (calculate_signal_quality Rounding.ieee boundaryEstimator tickingClock).2.m_rssis
            = boundaryEstimator.m_rssis.filter (fun e => decide (q - kAveragingWindow ≤ e.timestamp))
          ∧ (calculate_signal_quality Rounding.ieee boundaryEstimator tickingClock).2.m_snrs
            = boundaryEstimator.m_snrs.filter
                (fun e => decide (q - kAveragingWindow ≤ e.timestamp)) := by
  have hst := calculate_state_clk Rounding.ieee boundaryEstimator tickingClock
  have hr : (calculate_signal_quality Rounding.ieee boundaryEstimator tickingClock).2.m_rssis
      = [] := by
    rw [hst]; decide
  have hs : (calculate_signal_quality Rounding.ieee boundaryEstimator tickingClock).2.m_snrs
      = [{ timestamp := 0, ant1 := 20, ant2 := 25 }] := by
    rw [hst]; decide
  refine ⟨hr, hs, ?_, ?_, ?_⟩
  · rw [(calculate_snapshot_clk Rounding.ieee boundaryEstimator tickingClock).1]
    have hw : boundaryEstimator.m_rssis.filter (fun e => inWindow tickingClock.rssi e.timestamp
        && inWindow tickingClock.avg_rssi e.timestamp) = [] := by decide
    have havg : avgOfPairs Rounding.ieee [] = 0 := by simp [avgOfPairs, toInt32]
    have e0 : Rounding.ieee.f64 0 = 0 := by simpa using ieee_f64_int 0 (by norm_num)
    have e1 : Rounding.ieee.f64 (-1024) = -1024 := by
      simpa using ieee_f64_int (-1024) (by norm_num)
    have e2 : Rounding.ieee.f32 (-1024) = -1024 := by
      simpa using ieee_f32_int (-1024) (by norm_num)
    have a3 : max (-1024 : ℚ) (min 1024 (-1024)) = ((-1024 : Int) : ℚ) := by norm_num
    rw [hw, List.map_nil, havg, clamp_clamp,
      map_range_ieee 0 ⟨0, 0, by norm_num, by norm_num⟩]
    norm_num
    rw [e0]
    norm_num
    rw [e1, e2, a3, truncToInt, if_neg (by norm_num), Int.ceil_intCast]
  · rw [snr_rounded _ tickingClock (by decide) (by decide) (by decide)]
    have hw : boundaryEstimator.m_snrs.filter (fun e => inWindow tickingClock.snr e.timestamp)
        = [{ timestamp := 0, ant1 := 20, ant2 := 25 }] := by decide
    have e20 : Rounding.ieee.f32 20 = 20 := by simpa using ieee_f32_int 20 (by norm_num)
    have e25 : Rounding.ieee.f32 25 = 25 := by simpa using ieee_f32_int 25 (by norm_num)
    rw [hw]
    simp only [specRoundedMaxOfMeansSnr, List.map_cons, List.map_nil, List.sum_cons,
      List.sum_nil, List.length_cons, List.length_nil]
    norm_num
    rw [e20, e25]
    norm_num
  · rintro ⟨q, h1, h2⟩
    rw [hr] at h1
    rw [hs] at h2
    by_cases hq : q - kAveragingWindow ≤ 0
    · have hq1 : q ≤ kAveragingWindow := by omega
      have : boundaryEstimator.m_rssis.filter
          (fun e => decide (q - kAveragingWindow ≤ e.timestamp))
          = [{ timestamp := 0, ant1 := 40, ant2 := 50 }] := by
        simp [boundaryEstimator, add_rssi, add_snr, SignalQualityCalculator.new, hq1]
      rw [this] at h1
      exact absurd h1 (by simp)
    · have hq1 : kAveragingWindow < q := by omega
      have : boundaryEstimator.m_snrs.filter
          (fun e => decide (q - kAveragingWindow ≤ e.timestamp)) = [] := by
        simp [boundaryEstimator, add_rssi, add_snr, SignalQualityCalculator.new, hq1]
      rw [this] at h2
      exact absurd h2 (by simp)

/-- C9 as amended: `calculate_signal_quality` reads the clock for each of its five
clean-ups, and an entry stamped `t` passes the clean-up of a reading `c` exactly when
`t >= c - 1s` (`t = c - 1s` included).  After the call the RSSI set holds exactly its
entries that pass the readings of the RSSI clean-up and of the clean-ups inside the two
`get_avg` calls, the SNR set those that pass the reading of the SNR clean-up, the FEC set
those that pass the reading of the FEC clean-up, all in their original order.  The RSSI
average behind the quality is computed over exactly the RSSI entries that pass the
readings of the RSSI clean-up and of the clean-up inside the first `get_avg`, the SNR
average over exactly the retained SNR entries, the FEC sums over exactly the retained FEC
entries.  For a query whose readings all equal `q`, each rolling set and each aggregate is
that of the entries with `t >= q - 1s`. -/
theorem purge_per_clock_reading (r : Rounding) (s : SignalQualityCalculator)
    (clk : QueryClock) :
    ((calculate_signal_quality r s clk).2.m_rssis
        = s.m_rssis.filter (fun e => decide (clk.rssi - kAveragingWindow ≤ e.timestamp)
            && decide (clk.avg_rssi - kAveragingWindow ≤ e.timestamp)
            && decide (clk.avg_snr - kAveragingWindow ≤ e.timestamp))
      ∧ (calculate_signal_quality r s clk).2.m_snrs
        = s.m_snrs.filter (fun e => decide (clk.snr - kAveragingWindow ≤ e.timestamp))
      ∧ (calculate_signal_quality r s clk).2.m_fec_data
        = s.m_fec_data.filter (fun e => decide (clk.fec - kAveragingWindow ≤ e.timestamp)))
    ∧ ((∀ e, e ∈ (calculate_signal_quality r s clk).2.m_rssis
          ↔ e ∈ s.m_rssis ∧ clk.rssi - kAveragingWindow ≤ e.timestamp
            ∧ clk.avg_rssi - kAveragingWindow ≤ e.timestamp
            ∧ clk.avg_snr - kAveragingWindow ≤ e.timestamp)
      ∧ (∀ e, e ∈ (calculate_signal_quality r s clk).2.m_snrs
          ↔ e ∈ s.m_snrs ∧ clk.snr - kAveragingWindow ≤ e.timestamp)
      ∧ (∀ e, e ∈ (calculate_signal_quality r s clk).2.m_fec_data
          ↔ e ∈ s.m_fec_data ∧ clk.fec - kAveragingWindow ≤ e.timestamp))
    ∧ (List.Sublist (calculate_signal_quality r s clk).2.m_rssis s.m_rssis
      ∧ List.Sublist (calculate_signal_quality r s clk).2.m_snrs s.m_snrs
      ∧ List.Sublist (calculate_signal_quality r s clk).2.m_fec_data s.m_fec_data)
    ∧ ((calculate_signal_quality r s clk).1.quality
        = truncToInt (max (-1024) (min 1024 (max (-1024) (min 1024
            (r.f32 (map_range r
              (avgOfPairs r
                ((s.m_rssis.filter (fun e => decide (clk.rssi - kAveragingWindow ≤ e.timestamp)
                    && decide (clk.avg_rssi - kAveragingWindow ≤ e.timestamp))).map
                  (fun entry => ((entry.ant1 : ℚ), (entry.ant2 : ℚ))))) 0 80 (-1024) 1024))))))
      ∧ (calculate_signal_quality r s clk).1.snr
        = avgOfPairs r
            ((s.m_snrs.filter (fun e => decide (clk.snr - kAveragingWindow ≤ e.timestamp))).map
              (fun entry => ((entry.ant1 : ℚ), (entry.ant2 : ℚ))))
      ∧ (calculate_signal_quality r s clk).1.recovered_last_second
        = toInt32 (get_accumulated_fec_data (windowed s clk.fec)).1
      ∧ (calculate_signal_quality r s clk).1.lost_last_second
        = toInt32 (get_accumulated_fec_data (windowed s clk.fec)).2.1
      ∧ (calculate_signal_quality r s clk).1.total_last_second
        = toInt32 (get_accumulated_fec_data (windowed s clk.fec)).2.2
      ∧ (windowed s clk.fec).m_fec_data
        = s.m_fec_data.filter (fun e => decide (clk.fec - kAveragingWindow ≤ e.timestamp)))
    ∧ (∀ q : Int,
        ((calculate_signal_quality r s (QueryClock.at q)).2.m_rssis
            = s.m_rssis.filter (fun e => decide (q - kAveragingWindow ≤ e.timestamp))
          ∧ (calculate_signal_quality r s (QueryClock.at q)).2.m_snrs
            = s.m_snrs.filter (fun e => decide (q - kAveragingWindow ≤ e.timestamp))
          ∧ (calculate_signal_quality r s (QueryClock.at q)).2.m_fec_data
            = s.m_fec_data.filter (fun e => decide (q - kAveragingWindow ≤ e.timestamp)))
        ∧ (calculate_signal_quality r s (QueryClock.at q)).1.quality
          = truncToInt (max (-1024) (min 1024 (max (-1024) (min 1024
              (r.f32 (map_range r
                (avgOfPairs r
                  ((s.m_rssis.filter (fun e => decide (q - kAveragingWindow ≤ e.timestamp))).map
                    (fun entry => ((entry.ant1 : ℚ), (entry.ant2 : ℚ))))) 0 80 (-1024) 1024))))))
        ∧ (calculate_signal_quality r s (QueryClock.at q)).1.snr
          = avgOfPairs r
              ((s.m_snrs.filter (fun e => decide (q - kAveragingWindow ≤ e.timestamp))).map
                (fun entry => ((entry.ant1 : ℚ), (entry.ant2 : ℚ))))
        ∧ (calculate_signal_quality r s (QueryClock.at q)).1.recovered_last_second
          = toInt32 (get_accumulated_fec_data (windowed s q)).1
        ∧ (calculate_signal_quality r s (QueryClock.at q)).1.lost_last_second
          = toInt32 (get_accumulated_fec_data (windowed s q)).2.1
        ∧ (calculate_signal_quality r s (QueryClock.at q)).1.total_last_second
          = toInt32 (get_accumulated_fec_data (windowed s q)).2.2
        ∧ (windowed s q).m_fec_data
          = s.m_fec_data.filter (fun e => decide (q - kAveragingWindow ≤ e.timestamp))) := by
  refine ⟨?_, ?_, ?_, ?_, ?_⟩
  · rw [calculate_state_clk r s clk]
    exact ⟨rfl, rfl, rfl⟩
  · rw [calculate_state_clk r s clk]
    refine ⟨?_, ?_, ?_⟩
    · intro e
      simp only [List.mem_filter, inWindow, Bool.and_eq_true, decide_eq_true_eq]
      tauto
    · intro e; exact mem_window (fun x : SnrEntry => x.timestamp) clk.snr s.m_snrs e
    · intro e; exact mem_window (fun x : FecEntry => x.timestamp) clk.fec s.m_fec_data e
  · rw [calculate_state_clk r s clk]
    exact ⟨List.filter_sublist _, List.filter_sublist _, List.filter_sublist _⟩
  · obtain ⟨h1, h2, h3, h4, h5⟩ := calculate_snapshot_clk r s clk
    exact ⟨h1, h2, h3, h4, h5, rfl⟩
  · intro q
    obtain ⟨h1, h2, h3, h4, h5⟩ := calculate_snapshot r s q
    rw [calculate_state r s q]
    exact ⟨⟨rfl, rfl, rfl⟩, h1, h2, h3, h4, h5, rfl⟩

/-! ## Start and Stop -/

/-- What a `Start` call does when a worker handle exists: it fails, after having zeroed
the three counters and stored the new key path. -/
theorem Start_rejected_effects (env : UsbEnv) (s : WFBReceiver) (tid : Nat)
    (vidPid : String) (channel : Nat) (channelWidthMode : Int) (kPath : String)
    (hthread : s.usbThread = some tid) :
    (Start env s vidPid channel channelWidthMode kPath).1 = false
      ∧ (Start env s vidPid channel channelWidthMode kPath).2.gui.wifiFrameCount_ = 0
      ∧ (Start env s vidPid channel channelWidthMode kPath).2.gui.wfbFrameCount_ = 0
      ∧ (Start env s vidPid channel channelWidthMode kPath).2.gui.rtpPktCount_ = 0
      ∧ (Start env s vidPid channel channelWidthMode kPath).2.keyPath = kPath := by
  simp [Start, emit, hthread]

/-- C11 (the code departs from the claim): a session is active, one frame and one
datagram have been counted and the key path is `gs.key`; a second `Start` with key path
`other.key` returns false, and after it the three counters are 0 and the stored key path
is `other.key`. -/
theorem Start_rejected_clobbers_state :
    ∃ s, frameLoop rfcExternals (workerCreateDevice runningReceiver { should_stop := false })
        [(videoFrame, [datagramH264])] = some s
      ∧ s.usbThread = some 7
      ∧ (s.gui.wifiFrameCount_ = 1 ∧ s.gui.wfbFrameCount_ = 1 ∧ s.gui.rtpPktCount_ = 1
          ∧ s.keyPath = "gs.key")
      ∧ (Start usbPresent s "0bda:8812" 173 0 "other.key").1 = false
      ∧ ((Start usbPresent s "0bda:8812" 173 0 "other.key").2.gui.wifiFrameCount_ = 0
          ∧ (Start usbPresent s "0bda:8812" 173 0 "other.key").2.gui.wfbFrameCount_ = 0
          ∧ (Start usbPresent s "0bda:8812" 173 0 "other.key").2.gui.rtpPktCount_ = 0
          ∧ (Start usbPresent s "0bda:8812" 173 0 "other.key").2.keyPath = "other.key") := by
  refine ⟨_, rfl, by decide, by decide, ?_, ?_⟩
  · exact (Start_rejected_effects usbPresent _ 7 _ _ _ _ (by decide)).1
  · exact (Start_rejected_effects usbPresent _ 7 _ _ _ _ (by decide)).2

/-- C12: `Stop` returns true in every state (with or without an active session), and a
second `Stop` right after the first leaves the receiver state as the first left it:
`playing` cleared, the stop flag set on the device if there is one, worker and device
handles untouched; each call makes the one call `NotifyWifiStop`. -/
theorem Stop_idempotent (s : WFBReceiver) :
    (Stop s).1 = true
      ∧ (Stop (Stop s).2).1 = true
      ∧ (Stop (Stop s).2).2.untraced = (Stop s).2.untraced
      ∧ (Stop s).2.playing = false
      ∧ (Stop s).2.rtlDevice = s.rtlDevice.map (fun d => { d with should_stop := true })
      ∧ (Stop s).2.usbThread = s.usbThread
      ∧ (Stop s).2.devHandle = s.devHandle
      ∧ (Stop s).2.ctx = s.ctx
      ∧ (Stop s).2.gui = s.gui
      ∧ newEvents s (Stop s).2 = [Event.NotifyWifiStop]
      ∧ newEvents (Stop s).2 (Stop (Stop s).2).2 = [Event.NotifyWifiStop] := by
  refine ⟨rfl, rfl, ?_, rfl, rfl, rfl, rfl, rfl, rfl, ?_, ?_⟩
  · cases h : s.rtlDevice <;> simp [Stop, emit, WFBReceiver.untraced, h]
  · simp [Stop, emit, newEvents]
  · simp [Stop, emit, newEvents]

/-- C20: when no worker handle exists and `Start` fails because the device cannot be
opened, or because claiming the interface fails, it reports an error to the log sink,
returns false, creates no thread and leaves `usbThread` unset; a later `Start` for which
the USB calls succeed is then not rejected: it returns true. -/
theorem Start_failure_spawns_no_worker (env : UsbEnv) (s : WFBReceiver) (vidPid : String)
    (channel : Nat) (channelWidthMode : Int) (kPath : String)
    (hidle : s.usbThread = none) (hinit : 0 ≤ env.init_rc)
    (hfail : env.open_device (parseVidPid vidPid env.uninit_vid env.uninit_pid).1
          (parseVidPid vidPid env.uninit_vid env.uninit_pid).2 = none
        ∨ ((env.open_device (parseVidPid vidPid env.uninit_vid env.uninit_pid).1
          (parseVidPid vidPid env.uninit_vid env.uninit_pid).2).isSome ∧ env.claim_rc < 0)) :
    (Start env s vidPid channel channelWidthMode kPath).1 = false
      ∧ (∃ e ∈ newEvents s (Start env s vidPid channel channelWidthMode kPath).2,
          e.isErrorLog = true)
      ∧ (newEvents s (Start env s vidPid channel channelWidthMode kPath).2).filter
          Event.isSpawn = []
      ∧ (Start env s vidPid channel channelWidthMode kPath).2.usbThread = none
      ∧ ∀ (env2 : UsbEnv) (vidPid2 : String) (channel2 : Nat) (channelWidthMode2 : Int)
          (kPath2 : String), 0 ≤ env2.init_rc →
          (env2.open_device (parseVidPid vidPid2 env2.uninit_vid env2.uninit_pid).1
            (parseVidPid vidPid2 env2.uninit_vid env2.uninit_pid).2).isSome →
          0 ≤ env2.claim_rc →
          (Start env2 (Start env s vidPid channel channelWidthMode kPath).2 vidPid2 channel2
            channelWidthMode2 kPath2).1 = true := by
  have hinit1 : ¬ env.init_rc < 0 := not_lt.mpr hinit
  have later : ∀ (t : WFBReceiver), t.usbThread = none →
      ∀ (env2 : UsbEnv) (vidPid2 : String) (channel2 : Nat) (channelWidthMode2 : Int)
        (kPath2 : String), 0 ≤ env2.init_rc →
        (env2.open_device (parseVidPid vidPid2 env2.uninit_vid env2.uninit_pid).1
          (parseVidPid vidPid2 env2.uninit_vid env2.uninit_pid).2).isSome →
        0 ≤ env2.claim_rc →
        (Start env2 t vidPid2 channel2 channelWidthMode2 kPath2).1 = true := by
    intro t ht env2 vidPid2 channel2 channelWidthMode2 kPath2 h1 h2 h3
    obtain ⟨h, hh⟩ := Option.isSome_iff_exists.mp h2
    simp [Start, emit, ht, not_lt.mpr h1, not_lt.mpr h3, hh]
  rcases hfail with hnone | ⟨hsome, hclaim⟩
  · have hres : (Start env s vidPid channel channelWidthMode kPath).2.usbThread = none := by
      simp [Start, emit, hidle, hinit1, hnone]
    refine ⟨?_, ?_, ?_, hres, later _ hres⟩
    · simp [Start, emit, hidle, hinit1, hnone]
    · simp [Start, emit, hidle, hinit1, hnone, newEvents, Event.isErrorLog]
    · simp [Start, emit, hidle, hinit1, hnone, newEvents, Event.isSpawn]
  · obtain ⟨h, hh⟩ := Option.isSome_iff_exists.mp hsome
    have hres : (Start env s vidPid channel channelWidthMode kPath).2.usbThread = none := by
      cases hk : env.kernel_driver_active <;> simp [Start, emit, hidle, hinit1, hh, hclaim, hk]
    refine ⟨?_, ?_, ?_, hres, later _ hres⟩
    · simp [Start, emit, hidle, hinit1, hh, hclaim]
    · cases hk : env.kernel_driver_active <;>
        simp [Start, emit, hidle, hinit1, hh, hclaim, hk, newEvents, Event.isErrorLog]
    · cases hk : env.kernel_driver_active <;>
        simp [Start, emit, hidle, hinit1, hh, hclaim, hk, newEvents, Event.isSpawn]

/-- Witness for C20: the device is absent, respectively its interface cannot be claimed;
a later `Start` with the device present succeeds. -/
theorem Start_failure_spawns_no_worker_witness :
    ((Start usbAbsent freshReceiver "0bda:8812" 173 0 "gs.key").1 = false
      ∧ (Start usbAbsent freshReceiver "0bda:8812" 173 0 "gs.key").2.usbThread = none
      ∧ (Start usbPresent (Start usbAbsent freshReceiver "0bda:8812" 173 0 "gs.key").2
          "0bda:8812" 173 0 "gs.key").1 = true)
    ∧ ((Start usbBusy freshReceiver "0bda:8812" 173 0 "gs.key").1 = false
      ∧ (Start usbBusy freshReceiver "0bda:8812" 173 0 "gs.key").2.usbThread = none
      ∧ (Start usbPresent (Start usbBusy freshReceiver "0bda:8812" 173 0 "gs.key").2
          "0bda:8812" 173 0 "gs.key").1 = true) :=
  ⟨⟨(Start_failure_spawns_no_worker usbAbsent freshReceiver "0bda:8812" 173 0 "gs.key" rfl
        (by decide) (Or.inl rfl)).1,
      (Start_failure_spawns_no_worker usbAbsent freshReceiver "0bda:8812" 173 0 "gs.key" rfl
        (by decide) (Or.inl rfl)).2.2.2.1,
      (Start_failure_spawns_no_worker usbAbsent freshReceiver "0bda:8812" 173 0 "gs.key" rfl
        (by decide) (Or.inl rfl)).2.2.2.2 usbPresent "0bda:8812" 173 0 "gs.key" (by decide)
        rfl (by decide)⟩,
    ⟨(Start_failure_spawns_no_worker usbBusy freshReceiver "0bda:8812" 173 0 "gs.key" rfl
        (by decide) (Or.inr ⟨rfl, by decide⟩)).1,
      (Start_failure_spawns_no_worker usbBusy freshReceiver "0bda:8812" 173 0 "gs.key" rfl
        (by decide) (Or.inr ⟨rfl, by decide⟩)).2.2.2.1,
      (Start_failure_spawns_no_worker usbBusy freshReceiver "0bda:8812" 173 0 "gs.key" rfl
        (by decide) (Or.inr ⟨rfl, by decide⟩)).2.2.2.2 usbPresent "0bda:8812" 173 0 "gs.key"
        (by decide) rfl (by decide)⟩⟩

/-! ## Frames handed to the aggregator -/

/-- A frame that fails the validation or does not match the channel is not forwarded. -/
theorem handle80211Frame_dropped (ext : Externals) (s : WFBReceiver) (packet : Packet)
    (recovered : List Datagram)
    (h : ext.IsValidWfbFrame packet.Data = false
      ∨ ext.MatchesChannelID packet.Data (video_channel_id_be8 ext.littleEndian) = false) :
    ∃ s1, handle80211Frame ext s packet recovered = some s1
      ∧ processPacketCalls (newEvents s s1) = [] := by
  by_cases hv : ext.IsValidWfbFrame packet.Data = true
  · have hm : ext.MatchesChannelID packet.Data (video_channel_id_be8 ext.littleEndian)
        = false := by
      rcases h with h | h
      · rw [hv] at h; exact absurd h (by decide)
      · exact h
    exact ⟨_, by simp only [handle80211Frame, hv, hm]; rfl,
      by simp [processPacketCalls, newEvents, emit, Event.isProcessPacket]⟩
  · exact ⟨_, by simp only [handle80211Frame, hv]; rfl,
      by simp [processPacketCalls, newEvents, emit, Event.isProcessPacket]⟩

/-- A valid frame of the channel is handed to the aggregator in use, once: the buffer
starts after the 802.11 header, the size is `payloadSize`, the radio index is 0 and the
antenna and RSSI arrays are the two static arrays. -/
theorem handle80211Frame_forwarded (ext : Externals) (s s1 : WFBReceiver) (packet : Packet)
    (recovered : List Datagram) (hv : ext.IsValidWfbFrame packet.Data = true)
    (hm : ext.MatchesChannelID packet.Data (video_channel_id_be8 ext.littleEndian) = true)
    (h : handle80211Frame ext s packet recovered = some s1) :
    processPacketCalls (newEvents s s1)
        = [Event.process_packet (aggregatorInUse s)
            (packet.Data.drop ext.sizeof_ieee80211_header) (payloadSize ext packet) 0
            [1, 1, 1, 1] [1, 1, 1, 1]]
      ∧ s1.video_aggregator = some (aggregatorInUse s) := by
  simp only [handle80211Frame, hv, hm] at h
  simp only [Bool.not_true, Bool.false_eq_true, if_false, if_true] at h
  have hrtp := handleRtpAll_no_process_packet ext recovered _ s1 h
  obtain ⟨es, ht, hn⟩ := hrtp
  have hagg : ∀ (t : WFBReceiver), handleRtpAll ext t recovered = some s1 →
      s1.video_aggregator = t.video_aggregator := by
    clear h ht
    induction recovered with
    | nil => intro t h; simp only [handleRtpAll, Option.some.injEq] at h; rw [h]
    | cons d ds ih =>
      intro t h
      cases hd : handleRtp ext t d with
      | none => simp [handleRtpAll, hd] at h
      | some t1 =>
        simp only [handleRtpAll, hd] at h
        rw [ih t1 h]
        unfold handleRtp at hd
        cases hdev : t.rtlDevice with
        | none => simp [emit, hdev] at hd
        | some dev =>
          simp only [emit, hdev] at hd
          split at hd
          · cases hd; rfl
          · split at hd
            · cases hd; rfl
            · simp only [Option.some.injEq] at hd
              rw [← hd]
              split <;> (try split) <;> rfl
  constructor
  · rw [processPacketCalls, newEvents, ht]
    simp [emit, Event.isProcessPacket, hn, aggregatorInUse, List.filter_append]
  · rw [hagg _ h]
    simp [emit, aggregatorInUse]

/-- Once the static aggregator has been constructed, every later frame that is forwarded
goes to that instance, whatever the key path stored since. -/
theorem handle80211Frame_keeps_aggregator (ext : Externals) (s s1 : WFBReceiver)
    (a : Aggregator) (packet : Packet) (recovered : List Datagram)
    (hagg : s.video_aggregator = some a)
    (hv : ext.IsValidWfbFrame packet.Data = true)
    (hm : ext.MatchesChannelID packet.Data (video_channel_id_be8 ext.littleEndian) = true)
    (h : handle80211Frame ext s packet recovered = some s1) :
    processPacketCalls (newEvents s s1)
        = [Event.process_packet a (packet.Data.drop ext.sizeof_ieee80211_header)
            (payloadSize ext packet) 0 [1, 1, 1, 1] [1, 1, 1, 1]]
      ∧ s1.video_aggregator = some a := by
  have h1 := handle80211Frame_forwarded ext s s1 packet recovered hv hm h
  simpa [aggregatorInUse, hagg] using h1

/-- C13 (the code departs from the claim): a first session with key path `k1.key`
forwards one frame and its worker tears down (the worker handle is cleared); a second
session is started with key path `k2.key`, which is the stored key path from then on; the
frame of the second session is handed to the aggregator that was constructed with
`k1.key`. -/
theorem stale_aggregator_in_second_session :
    ∃ s1 s2,
      runSession rfcExternals usbPresent freshReceiver "k1.key" [(videoFrame, [])] = some s1
      ∧ s1.usbThread = none
      ∧ runSession rfcExternals usbPresent s1 "k2.key" [(videoFrame, [])] = some s2
      ∧ s2.keyPath = "k2.key"
      ∧ processPacketCalls (newEvents s1 s2)
          = [Event.process_packet { keyPath := "k1.key", epoch := 0, channel_id := 1963316736 }
              [9, 8, 7, 6, 5, 4] 2 0 [1, 1, 1, 1] [1, 1, 1, 1]] := by
  refine ⟨_, _, rfl, by decide, rfl, by decide, by decide⟩

/-- C17: with the frame validation modelled from the spec, a captured frame (of a size
that fits `size_t`) shorter than the 802.11 header plus the 4-byte trailer makes
`handle80211Frame` return without a `process_packet` call; and for every `process_packet`
call the frame holds at least header and trailer, the size handed over is the frame size
minus header size minus 4 without wrap-around, the buffer starts right after the header,
and the payload (the first `size` bytes of the buffer) is the frame with the header
removed from the front and the last 4 bytes removed. -/
theorem short_frame_dropped (ext : Externals) (formatOk : List Nat → Bool) (s : WFBReceiver)
    (packet : Packet) (recovered : List Datagram)
    (hsz : packet.Data.length < 18446744073709551616) :
    (packet.Data.length < ext.sizeof_ieee80211_header + 4 →
      ∃ s1, handle80211Frame (specExternals ext formatOk) s packet recovered = some s1
        ∧ processPacketCalls (newEvents s s1) = [])
    ∧ (∀ (s1 : WFBReceiver) (agg : Aggregator) (buf : List Nat) (size wlan_idx : Nat)
        (antenna : List Nat) (rssi : List Int),
        handle80211Frame (specExternals ext formatOk) s packet recovered = some s1 →
        Event.process_packet agg buf size wlan_idx antenna rssi ∈ newEvents s s1 →
        ext.sizeof_ieee80211_header + 4 ≤ packet.Data.length
          ∧ size + ext.sizeof_ieee80211_header + 4 = packet.Data.length
          ∧ buf = packet.Data.drop ext.sizeof_ieee80211_header
          ∧ ∃ header trailer, header.length = ext.sizeof_ieee80211_header
              ∧ trailer.length = 4
              ∧ packet.Data = header ++ buf.take size ++ trailer) := by
  constructor
  · intro hshort
    apply handle80211Frame_dropped
    left
    simp [specExternals, specIsValidWfbFrame, Nat.not_le.mpr hshort]
  · intro s1 agg buf size wlan_idx antenna rssi h hmem
    have hmem1 : Event.process_packet agg buf size wlan_idx antenna rssi
        ∈ processPacketCalls (newEvents s s1) := by
      simp [processPacketCalls, List.mem_filter, hmem, Event.isProcessPacket]
    by_cases hv : (specExternals ext formatOk).IsValidWfbFrame packet.Data = true
    · by_cases hm : (specExternals ext formatOk).MatchesChannelID packet.Data
          (video_channel_id_be8 (specExternals ext formatOk).littleEndian) = true
      · rw [(handle80211Frame_forwarded _ s s1 packet recovered hv hm h).1] at hmem1
        simp only [List.mem_singleton, Event.process_packet.injEq] at hmem1
        obtain ⟨-, hbuf, hsize, -, -, -⟩ := hmem1
        have hlen : ext.sizeof_ieee80211_header + 4 ≤ packet.Data.length := by
          simp only [specExternals, specIsValidWfbFrame, Bool.and_eq_true,
            decide_eq_true_eq] at hv
          exact hv.1
        have hps : payloadSize (specExternals ext formatOk) packet
            = packet.Data.length - ext.sizeof_ieee80211_header - 4 := by
          simp only [payloadSize, specExternals]
          have h1 : ((packet.Data.length : Int) - (ext.sizeof_ieee80211_header : Int) - 4)
              = ((packet.Data.length - ext.sizeof_ieee80211_header - 4 : Nat) : Int) := by
            omega
          rw [h1]
          have h2 : ((packet.Data.length - ext.sizeof_ieee80211_header - 4 : Nat) : Int)
              % 18446744073709551616
              = ((packet.Data.length - ext.sizeof_ieee80211_header - 4 : Nat) : Int) := by
            apply Int.emod_eq_of_lt
            · omega
            · omega
          rw [h2]
          simp
        have hbuf1 : buf = packet.Data.drop ext.sizeof_ieee80211_header := by
          rw [hbuf]; rfl
        have hsize1 : size = packet.Data.length - ext.sizeof_ieee80211_header - 4 := by
          rw [hsize, hps]
        refine ⟨hlen, by omega, hbuf1, packet.Data.take ext.sizeof_ieee80211_header,
          buf.drop size, ?_, ?_, ?_⟩
        · rw [List.length_take]; omega
        · rw [hbuf1, List.length_drop, List.length_drop]; omega
        · rw [List.append_assoc, List.take_append_drop, hbuf1, List.take_append_drop]
      · obtain ⟨s2, h2, hnone⟩ := handle80211Frame_dropped _ s packet recovered
          (Or.inr (by simpa using hm))
        rw [h] at h2
        cases h2
        rw [hnone] at hmem1
        simp at hmem1
    · obtain ⟨s2, h2, hnone⟩ := handle80211Frame_dropped (specExternals ext formatOk) s packet
        recovered (Or.inl (by simpa using hv))
      rw [h] at h2
      cases h2
      rw [hnone] at hmem1
      simp at hmem1

/-- Witness for C17: a 27-byte frame, one byte short of header plus trailer, is not
forwarded. -/
theorem short_frame_dropped_witness :
    ∃ s1, handle80211Frame (specExternals rfcExternals (fun _ => true)) freshReceiver
        { Data := [8, 1, 0, 0, 255, 255, 255, 255, 255, 255, 87, 66, 117, 5, 214, 0,
                   87, 66, 117, 5, 214, 0, 0, 0, 9, 8, 7] } [] = some s1
      ∧ processPacketCalls (newEvents freshReceiver s1) = [] :=
  (short_frame_dropped rfcExternals (fun _ => true) freshReceiver
    { Data := [8, 1, 0, 0, 255, 255, 255, 255, 255, 255, 87, 66, 117, 5, 214, 0,
               87, 66, 117, 5, 214, 0, 0, 0, 9, 8, 7] } [] (by decide)).1 (by decide)

/-- The claim C18 as stated fails: the frame `videoFrame` carries RSSI values
`-40, -42, 0, 0` and antenna indices `0, 1, 0, 0`, it is forwarded, and the values passed
with it to `process_packet` are not these. -/
theorem forwarded_metadata_counterexample :
    ¬ (∀ (s1 : WFBReceiver) (agg : Aggregator) (buf : List Nat) (size wlan_idx : Nat)
        (antenna : List Nat) (rssi : List Int),
        handle80211Frame rfcExternals freshReceiver videoFrame [] = some s1 →
        Event.process_packet agg buf size wlan_idx antenna rssi ∈ newEvents freshReceiver s1 →
        antenna = videoFrame.RxAtrib.antenna ∧ rssi = videoFrame.RxAtrib.rssi) := by
  intro hall
  have h := hall _ { keyPath := "", epoch := 0, channel_id := 1963316736 } [9, 8, 7, 6, 5, 4] 2 0
    [1, 1, 1, 1] [1, 1, 1, 1] rfl (by decide)
  exact absurd h.1 (by decide)

/-- C18 as amended: for every frame that is forwarded, the antenna and RSSI values passed
to `process_packet` are the two static arrays `1, 1, 1, 1` and the radio index is 0; the
handler does not read the metadata of the frame: replacing the metadata changes nothing
in what it does. -/
theorem forwarded_metadata_is_constant (ext : Externals) (s : WFBReceiver) (packet : Packet)
    (recovered : List Datagram) :
    (∀ (s1 : WFBReceiver) (agg : Aggregator) (buf : List Nat) (size wlan_idx : Nat)
        (antenna : List Nat) (rssi : List Int),
        handle80211Frame ext s packet recovered = some s1 →
        Event.process_packet agg buf size wlan_idx antenna rssi ∈ newEvents s s1 →
        antenna = [1, 1, 1, 1] ∧ rssi = [1, 1, 1, 1] ∧ wlan_idx = 0)
    ∧ (∀ m : RxAtrib, handle80211Frame ext s { packet with RxAtrib := m } recovered
        = handle80211Frame ext s packet recovered) := by
  constructor
  · intro s1 agg buf size wlan_idx antenna rssi h hmem
    have hmem1 : Event.process_packet agg buf size wlan_idx antenna rssi
        ∈ processPacketCalls (newEvents s s1) := by
      simp [processPacketCalls, List.mem_filter, hmem, Event.isProcessPacket]
    by_cases hv : ext.IsValidWfbFrame packet.Data = true
    · by_cases hm : ext.MatchesChannelID packet.Data (video_channel_id_be8 ext.littleEndian)
          = true
      · rw [(handle80211Frame_forwarded ext s s1 packet recovered hv hm h).1] at hmem1
        simp only [List.mem_singleton, Event.process_packet.injEq] at hmem1
        obtain ⟨-, -, -, hw, ha, hr⟩ := hmem1
        exact ⟨ha, hr, hw⟩
      · obtain ⟨s2, h2, hnone⟩ := handle80211Frame_dropped ext s packet recovered
          (Or.inr (by simpa using hm))
        rw [h] at h2
        cases h2
        rw [hnone] at hmem1
        simp at hmem1
    · obtain ⟨s2, h2, hnone⟩ := handle80211Frame_dropped ext s packet recovered
        (Or.inl (by simpa using hv))
      rw [h] at h2
      cases h2
      rw [hnone] at hmem1
      simp at hmem1
  · intro m
    rfl

/-- Witness for C18 as amended: the one `process_packet` call for `videoFrame`, whose
metadata holds other values. -/
theorem forwarded_metadata_is_constant_witness :
    ∃ s1, handle80211Frame rfcExternals freshReceiver videoFrame [] = some s1
      ∧ Event.process_packet { keyPath := "", epoch := 0, channel_id := 1963316736 }
          [9, 8, 7, 6, 5, 4] 2 0 [1, 1, 1, 1] [1, 1, 1, 1] ∈ newEvents freshReceiver s1
      ∧ (([1, 1, 1, 1] : List Nat) = [1, 1, 1, 1] ∧ ([1, 1, 1, 1] : List Int) = [1, 1, 1, 1]
          ∧ (0 : Nat) = 0) :=
  ⟨_, rfl, by decide,
    (forwarded_metadata_is_constant rfcExternals freshReceiver videoFrame []).1 _
      { keyPath := "", epoch := 0, channel_id := 1963316736 } [9, 8, 7, 6, 5, 4] 2 0
      [1, 1, 1, 1] [1, 1, 1, 1] rfl (by decide)⟩

/-! ## The incident identifier -/

theorem addOp_apply_idr (s : SignalQualityCalculator) (op : AddOp)
    (h : op.isLoss = false) : (op.apply s).m_idr_code = s.m_idr_code := by
  cases op with
  | add_rssi now a b => rfl
  | add_snr now a b => rfl
  | add_fec_data now draws a b c =>
    simp only [AddOp.isLoss, decide_eq_false_iff_not] at h
    simp [AddOp.apply, add_fec_data, h]

theorem applyOps_idr (ops : List AddOp) :
    ∀ s : SignalQualityCalculator, (∀ op ∈ ops, op.isLoss = false) →
      (applyOps s ops).m_idr_code = s.m_idr_code := by
  induction ops with
  | nil => intro s _; rfl
  | cons op ops ih =>
    intro s h
    have h1 := ih (op.apply s) (fun o ho => h o (List.mem_cons_of_mem _ ho))
    have h2 := addOp_apply_idr s op (h op (List.mem_cons_self _ _))
    simpa [applyOps, h2] using h1

theorem calculate_idr (r : Rounding) (s : SignalQualityCalculator) (clk : QueryClock) :
    (calculate_signal_quality r s clk).1.idr_code = s.m_idr_code
      ∧ (calculate_signal_quality r s clk).2.m_idr_code = s.m_idr_code := by
  simp [calculate_signal_quality, get_avg, cleanup_old_rssi_data, cleanup_old_snr_data,
    cleanup_old_fec_data]

/-- C14: the incident identifier changes only through an `add_fec_data` call with
`lost > 0`.  After any sequence of `add_rssi`, `add_snr` and `add_fec_data` calls none of
which reports loss, `calculate_signal_quality` reports the identifier retained before the
sequence and leaves it retained; in particular `add_fec_data` with `lost = 0` (any total
and recovered), `add_rssi`, `add_snr` and `calculate_signal_quality` each leave it
unchanged, while `add_fec_data` with `lost > 0` stores a newly generated string. -/
theorem incident_identifier_stable (r : Rounding) (s : SignalQualityCalculator)
    (ops : List AddOp) (clk : QueryClock) (hnoloss : ∀ op ∈ ops, op.isLoss = false) :
    (calculate_signal_quality r (applyOps s ops) clk).1.idr_code = s.m_idr_code
      ∧ (calculate_signal_quality r (applyOps s ops) clk).2.m_idr_code = s.m_idr_code
      ∧ (∀ (now : Int) (draws : Nat → Nat) (p_all p_recovered : Nat),
          (add_fec_data s now draws p_all p_recovered 0).m_idr_code = s.m_idr_code)
      ∧ (∀ (now : Int) (ant1 ant2 : Nat), (add_rssi s now ant1 ant2).m_idr_code = s.m_idr_code)
      ∧ (∀ (now : Int) (ant1 ant2 : Int), (add_snr s now ant1 ant2).m_idr_code = s.m_idr_code)
      ∧ (calculate_signal_quality r s clk).2.m_idr_code = s.m_idr_code
      ∧ (calculate_signal_quality r s clk).1.idr_code = s.m_idr_code
      ∧ (∀ (now : Int) (draws : Nat → Nat) (p_all p_recovered p_lost : Nat),
          0 < p_lost % 4294967296 →
          (add_fec_data s now draws p_all p_recovered p_lost).m_idr_code
            = generate_random_string draws 4) := by
  refine ⟨?_, ?_, ?_, fun _ _ _ => rfl, fun _ _ _ => rfl, (calculate_idr r s clk).2,
    (calculate_idr r s clk).1, ?_⟩
  · rw [(calculate_idr r _ clk).1, applyOps_idr ops s hnoloss]
  · rw [(calculate_idr r _ clk).2, applyOps_idr ops s hnoloss]
  · intro now draws a b
    simp [add_fec_data]
  · intro now draws a b c hc
    simp [add_fec_data, hc]

/-- Witness for C14: three calls with `lost = 0` on a new estimator; the identifier
reported is still the initial `aaaa`. -/
theorem incident_identifier_stable_witness :
    (calculate_signal_quality Rounding.exact
        (applyOps SignalQualityCalculator.new
          [AddOp.add_fec_data 5 (fun i => i) 12 3 0, AddOp.add_rssi 6 40 50,
           AddOp.add_fec_data 7 (fun i => i + 1) 8 0 0]) (QueryClock.at 8)).1.idr_code
      = "aaaa" :=
  (incident_identifier_stable Rounding.exact SignalQualityCalculator.new
    [AddOp.add_fec_data 5 (fun i => i) 12 3 0, AddOp.add_rssi 6 40 50,
     AddOp.add_fec_data 7 (fun i => i + 1) 8 0 0] (QueryClock.at 8)
    (by intro op hop; simp at hop; rcases hop with h | h | h <;> subst h <;> rfl)).1

/-! ## The signal-to-noise average -/

/-- Counterexample to C16: the SNR samples `(1, 0)`, `(0, 0)`, `(0, 0)` have the means
`1/3` and `0`; the `snr` returned is the `float` nearest to `1/3`, `11184811 / 2^25`, not
`1/3`. -/
theorem snr_exact_mean_counterexample :
    (add_snr (add_snr (add_snr SignalQualityCalculator.new 0 1 0) 0 0 0) 0 0 0).m_snrs.filter
        (fun e => inWindow 0 e.timestamp)
      = [{ timestamp := 0, ant1 := 1, ant2 := 0 }, { timestamp := 0, ant1 := 0, ant2 := 0 },
         { timestamp := 0, ant1 := 0, ant2 := 0 }]
    ∧ (calculate_signal_quality Rounding.ieee
        (add_snr (add_snr (add_snr SignalQualityCalculator.new 0 1 0) 0 0 0) 0 0 0)
        (QueryClock.at 0)).1.snr = 11184811 / 33554432
    ∧ specMaxOfMeansSnr
        [{ timestamp := 0, ant1 := 1, ant2 := 0 }, { timestamp := 0, ant1 := 0, ant2 := 0 },
         { timestamp := 0, ant1 := 0, ant2 := 0 }] = 1 / 3 := by
  have hz : Rounding.ieee.f32 0 = 0 := by simpa using ieee_f32_int 0 (by norm_num)
  refine ⟨by decide, ?_, ?_⟩
  · rw [snr_rounded _ (QueryClock.at 0) (by decide) (by decide) (by decide)]
    have hw : (add_snr (add_snr (add_snr SignalQualityCalculator.new 0 1 0) 0 0 0) 0 0 0).m_snrs.filter
        (fun e => inWindow (QueryClock.at 0).snr e.timestamp)
        = [{ timestamp := 0, ant1 := 1, ant2 := 0 }, { timestamp := 0, ant1 := 0, ant2 := 0 },
           { timestamp := 0, ant1 := 0, ant2 := 0 }] := by decide
    rw [hw]
    simp only [specRoundedMaxOfMeansSnr, List.map_cons, List.map_nil, List.sum_cons,
      List.sum_nil, List.length_cons, List.length_nil]
    norm_num
    rw [hz, ieee_f32_third]
    norm_num
  · simp only [specMaxOfMeansSnr, List.map_cons, List.map_nil, List.sum_cons,
      List.sum_nil, List.length_cons, List.length_nil]
    norm_num

/-- C16 as amended: when the SNR window of a query (the entries that pass the reading of
the SNR clean-up) holds between 1 and 131072 samples, the `snr` returned by
`calculate_signal_quality` is the larger of the mean of the antenna-1 samples and the mean
of the antenna-2 samples of the window, each mean rounded to `float`, with no rescaling
and no clamping; the samples enter with their sign: the samples `(-10, -20)` and
`(-30, -5)` give `-25/2`. -/
theorem snr_is_max_of_rounded_means (s : SignalQualityCalculator) (clk : QueryClock)
    (hrange : ∀ e ∈ s.m_snrs, -128 ≤ e.ant1 ∧ e.ant1 ≤ 127 ∧ -128 ≤ e.ant2 ∧ e.ant2 ≤ 127)
    (hne : s.m_snrs.filter (fun e => inWindow clk.snr e.timestamp) ≠ [])
    (hsize : (s.m_snrs.filter (fun e => inWindow clk.snr e.timestamp)).length ≤ 131072) :
    (calculate_signal_quality Rounding.ieee s clk).1.snr
        = specRoundedMaxOfMeansSnr (s.m_snrs.filter (fun e => inWindow clk.snr e.timestamp))
      ∧ ∀ (t : Int) (clk1 : QueryClock), clk1.snr - kAveragingWindow ≤ t →
          (calculate_signal_quality Rounding.ieee
            (add_snr (add_snr SignalQualityCalculator.new t (-10) (-20)) t (-30) (-5))
            clk1).1.snr = -25 / 2 := by
  refine ⟨snr_rounded s clk hrange hne hsize, ?_⟩
  intro t clk1 ht
  have ht1 : clk1.snr ≤ t + kAveragingWindow := by omega
  have hw : (add_snr (add_snr SignalQualityCalculator.new t (-10) (-20)) t (-30) (-5)).m_snrs.filter
      (fun e => inWindow clk1.snr e.timestamp)
      = [{ timestamp := t, ant1 := -10, ant2 := -20 }, { timestamp := t, ant1 := -30, ant2 := -5 }] := by
    simp [add_snr, SignalQualityCalculator.new, inWindow, ht1, toInt8]
  rw [snr_rounded _ clk1 (by simp [add_snr, SignalQualityCalculator.new, toInt8])
    (by rw [hw]; simp) (by rw [hw]; simp), hw]
  have e20 : Rounding.ieee.f32 (-20) = -20 := by simpa using ieee_f32_int (-20) (by norm_num)
  have e12 : Rounding.ieee.f32 (-(25 / 2)) = -(25 / 2) := by
    have h := roundBinary_dyadic 24 (by norm_num) (-25) (-1) (by norm_num)
    have c : (((-25 : Int)) : ℚ) * (2 : ℚ) ^ (-1 : Int) = -(25 / 2) := by norm_num
    rw [c] at h
    exact h
  simp only [specRoundedMaxOfMeansSnr, List.map_cons, List.map_nil, List.sum_cons,
    List.sum_nil, List.length_cons, List.length_nil]
  norm_num
  rw [e20, e12]
  norm_num

/-- Witness for C16 as amended: two samples in the window, one older sample outside it. -/
theorem snr_is_max_of_rounded_means_witness :
    (calculate_signal_quality Rounding.ieee
        (add_snr (add_snr (add_snr SignalQualityCalculator.new 0 50 60) 2000000000 (-10) (-20))
          2000000007 (-30) (-5))
        { rssi := 2500000000, snr := 2500000001, fec := 2500000002, avg_rssi := 2500000003,
          avg_snr := 2500000004 }).1.snr
      = specRoundedMaxOfMeansSnr
          [{ timestamp := 2000000000, ant1 := -10, ant2 := -20 },
           { timestamp := 2000000007, ant1 := -30, ant2 := -5 }] :=
  (snr_is_max_of_rounded_means
    (add_snr (add_snr (add_snr SignalQualityCalculator.new 0 50 60) 2000000000 (-10) (-20))
      2000000007 (-30) (-5))
    { rssi := 2500000000, snr := 2500000001, fec := 2500000002, avg_rssi := 2500000003,
      avg_snr := 2500000004 } (by decide) (by decide) (by decide)).1

/-! ## The packet counts -/

theorem toInt32_mod (n : Nat) : toInt32 (n % 4294967296) = toInt32 n := by
  simp [toInt32, Nat.mod_mod]

/-- The accumulation loop of `get_accumulated_fec_data`: sums modulo `2^32`. -/
theorem fec_fold (l : List FecEntry) :
    ∀ x y z : Nat,
      l.foldl (fun (a : Nat × Nat × Nat) data =>
          ((a.1 + data.recovered) % 4294967296, (a.2.1 + data.lost) % 4294967296,
            (a.2.2 + data.all) % 4294967296))
        (x % 4294967296, y % 4294967296, z % 4294967296)
        = ((x + (l.map (fun e => e.recovered)).sum) % 4294967296,
            (y + (l.map (fun e => e.lost)).sum) % 4294967296,
            (z + (l.map (fun e => e.all)).sum) % 4294967296) := by
  induction l with
  | nil => intro x y z; simp
  | cons e es ih =>
    intro x y z
    simp only [List.foldl_cons, List.map_cons, List.sum_cons]
    have h1 : (x % 4294967296 + e.recovered) % 4294967296 = (x + e.recovered) % 4294967296 := by
      omega
    have h2 : (y % 4294967296 + e.lost) % 4294967296 = (y + e.lost) % 4294967296 := by
      omega
    have h3 : (z % 4294967296 + e.all) % 4294967296 = (z + e.all) % 4294967296 := by
      omega
    rw [h1, h2, h3, ih]
    simp only [Nat.add_assoc]

theorem get_accumulated_eq (s : SignalQualityCalculator) :
    get_accumulated_fec_data s
      = ((s.m_fec_data.map (fun e => e.recovered)).sum % 4294967296,
          (s.m_fec_data.map (fun e => e.lost)).sum % 4294967296,
          (s.m_fec_data.map (fun e => e.all)).sum % 4294967296) := by
  have h := fec_fold s.m_fec_data 0 0 0
  simp only [Nat.zero_mod, Nat.zero_add] at h
  simp only [get_accumulated_fec_data, h]

/-- The FEC entries in the window after a sequence of add operations. -/
theorem applyOps_fec_window (q : Int) (ops : List AddOp) :
    ∀ s : SignalQualityCalculator,
      ((applyOps s ops).m_fec_data.filter (fun e => inWindow q e.timestamp)).map
          (fun e => (e.all, e.recovered, e.lost))
        = (s.m_fec_data.filter (fun e => inWindow q e.timestamp)).map
            (fun e => (e.all, e.recovered, e.lost))
          ++ (fecCallsInWindow q ops).map
            (fun c => (c.1 % 4294967296, c.2.1 % 4294967296, c.2.2 % 4294967296)) := by
  induction ops with
  | nil => intro s; simp [applyOps, fecCallsInWindow]
  | cons op ops ih =>
    intro s
    have hstep : applyOps s (op :: ops) = applyOps (op.apply s) ops := rfl
    rw [hstep, ih]
    cases op with
    | add_rssi now a b => simp [AddOp.apply, add_rssi, fecCallsInWindow]
    | add_snr now a b => simp [AddOp.apply, add_snr, fecCallsInWindow]
    | add_fec_data now draws a b c =>
      by_cases hw : inWindow q now = true
      · by_cases hc : 0 < c % 4294967296
        · simp [AddOp.apply, Aviateur.add_fec_data, fecCallsInWindow, hw, hc,
            List.filter_append]
        · simp [AddOp.apply, Aviateur.add_fec_data, fecCallsInWindow, hw, hc,
            List.filter_append]
      · by_cases hc : 0 < c % 4294967296
        · simp [AddOp.apply, Aviateur.add_fec_data, fecCallsInWindow, hw, hc,
            List.filter_append]
        · simp [AddOp.apply, Aviateur.add_fec_data, fecCallsInWindow, hw, hc,
            List.filter_append]

theorem sum_mod_map (l : List Nat) :
    (l.map (fun a => a % 4294967296)).sum % 4294967296 = l.sum % 4294967296 := by
  induction l with
  | nil => rfl
  | cons a as ih =>
    simp only [List.map_cons, List.sum_cons]
    omega

/-- The three counts of a query at `q` after a sequence of add operations on a new
estimator: the sums of the arguments of the calls in the window, modulo `2^32`, read as
`int`. -/
theorem fec_counts_mod (r : Rounding) (ops : List AddOp) (q : Int) :
    (calculate_signal_quality r (applyOps SignalQualityCalculator.new ops)
        (QueryClock.at q)).1.total_last_second
        = toInt32 ((fecCallsInWindow q ops).map (fun c => c.1)).sum
      ∧ (calculate_signal_quality r (applyOps SignalQualityCalculator.new ops)
        (QueryClock.at q)).1.recovered_last_second
        = toInt32 ((fecCallsInWindow q ops).map (fun c => c.2.1)).sum
      ∧ (calculate_signal_quality r (applyOps SignalQualityCalculator.new ops)
        (QueryClock.at q)).1.lost_last_second
        = toInt32 ((fecCallsInWindow q ops).map (fun c => c.2.2)).sum := by
  obtain ⟨-, -, hrec, hlost, htot⟩ :=
    calculate_snapshot r (applyOps SignalQualityCalculator.new ops) q
  have hw := applyOps_fec_window q ops SignalQualityCalculator.new
  simp only [SignalQualityCalculator.new, List.filter_nil, List.map_nil, List.nil_append] at hw
  have hall : ((windowed (applyOps SignalQualityCalculator.new ops) q).m_fec_data.map
      (fun e => e.all)) = (fecCallsInWindow q ops).map (fun c => c.1 % 4294967296) := by
    have := congrArg (List.map (fun t : Nat × Nat × Nat => t.1)) hw
    simpa [windowed, List.map_map, Function.comp_def, SignalQualityCalculator.new] using this
  have hr : ((windowed (applyOps SignalQualityCalculator.new ops) q).m_fec_data.map
      (fun e => e.recovered)) = (fecCallsInWindow q ops).map (fun c => c.2.1 % 4294967296) := by
    have := congrArg (List.map (fun t : Nat × Nat × Nat => t.2.1)) hw
    simpa [windowed, List.map_map, Function.comp_def, SignalQualityCalculator.new] using this
  have hl : ((windowed (applyOps SignalQualityCalculator.new ops) q).m_fec_data.map
      (fun e => e.lost)) = (fecCallsInWindow q ops).map (fun c => c.2.2 % 4294967296) := by
    have := congrArg (List.map (fun t : Nat × Nat × Nat => t.2.2)) hw
    simpa [windowed, List.map_map, Function.comp_def, SignalQualityCalculator.new] using this
  have e1 := sum_mod_map ((fecCallsInWindow q ops).map (fun c => c.1))
  have e2 := sum_mod_map ((fecCallsInWindow q ops).map (fun c => c.2.1))
  have e3 := sum_mod_map ((fecCallsInWindow q ops).map (fun c => c.2.2))
  simp only [List.map_map, Function.comp_def] at e1 e2 e3
  rw [htot, hrec, hlost, get_accumulated_eq]
  simp only [hall, hr, hl, e1, e2, e3, toInt32_mod, and_self]

/-- The claim C15 as stated fails: after the single call
`add_fec_data(3000000000, 0, 0)` on a new estimator, a query in the same second reports
a total of `-1294967296`, not the sum `3000000000` of the total arguments. -/
theorem fec_counts_counterexample :
    (calculate_signal_quality Rounding.exact
        (applyOps SignalQualityCalculator.new
          [AddOp.add_fec_data 0 (fun _ => 0) 3000000000 0 0]) (QueryClock.at 0)).1.total_last_second
        = -1294967296
      ∧ (calculate_signal_quality Rounding.exact
        (applyOps SignalQualityCalculator.new
          [AddOp.add_fec_data 0 (fun _ => 0) 3000000000 0 0]) (QueryClock.at 0)).1.total_last_second
        ≠ Int.ofNat ((fecCallsInWindow 0 [AddOp.add_fec_data 0 (fun _ => 0) 3000000000 0 0]).map
            (fun c => c.1)).sum := by
  have h := (fec_counts_mod Rounding.exact
    [AddOp.add_fec_data 0 (fun _ => 0) 3000000000 0 0] 0).1
  have hsum : ((fecCallsInWindow 0 [AddOp.add_fec_data 0 (fun _ => 0) 3000000000 0 0]).map
      (fun c => c.1)).sum = 3000000000 := by
    simp [fecCallsInWindow, inWindow, kAveragingWindow]
  rw [h, hsum]
  constructor
  · decide
  · decide

/-- C15 as amended: for every sequence of add operations on a new estimator, the total,
recovered and lost counts returned by a query at `q` are, respectively, the sum of the
total arguments, of the recovered arguments and of the lost arguments of exactly the
`add_fec_data` calls whose entries lie in the window, each sum reduced modulo `2^32` and
read as a 32-bit signed integer; hence each count equals the sum itself whenever that sum
is below `2^31`.  No field is swapped. -/
theorem fec_counts_are_window_sums (r : Rounding) (ops : List AddOp) (q : Int) :
    ((calculate_signal_quality r (applyOps SignalQualityCalculator.new ops)
        (QueryClock.at q)).1.total_last_second
        = toInt32 ((fecCallsInWindow q ops).map (fun c => c.1)).sum
      ∧ (calculate_signal_quality r (applyOps SignalQualityCalculator.new ops)
        (QueryClock.at q)).1.recovered_last_second
        = toInt32 ((fecCallsInWindow q ops).map (fun c => c.2.1)).sum
      ∧ (calculate_signal_quality r (applyOps SignalQualityCalculator.new ops)
        (QueryClock.at q)).1.lost_last_second
        = toInt32 ((fecCallsInWindow q ops).map (fun c => c.2.2)).sum)
    ∧ (((fecCallsInWindow q ops).map (fun c => c.1)).sum < 2147483648 →
        (calculate_signal_quality r (applyOps SignalQualityCalculator.new ops)
          (QueryClock.at q)).1.total_last_second
          = Int.ofNat ((fecCallsInWindow q ops).map (fun c => c.1)).sum)
    ∧ (((fecCallsInWindow q ops).map (fun c => c.2.1)).sum < 2147483648 →
        (calculate_signal_quality r (applyOps SignalQualityCalculator.new ops)
          (QueryClock.at q)).1.recovered_last_second
          = Int.ofNat ((fecCallsInWindow q ops).map (fun c => c.2.1)).sum)
    ∧ (((fecCallsInWindow q ops).map (fun c => c.2.2)).sum < 2147483648 →
        (calculate_signal_quality r (applyOps SignalQualityCalculator.new ops)
          (QueryClock.at q)).1.lost_last_second
          = Int.ofNat ((fecCallsInWindow q ops).map (fun c => c.2.2)).sum) := by
  obtain ⟨h1, h2, h3⟩ := fec_counts_mod r ops q
  refine ⟨⟨h1, h2, h3⟩, ?_, ?_, ?_⟩
  · intro h; rw [h1, toInt32_small _ h]; rfl
  · intro h; rw [h2, toInt32_small _ h]; rfl
  · intro h; rw [h3, toInt32_small _ h]; rfl

/-- Witness for C15 as amended: three `add_fec_data` calls, the first older than a second
at the query; the counts are those of the last two calls, field by field. -/
theorem fec_counts_are_window_sums_witness :
    (calculate_signal_quality Rounding.exact
        (applyOps SignalQualityCalculator.new
          [AddOp.add_fec_data 0 (fun i => i) 100 10 1,
           AddOp.add_fec_data 2000000000 (fun i => i) 12 3 0,
           AddOp.add_rssi 2000000001 40 50,
           AddOp.add_fec_data 2000000007 (fun i => i) 8 2 5])
        (QueryClock.at 2500000000)).1.total_last_second = 20
      ∧ (calculate_signal_quality Rounding.exact
        (applyOps SignalQualityCalculator.new
          [AddOp.add_fec_data 0 (fun i => i) 100 10 1,
           AddOp.add_fec_data 2000000000 (fun i => i) 12 3 0,
           AddOp.add_rssi 2000000001 40 50,
           AddOp.add_fec_data 2000000007 (fun i => i) 8 2 5])
        (QueryClock.at 2500000000)).1.recovered_last_second = 5
      ∧ (calculate_signal_quality Rounding.exact
        (applyOps SignalQualityCalculator.new
          [AddOp.add_fec_data 0 (fun i => i) 100 10 1,
           AddOp.add_fec_data 2000000000 (fun i => i) 12 3 0,
           AddOp.add_rssi 2000000001 40 50,
           AddOp.add_fec_data 2000000007 (fun i => i) 8 2 5])
        (QueryClock.at 2500000000)).1.lost_last_second = 5 :=
  ⟨(fec_counts_are_window_sums Rounding.exact
      [AddOp.add_fec_data 0 (fun i => i) 100 10 1,
       AddOp.add_fec_data 2000000000 (fun i => i) 12 3 0,
       AddOp.add_rssi 2000000001 40 50,
       AddOp.add_fec_data 2000000007 (fun i => i) 8 2 5] 2500000000).2.1 (by decide),
    (fec_counts_are_window_sums Rounding.exact
      [AddOp.add_fec_data 0 (fun i => i) 100 10 1,
       AddOp.add_fec_data 2000000000 (fun i => i) 12 3 0,
       AddOp.add_rssi 2000000001 40 50,
       AddOp.add_fec_data 2000000007 (fun i => i) 8 2 5] 2500000000).2.2.1 (by decide),
    (fec_counts_are_window_sums Rounding.exact
      [AddOp.add_fec_data 0 (fun i => i) 100 10 1,
       AddOp.add_fec_data 2000000000 (fun i => i) 12 3 0,
       AddOp.add_rssi 2000000001 40 50,
       AddOp.add_fec_data 2000000007 (fun i => i) 8 2 5] 2500000000).2.2.2 (by decide)⟩

/-! ## The end of the worker -/

/-- With no worker handle set and the USB calls succeeding, `Start` returns true. -/
theorem Start_succeeds (env : UsbEnv) (s : WFBReceiver) (vidPid : String) (channel : Nat)
    (channelWidthMode : Int) (kPath : String) (hidle : s.usbThread = none)
    (hinit : 0 ≤ env.init_rc)
    (hopen : (env.open_device (parseVidPid vidPid env.uninit_vid env.uninit_pid).1
      (parseVidPid vidPid env.uninit_vid env.uninit_pid).2).isSome)
    (hclaim : 0 ≤ env.claim_rc) :
    (Start env s vidPid channel channelWidthMode kPath).1 = true := by
  obtain ⟨h, hh⟩ := Option.isSome_iff_exists.mp hopen
  simp [Start, emit, hidle, not_lt.mpr hinit, not_lt.mpr hclaim, hh]

/-- The calls the worker makes from its `catch` clauses to its end. -/
theorem workerTeardown_events (s : WFBReceiver) (how : LoopExit) (release_rc : Int) :
    newEvents s (workerTeardown s how release_rc)
      = (match how with
          | LoopExit.runtime_error what => [Event.PutLog LogLevel.Error what]
          | _ => [])
        ++ [Event.libusb_release_interface s.devHandle]
        ++ (if release_rc < 0 then [Event.PutLog LogLevel.Error "Failed to release interface"]
            else [])
        ++ [Event.logger_info "USB thread stopped", Event.libusb_close s.devHandle,
            Event.libusb_exit s.ctx, Event.NotifyWifiStop] := by
  cases how <;> by_cases h : release_rc < 0 <;>
    simp [workerTeardown, Stop, emit, newEvents, h]

/-- C21: when the worker leaves the receive loop, by a normal return, by a driver error
(`std::runtime_error`, which it logs) or by any other exception, it releases the claimed
interface before it closes the device, clears the device handle and the USB context, runs
`Stop` (`playing` cleared, stop flag set on the device, `NotifyWifiStop`) and clears the
worker handle; a `Start` issued after that, with the USB calls succeeding, is not rejected:
it returns true. -/
theorem worker_teardown_allows_restart (s : WFBReceiver) (how : LoopExit) (release_rc : Int) :
    (∃ pre mid post, newEvents s (workerTeardown s how release_rc)
        = pre ++ Event.libusb_release_interface s.devHandle :: mid
            ++ Event.libusb_close s.devHandle :: post
      ∧ Event.NotifyWifiStop ∈ post
      ∧ (∀ what, how = LoopExit.runtime_error what →
          Event.PutLog LogLevel.Error what ∈ pre))
    ∧ (workerTeardown s how release_rc).devHandle = none
    ∧ (workerTeardown s how release_rc).ctx = none
    ∧ (workerTeardown s how release_rc).playing = false
    ∧ (workerTeardown s how release_rc).rtlDevice
        = s.rtlDevice.map (fun d => { d with should_stop := true })
    ∧ (workerTeardown s how release_rc).usbThread = none
    ∧ (∀ (env : UsbEnv) (vidPid : String) (channel : Nat) (channelWidthMode : Int)
        (kPath : String), 0 ≤ env.init_rc →
        (env.open_device (parseVidPid vidPid env.uninit_vid env.uninit_pid).1
          (parseVidPid vidPid env.uninit_vid env.uninit_pid).2).isSome →
        0 ≤ env.claim_rc →
        (Start env (workerTeardown s how release_rc) vidPid channel channelWidthMode
          kPath).1 = true) := by
  have hex : ∃ pre mid post, newEvents s (workerTeardown s how release_rc)
        = pre ++ Event.libusb_release_interface s.devHandle :: mid
            ++ Event.libusb_close s.devHandle :: post
      ∧ Event.NotifyWifiStop ∈ post
      ∧ (∀ what, how = LoopExit.runtime_error what →
          Event.PutLog LogLevel.Error what ∈ pre) := by
    rw [workerTeardown_events]
    cases how with
    | returned =>
      exact ⟨[], (if release_rc < 0 then
          [Event.PutLog LogLevel.Error "Failed to release interface"] else [])
          ++ [Event.logger_info "USB thread stopped"],
        [Event.libusb_exit s.ctx, Event.NotifyWifiStop], by simp, by simp,
        fun what hw => by cases hw⟩
    | other =>
      exact ⟨[], (if release_rc < 0 then
          [Event.PutLog LogLevel.Error "Failed to release interface"] else [])
          ++ [Event.logger_info "USB thread stopped"],
        [Event.libusb_exit s.ctx, Event.NotifyWifiStop], by simp, by simp,
        fun what hw => by cases hw⟩
    | runtime_error w =>
      exact ⟨[Event.PutLog LogLevel.Error w], (if release_rc < 0 then
          [Event.PutLog LogLevel.Error "Failed to release interface"] else [])
          ++ [Event.logger_info "USB thread stopped"],
        [Event.libusb_exit s.ctx, Event.NotifyWifiStop], by simp, by simp,
        fun what hw => by cases hw; simp⟩
  have hfields : (workerTeardown s how release_rc).devHandle = none
      ∧ (workerTeardown s how release_rc).ctx = none
      ∧ (workerTeardown s how release_rc).playing = false
      ∧ (workerTeardown s how release_rc).rtlDevice
          = s.rtlDevice.map (fun d => { d with should_stop := true })
      ∧ (workerTeardown s how release_rc).usbThread = none := by
    cases how <;> by_cases h : release_rc < 0 <;> simp [workerTeardown, Stop, emit, h]
  refine ⟨hex, hfields.1, hfields.2.1, hfields.2.2.1, hfields.2.2.2.1, hfields.2.2.2.2, ?_⟩
  intro env vidPid channel channelWidthMode kPath h1 h2 h3
  exact Start_succeeds env _ vidPid channel channelWidthMode kPath hfields.2.2.2.2 h1 h2 h3

/-- Witness for C21: the worker of `runningReceiver` ends on a driver error, and a new
`Start` succeeds. -/
theorem worker_teardown_allows_restart_witness :
    (Start usbPresent
      (workerTeardown (workerCreateDevice runningReceiver { should_stop := false })
        (LoopExit.runtime_error "device lost") 0) "0bda:8812" 173 0 "gs.key").1 = true :=
  (worker_teardown_allows_restart (workerCreateDevice runningReceiver { should_stop := false })
    (LoopExit.runtime_error "device lost") 0).2.2.2.2.2.2 usbPresent "0bda:8812" 173 0 "gs.key"
    (by decide) rfl (by decide)

/-! ## The frame counters -/

theorem handleRtpAll_congr (ext ext1 : Externals) (hp : ext1.payloadOffset = ext.payloadOffset)
    (hpt : ext1.pt = ext.pt) (hs : ext1.ssrcOffset = ext.ssrcOffset)
    (hl : ext1.littleEndian = ext.littleEndian) (ds : List Datagram) :
    ∀ s : WFBReceiver, handleRtpAll ext1 s ds = handleRtpAll ext s ds := by
  have hone : ∀ (s : WFBReceiver) (d : Datagram), handleRtp ext1 s d = handleRtp ext s d := by
    intro s d
    simp only [handleRtp, hp, hpt, hs, hl]
  induction ds with
  | nil => intro s; rfl
  | cons d ds ih =>
    intro s
    simp only [handleRtpAll, hone, ih]

/-- C24: the channel identity `(link_id << 8) + video_radio_port` with
`link_id = 7669206` and port 0 is `0x7505D600`, computed without 32-bit overflow; the four
bytes `video_channel_id_be8` are `75 05 D6 00` on a host of either byte order; and these
same four bytes are what `handle80211Frame` passes to `MatchesChannelID` for every frame:
its result depends on `MatchesChannelID` only through the values at these bytes. -/
theorem channel_identity_bytes :
    link_id * 256 + video_radio_port < 4294967296
      ∧ video_channel_id_f = link_id * 256 + video_radio_port
      ∧ video_channel_id_f = 0x7505D600
      ∧ (∀ littleEndian : Bool, video_channel_id_be8 littleEndian = [0x75, 0x05, 0xD6, 0x00])
      ∧ (∀ (ext : Externals) (matches1 : List Nat → List Nat → Bool) (s : WFBReceiver)
          (packet : Packet) (recovered : List Datagram),
          (∀ data, matches1 data [0x75, 0x05, 0xD6, 0x00]
            = ext.MatchesChannelID data [0x75, 0x05, 0xD6, 0x00]) →
          handle80211Frame { ext with MatchesChannelID := matches1 } s packet recovered
            = handle80211Frame ext s packet recovered) := by
  have hbytes : ∀ littleEndian : Bool,
      video_channel_id_be8 littleEndian = [0x75, 0x05, 0xD6, 0x00] := by
    intro le
    cases le <;> decide
  refine ⟨by decide, by decide, by decide, hbytes, ?_⟩
  intro ext matches1 s packet recovered hm
  have hc := handleRtpAll_congr ext { ext with MatchesChannelID := matches1 } rfl rfl rfl rfl
    recovered
  by_cases hv : ext.IsValidWfbFrame packet.Data = true
  · by_cases hmm : ext.MatchesChannelID packet.Data [0x75, 0x05, 0xD6, 0x00] = true
    · simp only [handle80211Frame, payloadSize, hbytes, hm, hv, hmm, hc]
    · simp [handle80211Frame, hbytes, hm, hv, hmm]
  · simp [handle80211Frame, hv]

/-- Witness for C24: a predicate that agrees with the one of `rfcExternals` on the bytes
`75 05 D6 00` and rejects every other identity gives the same result on `videoFrame`. -/
theorem channel_identity_bytes_witness :
    handle80211Frame
        { rfcExternals with
          MatchesChannelID := fun data ch =>
            ch == [0x75, 0x05, 0xD6, 0x00] && rfcExternals.MatchesChannelID data ch }
        freshReceiver videoFrame []
      = handle80211Frame rfcExternals freshReceiver videoFrame [] :=
  channel_identity_bytes.2.2.2.2 rfcExternals
    (fun data ch => ch == [0x75, 0x05, 0xD6, 0x00] && rfcExternals.MatchesChannelID data ch)
    freshReceiver videoFrame [] (fun data => by simp)

/-! ## The empty window -/

/-- C25 (the code departs from the claim): a datagram of exactly 12 bytes passes the
`packet_size < 12` check and is accepted; with the header layout of RFC 3550 its payload
starts at offset 12, which is not less than `packet_size`; codec detection runs on it and
inspects the byte at offset 12, behind the end of the datagram: two datagrams with the
same 12 bytes give `H264` or `H265` according to the byte that follows them in memory. -/
theorem codec_byte_outside_datagram :
    accepted (workerCreateDevice freshReceiver { should_stop := false }) (datagram12 124) = true
      ∧ (datagram12 124).packet_size = 12
      ∧ rfcExternals.payloadOffset (datagram12 124).payload = 12
      ∧ ¬ (rfcExternals.payloadOffset (datagram12 124).payload < (datagram12 124).packet_size)
      ∧ (datagram12 124).payload.take (datagram12 124).packet_size
          = (datagram12 65).payload.take (datagram12 65).packet_size
      ∧ ∃ s1 s2,
          handleRtp rfcExternals (workerCreateDevice freshReceiver { should_stop := false })
            (datagram12 124) = some s1
          ∧ s1.gui.playerCodec = "H264"
          ∧ handleRtp rfcExternals (workerCreateDevice freshReceiver { should_stop := false })
            (datagram12 65) = some s2
          ∧ s2.gui.playerCodec = "H265" := by
  refine ⟨by decide, rfl, by decide, by decide, by decide, _, _, rfl, by decide, rfl,
    by decide⟩

/-! ## The device identity -/

theorem digitChar_facts (d : Nat) (hd : d < 16) :
    hexDigitVal (Nat.digitChar d) = some d
      ∧ isspace (Nat.digitChar d) = false
      ∧ (Nat.digitChar d).toNat ≠ 45
      ∧ (Nat.digitChar d).toNat ≠ 43
      ∧ (Nat.digitChar d).toNat ≠ 120
      ∧ (Nat.digitChar d).toNat ≠ 88
      ∧ ((Nat.digitChar d).toNat = 48 ↔ d = 0) := by
  interval_cases d <;> decide

/-- The four characters of a 16-bit value written in hexadecimal, zero-padded to width 4. -/
theorem padLeft_toHex (v : Nat) (hv : v < 65536) :
    padLeft 4 '0' (toHex v)
      = [Nat.digitChar (v / 4096), Nat.digitChar (v / 256 % 16), Nat.digitChar (v / 16 % 16),
          Nat.digitChar (v % 16)] := by
  have hmod : v % 65536 = v := Nat.mod_eq_of_lt hv
  have hzero : Nat.digitChar 0 = '0' := rfl
  by_cases h1 : v / 16 = 0
  · have a : v / 4096 = 0 := by omega
    have b : v / 256 % 16 = 0 := by omega
    have c : v / 16 % 16 = 0 := by omega
    rw [a, b, c, hzero]
    simp [toHex, hexDigitsLoop, hmod, h1, padLeft, List.replicate]
  · by_cases h2 : v / 16 / 16 = 0
    · have a : v / 4096 = 0 := by omega
      have b : v / 256 % 16 = 0 := by omega
      rw [a, b, hzero]
      simp [toHex, hexDigitsLoop, hmod, h1, h2, padLeft, List.replicate]
    · by_cases h3 : v / 16 / 16 / 16 = 0
      · have a : v / 4096 = 0 := by omega
        have b : v / 16 / 16 % 16 = v / 256 % 16 := by omega
        rw [a, hzero, ← b]
        simp [toHex, hexDigitsLoop, hmod, h1, h2, h3, padLeft, List.replicate]
      · have a : v / 16 / 16 / 16 / 16 = 0 := by omega
        have b : v / 16 / 16 % 16 = v / 256 % 16 := by omega
        have c : v / 16 / 16 / 16 % 16 = v / 4096 := by omega
        rw [← b, ← c]
        simp [toHex, hexDigitsLoop, hmod, h1, h2, h3, a, padLeft]

theorem hexRun_digit (d : Nat) (hd : d < 16) (cs : List Char) (acc n : Nat) :
    hexRun (Nat.digitChar d :: cs) acc n = hexRun cs (16 * acc + d) (n + 1) := by
  simp [hexRun, (digitChar_facts d hd).1]

theorem hexRun_stop (rest : List Char) (acc n : Nat)
    (hrest : rest = [] ∨ ∃ c cs, rest = c :: cs ∧ hexDigitVal c = none) :
    hexRun rest acc n = (acc, n, rest) := by
  rcases hrest with h | ⟨c, cs, h, hc⟩
  · subst h; rfl
  · subst h; simp [hexRun, hc]

/-- Extraction of four hexadecimal digits followed by a character that is not one. -/
theorem extractHex_four (d3 d2 d1 d0 : Nat) (h3 : d3 < 16) (h2 : d2 < 16) (h1 : d1 < 16)
    (h0 : d0 < 16) (rest : List Char) (old : Nat)
    (hrest : rest = [] ∨ ∃ c cs, rest = c :: cs ∧ hexDigitVal c = none) :
    extractHex
        { rest := Nat.digitChar d3 :: Nat.digitChar d2 :: Nat.digitChar d1 :: Nat.digitChar d0
            :: rest, fail := false } old
      = (4096 * d3 + 256 * d2 + 16 * d1 + d0, { rest := rest, fail := false }) := by
  obtain ⟨-, hsp, hm, hpl, -, -, hz⟩ := digitChar_facts d3 h3
  obtain ⟨-, -, -, -, hx, hX, -⟩ := digitChar_facts d2 h2
  by_cases hd3 : d3 = 0
  · have hzero : (Nat.digitChar d3).toNat = 48 := hz.mpr hd3
    have hval : 16 * (16 * d2 + d1) + d0 = 4096 * d3 + 256 * d2 + 16 * d1 + d0 := by omega
    have hbound : ¬ 4294967295 < 4096 * d3 + 256 * d2 + 16 * d1 + d0 := by omega
    simp [extractHex, skipws, hsp, hm, hpl, hzero, hx, hX, hexRun_digit _ h2,
      hexRun_digit _ h1, hexRun_digit _ h0, hexRun_stop rest _ _ hrest, hval, hbound]
  · have hnz : (Nat.digitChar d3).toNat ≠ 48 := fun h => hd3 (hz.mp h)
    have hval : 16 * (16 * (16 * d3 + d2) + d1) + d0
        = 4096 * d3 + 256 * d2 + 16 * d1 + d0 := by omega
    have hbound : ¬ 4294967295 < 4096 * d3 + 256 * d2 + 16 * d1 + d0 := by omega
    simp [extractHex, skipws, hsp, hm, hpl, hnz, hexRun_digit _ h3, hexRun_digit _ h2,
      hexRun_digit _ h1, hexRun_digit _ h0, hexRun_stop rest _ _ hrest, hval, hbound]

theorem digitChar_lowercase (d : Nat) (hd : d < 16) :
    Nat.digitChar d ∈ "0123456789abcdef".toList := by
  interval_cases d <;> decide

/-- The characters of a list entry. -/
theorem dongleEntry_chars (v p : Nat) (hv : v < 65536) (hp : p < 65536) :
    (dongleEntry v p).toList
      = [Nat.digitChar (v / 4096), Nat.digitChar (v / 256 % 16), Nat.digitChar (v / 16 % 16),
          Nat.digitChar (v % 16), ':',
          Nat.digitChar (p / 4096), Nat.digitChar (p / 256 % 16), Nat.digitChar (p / 16 % 16),
          Nat.digitChar (p % 16)] := by
  simp [dongleEntry, padLeft_toHex v hv, padLeft_toHex p hp]

/-- Parsing a list entry gives back the two identifiers. -/
theorem parseVidPid_dongleEntry (v p uvid upid : Nat) (hv : v < 65536) (hp : p < 65536) :
    parseVidPid (dongleEntry v p) uvid upid = (v, p) := by
  have hcolon : hexDigitVal ':' = none := by decide
  have hcsp : isspace ':' = false := by decide
  have e1 := extractHex_four (v / 4096) (v / 256 % 16) (v / 16 % 16) (v % 16)
    (by omega) (by omega) (by omega) (by omega)
    (':' :: [Nat.digitChar (p / 4096), Nat.digitChar (p / 256 % 16),
      Nat.digitChar (p / 16 % 16), Nat.digitChar (p % 16)]) uvid
    (Or.inr ⟨':', _, rfl, hcolon⟩)
  have e2 := extractHex_four (p / 4096) (p / 256 % 16) (p / 16 % 16) (p % 16)
    (by omega) (by omega) (by omega) (by omega) [] upid (Or.inl rfl)
  have hvv : 4096 * (v / 4096) + 256 * (v / 256 % 16) + 16 * (v / 16 % 16) + v % 16 = v := by
    omega
  have hpp : 4096 * (p / 4096) + 256 * (p / 256 % 16) + 16 * (p / 16 % 16) + p % 16 = p := by
    omega
  simp only [parseVidPid, dongleEntry_chars v p hv hp, e1, extractChar, skipws, hcsp, hvv]
  simp
  rw [e2, hpp]

/-- C23: `Start` parses the device identity as two hexadecimal numbers separated by one
character, and this parse inverts the formatting of `GetDongleList`: for every pair of
16-bit identifiers `(v, p)` the list entry is exactly 9 characters, four zero-padded
lowercase hexadecimal digits, a colon, four zero-padded lowercase hexadecimal digits;
parsing it yields `(v, p)`, and these are the identifiers `Start` opens the device with;
`0bda:8812` parses to vendor `0x0bda` and product `0x8812`. -/
theorem dongle_entry_roundtrip (v p uvid upid : Nat) (hv : v < 65536) (hp : p < 65536) :
    (dongleEntry v p).length = 9
      ∧ (∃ a b c d e f g h, (dongleEntry v p).toList = [a, b, c, d, ':', e, f, g, h]
          ∧ ∀ x ∈ [a, b, c, d, e, f, g, h], x ∈ "0123456789abcdef".toList)
      ∧ parseVidPid (dongleEntry v p) uvid upid = (v, p)
      ∧ (∀ (env : UsbEnv) (s : WFBReceiver) (channel : Nat) (channelWidthMode : Int)
          (kPath : String), s.usbThread = none → 0 ≤ env.init_rc →
          Event.libusb_open_device_with_vid_pid v p
            ∈ newEvents s (Start env s (dongleEntry v p) channel channelWidthMode kPath).2)
      ∧ dongleEntry 0x0bda 0x8812 = "0bda:8812"
      ∧ parseVidPid "0bda:8812" uvid upid = (0x0bda, 0x8812) := by
  have hchars := dongleEntry_chars v p hv hp
  refine ⟨?_, ?_, parseVidPid_dongleEntry v p uvid upid hv hp, ?_, by decide, ?_⟩
  · have hlen : (dongleEntry v p).length = (dongleEntry v p).toList.length := rfl
    rw [hlen, hchars]
    rfl
  · refine ⟨_, _, _, _, _, _, _, _, hchars, ?_⟩
    intro x hx
    simp only [List.mem_cons, List.mem_singleton, List.not_mem_nil, or_false] at hx
    rcases hx with h | h | h | h | h | h | h | h <;> subst h <;>
      exact digitChar_lowercase _ (by omega)
  · intro env s channel channelWidthMode kPath hidle hinit
    have hparse := fun a b => parseVidPid_dongleEntry v p a b hv hp
    cases hopen : env.open_device v p with
    | none =>
      simp [Start, emit, hidle, not_lt.mpr hinit, hparse, hopen, newEvents]
    | some h =>
      by_cases hk : env.kernel_driver_active = true <;> by_cases hc : env.claim_rc < 0 <;>
        simp [Start, emit, hidle, not_lt.mpr hinit, hparse, hopen, newEvents, hk, hc]
  · have h := parseVidPid_dongleEntry 0x0bda 0x8812 uvid upid (by decide) (by decide)
    have he : dongleEntry 0x0bda 0x8812 = "0bda:8812" := by decide
    rw [he] at h
    exact h

/-- Witness for C23: the entry for vendor `0x0b05`, product `0x17d2`. -/
theorem dongle_entry_roundtrip_witness :
    (dongleEntry 0x0b05 0x17d2).length = 9
      ∧ parseVidPid (dongleEntry 0x0b05 0x17d2) 0 0 = (0x0b05, 0x17d2)
      ∧ dongleEntry 0x0b05 0x17d2 = "0b05:17d2" :=
  ⟨(dongle_entry_roundtrip 0x0b05 0x17d2 0 0 (by decide) (by decide)).1,
    (dongle_entry_roundtrip 0x0b05 0x17d2 0 0 (by decide) (by decide)).2.2.1, by decide⟩

/-! ## The codec decision of a session -/

end Aviateur
